import Mathlib

/-!
# The Direct3D8 video driver (gfx/drivers/d3d8.c)

A shallow embedding of the driver as state-passing functions, and theorems about it.

Conventions of the embedding:

* The build modelled is the desktop one: the `_XBOX` branches are left out, and
  `HAVE_MENU` and `HAVE_OVERLAY` are defined.
* A pointer that the source compares with NULL is an `Option`; a pointer that the
  source dereferences unchecked is the value itself.
* Handles of Direct3D objects (textures, vertex buffers, devices) are natural numbers,
  `0` being NULL.
* The C type `float` is a type `F` with an uninterpreted arithmetic `FloatOps F`: no law
  of arithmetic is assumed unless a theorem states it. `exactOps` is the instance of
  exact rational arithmetic, `binary32Ops` the one of IEEE 754 binary32 within its
  normal range.
* Everything outside the driver structure lives in `World` (what the driver's calls
  change: the size kept by the video driver, the custom viewport, the global
  `g_pD3D8`, vertex-buffer memory, and the log of device calls) and in `Env` (what they
  only read: the settings, the answers of the Direct3D runtime, the window state).
* A call into the Direct3D runtime whose result the driver tests takes its result from
  `Env.oracle`, at the position `World.tick`, and advances the tick: every sequence of
  successes and failures is some oracle.
* `calloc` is taken to succeed.
-/

namespace D3D8

/-! ## Floating point -/

/-- Arithmetic on the C type float, uninterpreted. -/
structure FloatOps (F : Type) where
  /-- The float nearest to a rational: literals and conversions from integers. -/
  ofRat : ℚ → F
  add : F → F → F
  sub : F → F → F
  mul : F → F → F
  div : F → F → F
  neg : F → F
  /-- The C function fabsf. -/
  abs : F → F
  /-- The comparison `<`. -/
  lt : F → F → Bool
  /-- The C function roundf followed by the conversion to an integer. -/
  roundf : F → Int
  /-- The conversion `(uint32_t)x`. -/
  toU32 : F → Nat
  cos : F → F
  sin : F → F

/-- Conversion of an unsigned value to float. -/
def FloatOps.ofNat {F : Type} (ops : FloatOps F) (n : Nat) : F := ops.ofRat (n : ℚ)

/-- Rounding to the nearest integer, halves away from zero, as roundf does. -/
def roundHalfAway (q : ℚ) : Int :=
  if 0 ≤ q then Rat.floor (q + 1 / 2) else - Rat.floor (- q + 1 / 2)

/-- Exact rational arithmetic. The trigonometric functions are truncated series. -/
def exactOps : FloatOps ℚ where
  ofRat := fun q => q
  add := fun a b => a + b
  sub := fun a b => a - b
  mul := fun a b => a * b
  div := fun a b => a / b
  neg := fun a => - a
  abs := fun a => if 0 ≤ a then a else - a
  lt := fun a b => decide (a < b)
  roundf := roundHalfAway
  toU32 := fun a => (Rat.floor a).toNat % 2 ^ 32
  cos := fun x => 1 - x ^ 2 / 2 + x ^ 4 / 24
  sin := fun x => x - x ^ 3 / 6 + x ^ 5 / 120

/-- The quotient n / d of two naturals, d not 0, rounded to the nearest natural, a tie
to the even one. -/
def roundNearestEven (n d : Nat) : Nat :=
  let q := n / d
  let r := n % d
  if 2 * r < d then q
  else if 2 * r = d then (if q % 2 = 0 then q else q + 1)
  else q + 1

/-- The number of binary digits of n, by halving at most `fuel` times. -/
def bitLength : Nat → Nat → Nat
  | 0, _ => 0
  | fuel + 1, n => if n = 0 then 0 else bitLength fuel (n / 2) + 1

/-- The exponent of the leading binary digit of a / d, for a and d not 0. -/
def floorLog2 (a d : Nat) : Int :=
  let l : Int := (bitLength a a : Int) - (bitLength d d : Int)
  let below : Bool :=
    if 0 ≤ l then decide (a < d * 2 ^ l.toNat) else decide (a * 2 ^ (-l).toNat < d)
  if below = true then l - 1 else l

/-- The value with a significand of 24 binary digits that is nearest to a rational, a
tie to the even significand: the rounding of IEEE 754 binary32 within its normal range.
The range of the exponent is not bounded. -/
def round32 (q : ℚ) : ℚ :=
  if q = 0 then 0
  else
    let a := q.num.natAbs
    let d := q.den
    let k : Int := floorLog2 a d - 23
    let s : Nat :=
      if 0 ≤ k then roundNearestEven a (d * 2 ^ k.toNat)
      else roundNearestEven (a * 2 ^ (-k).toNat) d
    let m : Int := if q.num < 0 then - (s : Int) else (s : Int)
    if 0 ≤ k then ((m * 2 ^ k.toNat : Int) : ℚ) else mkRat m (2 ^ (-k).toNat)

/-- The arithmetic of the C type float as IEEE 754 binary32, on values within its normal
range: a literal, a conversion and the result of an addition, subtraction,
multiplication or division are the exact value rounded to the nearest float, a tie to
even; the negation, fabsf, the comparison and roundf are exact. Overflow, subnormal
numbers, infinities and NaN are left out. The trigonometric functions are the truncated
series, rounded. -/
def binary32Ops : FloatOps ℚ where
  ofRat := round32
  add := fun a b => round32 (a + b)
  sub := fun a b => round32 (a - b)
  mul := fun a b => round32 (a * b)
  div := fun a b => round32 (a / b)
  neg := fun a => - a
  abs := fun a => if 0 ≤ a then a else - a
  lt := fun a b => decide (a < b)
  roundf := roundHalfAway
  toU32 := fun a => (Rat.floor a).toNat % 2 ^ 32
  cos := fun x => round32 (1 - x ^ 2 / 2 + x ^ 4 / 24)
  sin := fun x => round32 (x - x ^ 3 / 6 + x ^ 5 / 120)

/-! ## Matrices (gfx/common/d3d_common.c) -/

/-- A 4x4 matrix of floats, row first (D3DMATRIX). -/
abbrev Mat4 (F : Type) := Fin 4 → Fin 4 → F

/-- Modelled from the spec: d3d_matrix_identity of gfx/common/d3d_common.c, which is not
under src/. The identity matrix. -/
def d3d_matrix_identity {F : Type} (ops : FloatOps F) : Mat4 F :=
  fun i j => if i = j then ops.ofRat 1 else ops.ofRat 0

/-- Modelled from the spec: d3d_matrix_transpose of gfx/common/d3d_common.c, which is not
under src/. -/
def d3d_matrix_transpose {F : Type} (m : Mat4 F) : Mat4 F := fun i j => m j i

/-- Modelled from the spec: d3d_matrix_multiply of gfx/common/d3d_common.c, which is not
under src/. The product of two matrices, the first one on the left. -/
def d3d_matrix_multiply {F : Type} (ops : FloatOps F) (a b : Mat4 F) : Mat4 F :=
  fun i j =>
    ops.add (ops.add (ops.add (ops.mul (a i 0) (b 0 j)) (ops.mul (a i 1) (b 1 j)))
      (ops.mul (a i 2) (b 2 j))) (ops.mul (a i 3) (b 3 j))

/-- Modelled from the spec: d3d_matrix_ortho_off_center_lh of gfx/common/d3d_common.c,
which is not under src/. The left-handed off-centre orthographic projection of Direct3D. -/
def d3d_matrix_ortho_off_center_lh {F : Type} (ops : FloatOps F)
    (l r b t zn zf : F) : Mat4 F :=
  fun i j =>
    match i.val, j.val with
    | 0, 0 => ops.div (ops.ofRat 2) (ops.sub r l)
    | 1, 1 => ops.div (ops.ofRat 2) (ops.sub t b)
    | 2, 2 => ops.div (ops.ofRat 1) (ops.sub zf zn)
    | 3, 0 => ops.div (ops.add l r) (ops.sub l r)
    | 3, 1 => ops.div (ops.add t b) (ops.sub b t)
    | 3, 2 => ops.div zn (ops.sub zn zf)
    | 3, 3 => ops.ofRat 1
    | _, _ => ops.ofRat 0

/-- Modelled from the spec: d3d_matrix_rotation_z of gfx/common/d3d_common.c, which is not
under src/. It writes the four entries of a rotation about the Z axis into the matrix
it is given. -/
def d3d_matrix_rotation_z {F : Type} (ops : FloatOps F) (pout : Mat4 F) (angle : F) :
    Mat4 F :=
  fun i j =>
    match i.val, j.val with
    | 0, 0 => ops.cos angle
    | 1, 1 => ops.cos angle
    | 0, 1 => ops.sin angle
    | 1, 0 => ops.neg (ops.sin angle)
    | _, _ => pout i j

/-- The constant `M_PI / 2.0`. -/
def M_PI_2 {F : Type} (ops : FloatOps F) : F :=
  ops.ofRat (314159265358979323846 / 200000000000000000000)

/-! ## Data model -/

/-- The type struct video_viewport. -/
structure VideoViewport where
  x : Int
  y : Int
  width : Nat
  height : Nat
  full_width : Nat
  full_height : Nat
  deriving DecidableEq, Repr

/-- The viewport handed to Direct3D (the field final_viewport). The depth range is
written as 0 and 0 by d3d8_set_viewport and is not kept. -/
structure D3DViewport where
  x : Int
  y : Int
  width : Nat
  height : Nat
  deriving DecidableEq, Repr

/-- The type Vertex: position, texture coordinates, colour. -/
structure Vertex (F : Type) where
  x : F
  y : F
  z : F
  u : F
  v : F
  color : Nat

/-- Four floats: the arrays tex_coords and vert_coords. -/
structure Coords (F : Type) where
  c0 : F
  c1 : F
  c2 : F
  c3 : F

/-- The type overlay_t. -/
structure Overlay (F : Type) where
  fullscreen : Bool
  enabled : Bool
  tex_coords : Coords F
  vert_coords : Coords F
  alpha_mod : F
  tex_w : Nat
  tex_h : Nat
  tex : Nat
  vert_buf : Nat

/-- The type d3d8_renderchain_t. The field video_info is never read and is left out. -/
structure Renderchain where
  pixel_size : Nat
  dev : Nat
  tex : Nat
  vertex_buf : Nat
  last_width : Nat
  last_height : Nat
  vertex_decl : Nat
  tex_w : Nat
  tex_h : Nat
  frame_count : Nat
  deriving DecidableEq, Repr

/-- The fields of video_info_t that the driver reads. -/
structure VideoInfo where
  width : Nat
  height : Nat
  fullscreen : Bool
  vsync : Bool
  force_aspect : Bool
  rgb32 : Bool
  is_threaded : Bool
  input_scale : Nat
  deriving DecidableEq, Repr

/-- The fields of video_frame_info_t that the driver reads. -/
structure VideoFrameInfo where
  width : Nat
  height : Nat
  black_frame_insertion : Bool
  deriving DecidableEq, Repr

/-- The anonymous structure menu_display of d3d_video_t. -/
structure MenuDisplay where
  size : Int
  offset : Int
  buffer : Nat
  decl : Nat
  deriving DecidableEq, Repr

/-- The type d3d_video_t. The array `overlays` and its length `overlays_size` are one
list: the source sets the two together. -/
structure D3DVideo (F : Type) where
  keep_aspect : Bool
  should_resize : Bool
  quitting : Bool
  needs_restore : Bool
  overlays_enabled : Bool
  cur_mon_id : Nat
  dev_rotation : Nat
  menu : Option (Overlay F)
  renderchain_data : Option Renderchain
  mvp : Mat4 F
  mvp_rotate : Mat4 F
  mvp_transposed : Mat4 F
  video_info : VideoInfo
  dev : Nat
  final_viewport : D3DViewport
  menu_display : MenuDisplay
  overlays : List (Overlay F)

/-- The field overlays_size. -/
def D3DVideo.overlays_size {F : Type} (d3d : D3DVideo F) : Nat := d3d.overlays.length

/-- The type struct texture_image. -/
structure TextureImage where
  width : Nat
  height : Nat
  pixels : List Nat
  deriving DecidableEq, Repr

/-- Which quad a draw call draws. -/
inductive Quad where
  | main
  | menu
  | overlay (index : Nat)
  deriving DecidableEq, Repr

/-- The calls into the Direct3D runtime and the frontend that the log records. The calls
that set sampler states, render states, the vertex shader, the stream source and the
blend function are not recorded. -/
inductive Event where
  | clear
  | setViewports (x y : Int) (width height : Nat)
  | d3dSwap (ok : Bool)
  | setTexture (tex : Nat)
  | lockRectangle (tex flags : Nat) (ok : Bool)
  | lockRectangleClear (tex : Nat)
  | textureBlit (tex width height pitch : Nat)
  | textureUpload (tex width height : Nat)
  | unlockRectangle (tex : Nat)
  | vertexBufferWrite (buf : Nat)
  | drawPrimitive (quad : Quad)
  | menuDriverFrame
  | renderMsg (msg : String)
  | updateWindowTitle
  | swapBuffers
  | textureNew (tex : Nat)
  | textureFree (tex : Nat)
  | vertexBufferNew (buf : Nat)
  | vertexBufferFree (buf : Nat)
  | fontFreeOsd
  | fontInitOsd
  | menuDeinit
  | menuInit
  | d3dCreate (handle : Nat)
  | createDevice (dev : Nat)
  | d3dReset (ok : Bool)
  | deviceFree
  | showMouse (state : Bool)
  | swapInterval (interval : Nat)
  | textureWrite (tex : Nat) (rows : List (List Nat))
  | windowInit
  | windowCreate (width height : Nat) (fullscreen : Bool)
  | inputDriver
  | symbolsInit (ok : Bool)
  | contextInit (ctx : Nat)
  | contextSet
  | contextDestroy
  deriving DecidableEq, Repr

/-- The fields of settings_t that the driver reads. -/
structure Settings where
  video_scale_integer : Bool
  video_smooth : Bool
  video_windowed_fullscreen : Bool
  video_aspect_ratio_idx : Nat
  video_swap_interval : Nat
  deriving DecidableEq, Repr

/-- What the driver's calls change outside the driver structure. -/
structure World (F : Type) where
  /-- The global g_pD3D8. -/
  g_pD3D8 : Nat
  /-- The size that video_driver_get_size reports. -/
  drv_width : Nat
  drv_height : Nat
  /-- The value that video_driver_get_aspect_ratio reports. -/
  aspect_ratio : F
  /-- The viewport that video_viewport_get_custom points to. -/
  custom_vp : VideoViewport
  /-- The contents of the vertex buffers, by handle. -/
  vbuf : Nat → List (Vertex F)
  /-- The transform D3DTS_WORLD of the device. -/
  transform_world : Mat4 F
  /-- The globals g_resize_width and g_resize_height of the window code. -/
  g_resize_width : Nat
  g_resize_height : Nat
  /-- The number of answers of the runtime taken so far. -/
  tick : Nat
  /-- The calls made so far, oldest first. -/
  trace : List Event

/-- What the driver's calls only read. -/
structure Env (F : Type) where
  settings : Settings
  /-- The enumeration value ASPECT_RATIO_CUSTOM. -/
  ASPECT_RATIO_CUSTOM : Nat
  /-- The macro RARCH_SCALE_BASE. -/
  RARCH_SCALE_BASE : Nat
  /-- The value `aspectratio_lut[idx].value`, read after the viewport helpers ran. -/
  aspectratio_lut : Nat → F
  /-- The call video_context_driver_translate_aspect: the aspect the context driver
  gives for a size, or none when it has no translation and leaves the float alone. -/
  translate_aspect : Nat → Nat → Option F
  /-- The call video_viewport_get_scaled_integer, from the zeroed viewport. -/
  scaled_integer : Nat → Nat → F → Bool → VideoViewport
  /-- The answers of the Direct3D runtime, by position. -/
  oracle : Nat → Nat
  /-- The contents of the local `matrix` of d3d8_set_viewport, which is never written. -/
  uninit_matrix : Mat4 F
  /-- The call IsIconic on the window. -/
  is_iconic : Bool
  /-- The width of the type uintptr_t, in bits: 32 or 64 with the target. -/
  uintptr_bits : Nat
  /-- The width and height of the monitor that win32_monitor_info reports, and its
  index. -/
  mon_width : Nat
  mon_height : Nat
  mon_id : Nat

/-- Append a call to the log. -/
def World.log {F : Type} (w : World F) (ev : Event) : World F :=
  { w with trace := w.trace ++ [ev] }

/-- The next answer of the runtime. -/
def answer {F : Type} (e : Env F) (w : World F) : Nat := e.oracle w.tick

/-- Move past the answer just taken. -/
def World.next {F : Type} (w : World F) : World F := { w with tick := w.tick + 1 }

/-- Write four vertices into a vertex buffer (lock, memcpy, unlock). -/
def World.writeVbuf {F : Type} (w : World F) (buf : Nat) (vert : List (Vertex F)) :
    World F :=
  ({ w with vbuf := Function.update w.vbuf buf vert }).log (Event.vertexBufferWrite buf)

/-- The result of a call on a driver that is not NULL: the value returned, and the
state left behind. -/
structure Res (F : Type) (α : Type) where
  ret : α
  world : World F
  d3d : D3DVideo F

/-- The result of a call on a driver pointer that may be NULL. -/
structure ResN (F : Type) (α : Type) where
  ret : α
  world : World F
  d3d : Option (D3DVideo F)

/-- The flag D3DLOCK_NOSYSLOCK. -/
def D3DLOCK_NOSYSLOCK : Nat := 0x800

/-! ## The render chain -/

/-- The function d3d8_renderchain_set_mvp: projection and view are set to the identity,
the world transform to the transpose of the matrix given, or to the identity when none
is given. -/
def d3d8_renderchain_set_mvp {F : Type} (ops : FloatOps F) (w : World F)
    (mat_data : Option (Mat4 F)) : World F :=
  let matrix := d3d_matrix_identity ops
  let matrix :=
    match mat_data with
    | some m => d3d_matrix_transpose m
    | none => matrix
  { w with transform_world := matrix }

/-- The function d3d8_renderchain_create_first_pass, on the chain of the driver. -/
def d3d8_renderchain_create_first_pass {F : Type} (e : Env F) (w : World F)
    (chain : Renderchain) (_info : VideoInfo) : Bool × World F × Renderchain :=
  let vb := answer e w
  let w := w.next.log (Event.vertexBufferNew vb)
  let chain := { chain with vertex_buf := vb }
  if chain.vertex_buf = 0 then (false, w, chain)
  else
    let tex := answer e w
    let w := w.next.log (Event.textureNew tex)
    let chain := { chain with tex := tex }
    if chain.tex = 0 then (false, w, chain)
    else (true, w, chain)

/-- The four vertices that d3d8_renderchain_set_vertices writes. -/
def main_quad_vertices {F : Type} (ops : FloatOps F) (chain : Renderchain)
    (vert_width vert_height : Nat) : List (Vertex F) :=
  let tex_w := ops.ofNat vert_width
  let tex_h := ops.ofNat vert_height
  let o := ops.ofRat 0
  let i := ops.ofRat 1
  [ { x := o, y := i, z := i, u := o, v := o, color := 0xFFFFFFFF },
    { x := i, y := i, z := i, u := ops.div tex_w (ops.ofNat chain.tex_w), v := o,
      color := 0xFFFFFFFF },
    { x := o, y := o, z := i, u := o, v := ops.div tex_h (ops.ofNat chain.tex_h),
      color := 0xFFFFFFFF },
    { x := i, y := o, z := i, u := ops.div tex_w (ops.ofNat chain.tex_w),
      v := ops.div tex_h (ops.ofNat chain.tex_h), color := 0xFFFFFFFF } ]

/-- The function d3d8_renderchain_set_vertices. -/
def d3d8_renderchain_set_vertices {F : Type} (ops : FloatOps F) (w : World F)
    (data : Option (D3DVideo F)) (_pass vert_width vert_height _frame_count : Nat) :
    World F × Option (D3DVideo F) :=
  match data with
  | none => (w, none)
  | some d3d =>
    match d3d.renderchain_data with
    | none => (w, some d3d)
    | some chain =>
      if chain.last_width ≠ vert_width ∨ chain.last_height ≠ vert_height then
        let chain := { chain with last_width := vert_width, last_height := vert_height }
        let vert := main_quad_vertices ops chain vert_width vert_height
        (w.writeVbuf chain.vertex_buf vert, some { d3d with renderchain_data := some chain })
      else (w, some d3d)

/-- The function d3d8_renderchain_blit_to_texture. The chain comes back as it is left.
The call d3d_frame_postprocess does nothing outside the Xbox build. -/
def d3d8_renderchain_blit_to_texture {F : Type} (e : Env F) (w : World F)
    (chain : Renderchain) (width height pitch : Nat) : World F × Renderchain :=
  let w :=
    if chain.last_width ≠ width ∨ chain.last_height ≠ height then
      let ok := decide (answer e w ≠ 0)
      let w := w.next.log (Event.lockRectangle chain.tex D3DLOCK_NOSYSLOCK ok)
      w.log (Event.lockRectangleClear chain.tex)
    else w
  let w := w.log (Event.setTexture 0)
  let ok := decide (answer e w ≠ 0)
  let w := w.next.log (Event.lockRectangle chain.tex 0 ok)
  if ok = true then
    let w := w.log (Event.textureBlit chain.tex width height pitch)
    (w.log (Event.unlockRectangle chain.tex), chain)
  else (w, chain)

/-- The function d3d8_renderchain_free: the calls it makes on a chain. -/
def d3d8_renderchain_free {F : Type} (w : World F) (data : Option Renderchain) : World F :=
  match data with
  | none => w
  | some chain =>
    let w := if chain.tex ≠ 0 then w.log (Event.textureFree chain.tex) else w
    w.log (Event.vertexBufferFree chain.vertex_buf)

/-- The function d3d8_renderchain_viewport_info. -/
def d3d8_renderchain_viewport_info {F : Type} (w : World F) (data : Option (D3DVideo F))
    (vp : Option VideoViewport) : Option VideoViewport :=
  match data, vp with
  | some d3d, some _ =>
    some { x := d3d.final_viewport.x, y := d3d.final_viewport.y,
           width := d3d.final_viewport.width, height := d3d.final_viewport.height,
           full_width := w.drv_width, full_height := w.drv_height }
  | _, _ => vp

/-- The function d3d8_renderchain_render_pass. -/
def d3d8_renderchain_render_pass {F : Type} (ops : FloatOps F) (w : World F)
    (d3d : D3DVideo F) (chain : Renderchain) (_pass_index _rotation : Nat) : World F :=
  let w := w.log (Event.setTexture chain.tex)
  let w := w.log (Event.setViewports d3d.final_viewport.x d3d.final_viewport.y
    d3d.final_viewport.width d3d.final_viewport.height)
  let w := d3d8_renderchain_set_mvp ops w (some d3d.mvp_rotate)
  w.log (Event.drawPrimitive Quad.main)

/-- The function d3d8_renderchain_render. The chain pointer is dereferenced unchecked:
on a driver without a chain the C code crashes, and the model returns at once. -/
def d3d8_renderchain_render {F : Type} (ops : FloatOps F) (e : Env F) (w : World F)
    (d3d : D3DVideo F) (frame_width frame_height pitch rotation : Nat) : Res F Bool :=
  match d3d.renderchain_data with
  | none => { ret := true, world := w, d3d := d3d }
  | some chain =>
    let r := d3d8_renderchain_blit_to_texture e w chain frame_width frame_height pitch
    let d3d := { d3d with renderchain_data := some r.2 }
    let r := d3d8_renderchain_set_vertices ops r.1 (some d3d) 1 frame_width frame_height
      chain.frame_count
    let w := r.1
    let d3d := r.2.getD d3d
    match d3d.renderchain_data with
    | none => { ret := true, world := w, d3d := d3d }
    | some chain =>
      let w := d3d8_renderchain_render_pass ops w d3d chain 0 rotation
      let chain := { chain with frame_count := (chain.frame_count + 1) % 2 ^ 64 }
      { ret := true, world := w, d3d := { d3d with renderchain_data := some chain } }

/-- The function d3d8_renderchain_init, on the chain of the driver. -/
def d3d8_renderchain_init {F : Type} (e : Env F) (w : World F) (chain : Renderchain)
    (video_info : VideoInfo) (dev_data tex_w tex_h : Nat) (rgb32 : Bool) :
    Bool × World F × Renderchain :=
  let chain := { chain with dev := dev_data, pixel_size := if rgb32 then 4 else 2,
                            tex_w := tex_w, tex_h := tex_h }
  let r := d3d8_renderchain_create_first_pass e w chain video_info
  if r.1 = false then (false, r.2.1, r.2.2)
  else
    let w := r.2.1
    let cw := if w.custom_vp.width = 0 then w.drv_width else w.custom_vp.width
    let ch := if w.custom_vp.height = 0 then w.drv_height else w.custom_vp.height
    (true, { w with custom_vp := { w.custom_vp with width := cw, height := ch } }, r.2.2)

/-- The function d3d8_renderchain_new: a zeroed chain. -/
def d3d8_renderchain_new : Renderchain :=
  { pixel_size := 0, dev := 0, tex := 0, vertex_buf := 0, last_width := 0,
    last_height := 0, vertex_decl := 0, tex_w := 0, tex_h := 0, frame_count := 0 }

/-- The function d3d8_init_chain. -/
def d3d8_init_chain {F : Type} (e : Env F) (w : World F) (d3d : D3DVideo F)
    (video_info : VideoInfo) : Res F Bool :=
  let tex_w := (video_info.input_scale * e.RARCH_SCALE_BASE) % 2 ^ 32
  let tex_h := (video_info.input_scale * e.RARCH_SCALE_BASE) % 2 ^ 32
  let r := d3d8_renderchain_init e w d3d8_renderchain_new d3d.video_info d3d.dev
    tex_w tex_h d3d.video_info.rgb32
  { ret := r.1, world := r.2.1, d3d := { d3d with renderchain_data := some r.2.2 } }

/-- The function d3d8_viewport_info. -/
def d3d8_viewport_info {F : Type} (w : World F) (data : Option (D3DVideo F))
    (vp : Option VideoViewport) : Option VideoViewport :=
  match data with
  | some d3d => d3d8_renderchain_viewport_info w (some d3d) vp
  | none => vp

/-- The function d3d8_set_mvp. -/
def d3d8_set_mvp {F : Type} (ops : FloatOps F) (w : World F) (data : Option (D3DVideo F))
    (mat_data : Option (Mat4 F)) : World F :=
  match data with
  | some _ => d3d8_renderchain_set_mvp ops w mat_data
  | none => w

/-! ## Overlays: drawing and release -/

/-- The four vertices that d3d8_overlay_render writes. -/
def overlay_vertices {F : Type} (ops : FloatOps F) (overlay : Overlay F) :
    List (Vertex F) :=
  let z := ops.ofRat (1 / 2)
  let color :=
    (((ops.toU32 (ops.mul overlay.alpha_mod (ops.ofRat 255))) <<< 24) % 2 ^ 32) ||| 0xFFFFFF
  let vc := overlay.vert_coords
  let tc := overlay.tex_coords
  [ { x := vc.c0, y := vc.c1, z := z, u := tc.c0, v := tc.c1, color := color },
    { x := ops.add vc.c0 vc.c2, y := vc.c1, z := z, u := ops.add tc.c0 tc.c2, v := tc.c1,
      color := color },
    { x := vc.c0, y := ops.add vc.c1 vc.c3, z := z, u := tc.c0, v := ops.add tc.c1 tc.c3,
      color := color },
    { x := ops.add vc.c0 vc.c2, y := ops.add vc.c1 vc.c3, z := z, u := ops.add tc.c0 tc.c2,
      v := ops.add tc.c1 tc.c3, color := color } ]

/-- The function d3d8_overlay_render, for a driver and an overlay that are not NULL
(as at its two call sites). The argument `quad` names the overlay in the log. -/
def d3d8_overlay_render {F : Type} (ops : FloatOps F) (e : Env F) (w : World F)
    (d3d : D3DVideo F) (video_info : VideoFrameInfo) (quad : Quad) (overlay : Overlay F) :
    World F × Overlay F :=
  if overlay.tex = 0 then (w, overlay)
  else
    let r : World F × Overlay F :=
      if overlay.vert_buf = 0 then
        let vb := answer e w
        (w.next.log (Event.vertexBufferNew vb), { overlay with vert_buf := vb })
      else (w, overlay)
    let w := r.1
    let overlay := r.2
    if overlay.vert_buf = 0 then (w, overlay)
    else
      let _vp := d3d8_viewport_info w (some d3d) (some ⟨0, 0, 0, 0, 0, 0⟩)
      let w := w.writeVbuf overlay.vert_buf (overlay_vertices ops overlay)
      let w :=
        if overlay.fullscreen = true then
          w.log (Event.setViewports 0 0 video_info.width video_info.height)
        else w
      let w := w.log (Event.setTexture overlay.tex)
      let w := w.log (Event.drawPrimitive quad)
      (w.log (Event.setViewports d3d.final_viewport.x d3d.final_viewport.y
        d3d.final_viewport.width d3d.final_viewport.height), overlay)

/-- The function d3d8_free_overlay. -/
def d3d8_free_overlay {F : Type} (w : World F) (data : Option (D3DVideo F))
    (overlay : Overlay F) : World F :=
  match data with
  | none => w
  | some _ =>
    (w.log (Event.textureFree overlay.tex)).log (Event.vertexBufferFree overlay.vert_buf)

/-- The function d3d8_deinit_chain. -/
def d3d8_deinit_chain {F : Type} (w : World F) (d3d : D3DVideo F) : World F × D3DVideo F :=
  (d3d8_renderchain_free w d3d.renderchain_data, { d3d with renderchain_data := none })

/-- The function d3d8_deinitialize. -/
def d3d8_deinitialize {F : Type} (w : World F) (data : Option (D3DVideo F)) :
    World F × Option (D3DVideo F) :=
  match data with
  | none => (w, none)
  | some d3d =>
    let w := w.log Event.fontFreeOsd
    let r := d3d8_deinit_chain w d3d
    let w := r.1.log (Event.vertexBufferFree r.2.menu_display.buffer)
    (w, some { r.2 with menu_display := { r.2.menu_display with buffer := 0, decl := 0 } })

/-! ## Presentation parameters and the device -/

/-- The fields of D3DPRESENT_PARAMETERS that d3d8_make_d3dpp sets. -/
structure PresentParameters where
  Windowed : Bool
  FullScreen_PresentationInterval : Nat
  SwapEffect : Nat
  BackBufferCount : Nat
  BackBufferFormat : Nat
  BackBufferWidth : Nat
  BackBufferHeight : Nat
  deriving DecidableEq, Repr

def D3DPRESENT_INTERVAL_DEFAULT : Nat := 0
def D3DPRESENT_INTERVAL_ONE : Nat := 1
def D3DPRESENT_INTERVAL_TWO : Nat := 2
def D3DPRESENT_INTERVAL_THREE : Nat := 4
def D3DPRESENT_INTERVAL_FOUR : Nat := 8
def D3DPRESENT_INTERVAL_IMMEDIATE : Nat := 0x80000000
def D3DSWAPEFFECT_DISCARD : Nat := 1
def D3DFMT_X8R8G8B8 : Nat := 22

/-- The function d3d8_get_color_format_backbuffer. The display mode of the adapter is an
answer of the runtime: zero when the query fails, the format otherwise. -/
def d3d8_get_color_format_backbuffer {F : Type} (e : Env F) (w : World F)
    (_rgb32 windowed : Bool) : Nat × World F :=
  if windowed = true then
    let a := answer e w
    (if a ≠ 0 then a else D3DFMT_X8R8G8B8, w.next)
  else (D3DFMT_X8R8G8B8, w)

/-- The function d3d8_is_windowed_enable. -/
def d3d8_is_windowed_enable {F : Type} (e : Env F) (info_fullscreen : Bool) : Bool :=
  if info_fullscreen = false then true
  else e.settings.video_windowed_fullscreen

/-- The function d3d8_make_d3dpp. -/
def d3d8_make_d3dpp {F : Type} (e : Env F) (w : World F) (info : VideoInfo) :
    PresentParameters × World F :=
  let windowed_enable := d3d8_is_windowed_enable e info.fullscreen
  let interval := D3DPRESENT_INTERVAL_IMMEDIATE
  let interval :=
    if info.vsync = true then
      match e.settings.video_swap_interval with
      | 2 => D3DPRESENT_INTERVAL_TWO
      | 3 => D3DPRESENT_INTERVAL_THREE
      | 4 => D3DPRESENT_INTERVAL_FOUR
      | _ => D3DPRESENT_INTERVAL_ONE
    else interval
  let interval := if windowed_enable = true then D3DPRESENT_INTERVAL_DEFAULT else interval
  let fmt := d3d8_get_color_format_backbuffer e w info.rgb32 windowed_enable
  ({ Windowed := windowed_enable,
     FullScreen_PresentationInterval := interval,
     SwapEffect := D3DSWAPEFFECT_DISCARD,
     BackBufferCount := 2,
     BackBufferFormat := fmt.1,
     BackBufferWidth := if windowed_enable = false then w.drv_width else 0,
     BackBufferHeight := if windowed_enable = false then w.drv_height else 0 }, fmt.2)

/-- The function d3d8_init_base. The interface and the device are answers of the
runtime, zero on failure. -/
def d3d8_init_base {F : Type} (e : Env F) (w : World F) (d3d : D3DVideo F)
    (info : VideoInfo) : Res F Bool :=
  let h := answer e w
  let w := { (w.next.log (Event.d3dCreate h)) with g_pD3D8 := h }
  let pp := d3d8_make_d3dpp e w info
  let w := pp.2
  if w.g_pD3D8 = 0 then { ret := false, world := w, d3d := d3d }
  else
    let dev := answer e w
    let w := w.next.log (Event.createDevice dev)
    if dev = 0 then { ret := false, world := w, d3d := d3d }
    else { ret := true, world := w, d3d := { d3d with dev := dev } }

/-! ## The viewport -/

/-- The rectangle that d3d8_calculate_rect leaves in its four out-parameters. -/
structure Rect where
  x : Int
  y : Int
  width : Nat
  height : Nat
  deriving DecidableEq, Repr

/-- The function d3d8_calculate_rect. The arguments `width` and `height` are the values
the two pointers hold on entry; `x` and `y` are written before they are read. The
conversion of a rounded float to unsigned is the truncation of a negative value to 0. -/
def d3d8_calculate_rect {F : Type} (ops : FloatOps F) (e : Env F) (w : World F)
    (d3d : D3DVideo F) (width height : Nat) (force_full _allow_rotate : Bool) : Rect :=
  let device_aspect := ops.div (ops.ofNat width) (ops.ofNat height)
  let width := w.drv_width
  let height := w.drv_height
  let device_aspect :=
    match e.translate_aspect width height with
    | some a => a
    | none => device_aspect
  let x : Int := 0
  let y : Int := 0
  if e.settings.video_scale_integer = true ∧ force_full = false then
    let vp := e.scaled_integer width height w.aspect_ratio d3d.keep_aspect
    { x := vp.x, y := vp.y, width := vp.width, height := vp.height }
  else if d3d.keep_aspect = true ∧ force_full = false then
    let desired_aspect := w.aspect_ratio
    if e.settings.video_aspect_ratio_idx = e.ASPECT_RATIO_CUSTOM then
      { x := w.custom_vp.x, y := w.custom_vp.y, width := w.custom_vp.width,
        height := w.custom_vp.height }
    else if ops.lt (ops.abs (ops.sub device_aspect desired_aspect))
        (ops.ofRat (1 / 10000)) = true then
      { x := x, y := y, width := width, height := height }
    else if ops.lt desired_aspect device_aspect = true then
      let delta := ops.add (ops.div (ops.sub (ops.div desired_aspect device_aspect)
        (ops.ofRat 1)) (ops.ofRat 2)) (ops.ofRat (1 / 2))
      { x := ops.roundf (ops.mul (ops.ofNat width) (ops.sub (ops.ofRat (1 / 2)) delta)),
        y := y,
        width := (ops.roundf (ops.mul (ops.mul (ops.ofRat 2) (ops.ofNat width)) delta)).toNat,
        height := height }
    else
      let delta := ops.add (ops.div (ops.sub (ops.div device_aspect desired_aspect)
        (ops.ofRat 1)) (ops.ofRat 2)) (ops.ofRat (1 / 2))
      { x := x,
        y := ops.roundf (ops.mul (ops.ofNat height) (ops.sub (ops.ofRat (1 / 2)) delta)),
        width := width,
        height := (ops.roundf (ops.mul (ops.mul (ops.ofRat 2) (ops.ofNat height)) delta)).toNat }
  else { x := x, y := y, width := width, height := height }

/-- The function d3d8_set_viewport. The local `matrix` is read without having been
written: its contents are `Env.uninit_matrix`. The product `proj` is computed and not
used. -/
def d3d8_set_viewport {F : Type} (ops : FloatOps F) (e : Env F) (w : World F)
    (d3d : D3DVideo F) (width height : Nat) (force_full allow_rotate : Bool) : D3DVideo F :=
  let matrix := e.uninit_matrix
  let rect := d3d8_calculate_rect ops e w d3d width height force_full allow_rotate
  let x := if rect.x < 0 then 0 else rect.x
  let y := if rect.y < 0 then 0 else rect.y
  let d3d := { d3d with final_viewport :=
    { x := x, y := y, width := rect.width, height := rect.height } }
  let ortho := d3d_matrix_ortho_off_center_lh ops (ops.ofRat 0) (ops.ofRat 1) (ops.ofRat 0)
    (ops.ofRat 1) (ops.ofRat 0) (ops.ofRat 1)
  let rot := d3d_matrix_identity ops
  let rot := d3d_matrix_rotation_z ops rot (ops.mul (ops.ofNat d3d.dev_rotation) (M_PI_2 ops))
  let _proj := d3d_matrix_multiply ops ortho rot
  { d3d with mvp := d3d_matrix_transpose ortho, mvp_rotate := d3d_matrix_transpose matrix }

/-! ## Initialisation and restore -/

/-- Modelled from the spec: d3d_reset of gfx/common/d3d_common.c, which is not under
src/. It is the reset of the device in place; whether it succeeds is an answer of the
runtime. -/
def d3d_reset {F : Type} (e : Env F) (w : World F) : Bool × World F :=
  let ok := decide (answer e w ≠ 0)
  (ok, w.next.log (Event.d3dReset ok))

/-- The function d3d8_initialize. -/
def d3d8_initialize {F : Type} (ops : FloatOps F) (e : Env F) (w : World F)
    (data : Option (D3DVideo F)) (info : VideoInfo) : ResN F Bool :=
  match data with
  | none => { ret := false, world := w, d3d := none }
  | some d3d =>
    let r : Res F Bool :=
      if w.g_pD3D8 = 0 then d3d8_init_base e w d3d info
      else if d3d.needs_restore = true then
        let pp := d3d8_make_d3dpp e w info
        let w := pp.2.log Event.menuDeinit
        let rs := d3d_reset e w
        let r : Res F Bool :=
          if rs.1 = false then
            let dd := d3d8_deinitialize rs.2 (some d3d)
            let d3d := dd.2.getD d3d
            let w := { (dd.1.log Event.deviceFree) with g_pD3D8 := 0 }
            d3d8_init_base e w d3d info
          else { ret := true, world := rs.2, d3d := d3d }
        { r with world := r.world.log Event.menuInit }
      else { ret := true, world := w, d3d := d3d }
    if r.ret = false then { ret := false, world := r.world, d3d := some r.d3d }
    else
      let r := d3d8_init_chain e r.world r.d3d info
      if r.ret = false then { ret := false, world := r.world, d3d := some r.d3d }
      else
        let w := r.world
        let d3d := d3d8_set_viewport ops e w r.d3d w.drv_width w.drv_height false true
        let w := w.log Event.fontInitOsd
        let buf := answer e w
        let w := w.next.log (Event.vertexBufferNew buf)
        let d3d := { d3d with menu_display :=
          { d3d.menu_display with offset := 0, size := 1024, buffer := buf } }
        if d3d.menu_display.buffer = 0 then { ret := false, world := w, d3d := some d3d }
        else
          let mvp_transposed := d3d_matrix_ortho_off_center_lh ops (ops.ofRat 0)
            (ops.ofRat 1) (ops.ofRat 0) (ops.ofRat 1) (ops.ofRat 0) (ops.ofRat 1)
          { ret := true, world := w,
            d3d := some { d3d with mvp_transposed := mvp_transposed,
                                   mvp := d3d_matrix_transpose mvp_transposed } }

/-- The function d3d_restore. -/
def d3d_restore {F : Type} (ops : FloatOps F) (e : Env F) (w : World F)
    (data : Option (D3DVideo F)) : ResN F Bool :=
  match data with
  | none => { ret := false, world := w, d3d := none }
  | some d3d =>
    let dd := d3d8_deinitialize w (some d3d)
    let d3d := dd.2.getD d3d
    let r := d3d8_initialize ops e dd.1 (some d3d) d3d.video_info
    if r.ret = false then { ret := false, world := r.world, d3d := r.d3d }
    else
      { ret := true, world := r.world,
        d3d := (r.d3d.getD d3d) |> fun d => some { d with needs_restore := false } }

/-! ## Calls of the poke interface that ask for a resize -/

/-- The function d3d8_set_aspect_ratio. The helpers that recompute the aspect of the
square-pixel, core and config entries belong to the frontend; what the driver stores is
the table value after they ran. -/
def d3d8_set_aspect_ratio {F : Type} (e : Env F) (w : World F)
    (data : Option (D3DVideo F)) (aspect_ratio_idx : Nat) :
    World F × Option (D3DVideo F) :=
  let w := { w with aspect_ratio := e.aspectratio_lut aspect_ratio_idx }
  match data with
  | none => (w, none)
  | some d3d => (w, some { d3d with keep_aspect := true, should_resize := true })

/-- The function d3d8_apply_state_changes. -/
def d3d8_apply_state_changes {F : Type} (data : Option (D3DVideo F)) :
    Option (D3DVideo F) :=
  match data with
  | some d3d => some { d3d with should_resize := true }
  | none => none

/-- The function d3d8_set_rotation. -/
def d3d8_set_rotation {F : Type} (data : Option (D3DVideo F)) (rot : Nat) :
    Option (D3DVideo F) :=
  match data with
  | none => none
  | some d3d => some { d3d with dev_rotation := rot, should_resize := true }

/-! ## The overlay interface -/

/-- The calls of the loop of d3d8_free_overlays. -/
def free_overlays_loop {F : Type} (data : Option (D3DVideo F)) :
    List (Overlay F) → World F → World F
  | [], w => w
  | overlay :: rest, w => free_overlays_loop data rest (d3d8_free_overlay w data overlay)

/-- The function d3d8_free_overlays. -/
def d3d8_free_overlays {F : Type} (w : World F) (data : Option (D3DVideo F)) :
    World F × Option (D3DVideo F) :=
  match data with
  | none => (w, none)
  | some d3d =>
    (free_overlays_loop (some d3d) d3d.overlays w, some { d3d with overlays := [] })

/-- The function d3d8_overlay_tex_geom. -/
def d3d8_overlay_tex_geom {F : Type} (data : Option (D3DVideo F)) (index : Nat)
    (x y w h : F) : Option (D3DVideo F) :=
  match data with
  | none => none
  | some d3d =>
    let overlays := List.modify (fun o => { o with tex_coords := ⟨x, y, w, h⟩ }) index
      d3d.overlays
    some { d3d with overlays := overlays }

/-- The function d3d8_overlay_vertex_geom. -/
def d3d8_overlay_vertex_geom {F : Type} (ops : FloatOps F) (data : Option (D3DVideo F))
    (index : Nat) (x y w h : F) : Option (D3DVideo F) :=
  match data with
  | none => none
  | some d3d =>
    let y := ops.sub (ops.ofRat 1) y
    let h := ops.neg h
    let overlays := List.modify (fun o => { o with vert_coords := ⟨x, y, w, h⟩ }) index
      d3d.overlays
    some { d3d with overlays := overlays }

/-- An element of the array that calloc returns: every field zero. -/
def zero_overlay {F : Type} (ops : FloatOps F) : Overlay F :=
  { fullscreen := false, enabled := false,
    tex_coords := ⟨ops.ofRat 0, ops.ofRat 0, ops.ofRat 0, ops.ofRat 0⟩,
    vert_coords := ⟨ops.ofRat 0, ops.ofRat 0, ops.ofRat 0, ops.ofRat 0⟩,
    alpha_mod := ops.ofRat 0, tex_w := 0, tex_h := 0, tex := 0, vert_buf := 0 }

/-- The body of the loop of d3d8_overlay_load for the image of index `i`. It returns
false where the C code returns false from d3d8_overlay_load. -/
def overlay_load_body {F : Type} (ops : FloatOps F) (e : Env F) (image : TextureImage)
    (i : Nat) (w : World F) (d3d : D3DVideo F) : Res F Bool :=
  let width := image.width
  let height := image.height
  let tex := answer e w
  let w := w.next.log (Event.textureNew tex)
  let d3d := { d3d with overlays := List.modify (fun o => { o with tex := tex }) i d3d.overlays }
  if tex = 0 then { ret := false, world := w, d3d := d3d }
  else
    let ok := decide (answer e w ≠ 0)
    let w := w.next.log (Event.lockRectangle tex D3DLOCK_NOSYSLOCK ok)
    let w :=
      if ok = true then
        (w.log (Event.textureUpload tex width height)).log (Event.unlockRectangle tex)
      else w
    let overlays := List.modify (fun o => { o with tex_w := width, tex_h := height }) i
      d3d.overlays
    let d3d := { d3d with overlays := overlays }
    let d3d := (d3d8_overlay_tex_geom (some d3d) i (ops.ofRat 0) (ops.ofRat 0) (ops.ofRat 1)
      (ops.ofRat 1)).getD d3d
    let d3d := (d3d8_overlay_vertex_geom ops (some d3d) i (ops.ofRat 0) (ops.ofRat 0)
      (ops.ofRat 1) (ops.ofRat 1)).getD d3d
    { ret := true, world := w, d3d := d3d }

/-- The loop of d3d8_overlay_load, from the index `i` on: `images` are the images from
that index on. -/
def overlay_load_loop {F : Type} (ops : FloatOps F) (e : Env F) :
    List TextureImage → Nat → World F → D3DVideo F → Res F Bool
  | [], _, w, d3d => { ret := true, world := w, d3d := d3d }
  | image :: rest, i, w, d3d =>
    let r := overlay_load_body ops e image i w d3d
    if r.ret = false then r
    else overlay_load_loop ops e rest (i + 1) r.world r.d3d

/-- The function d3d8_overlay_load. The array `image_data` and its length `num_images`
are one list. -/
def d3d8_overlay_load {F : Type} (ops : FloatOps F) (e : Env F) (w : World F)
    (data : Option (D3DVideo F)) (image_data : List TextureImage) : ResN F Bool :=
  match data with
  | none => { ret := false, world := w, d3d := none }
  | some d3d =>
    let r := d3d8_free_overlays w (some d3d)
    let d3d := r.2.getD d3d
    let d3d := { d3d with overlays := List.replicate image_data.length (zero_overlay ops) }
    let r := overlay_load_loop ops e image_data 0 r.1 d3d
    { ret := r.ret, world := r.world, d3d := some r.d3d }

/-- The loop of d3d8_overlay_enable: one assignment for each overlay. -/
def overlay_enable_loop {F : Type} (state : Bool) : List (Overlay F) → D3DVideo F → D3DVideo F
  | [], d3d => d3d
  | _ :: rest, d3d => overlay_enable_loop state rest { d3d with overlays_enabled := state }

/-- The function d3d8_overlay_enable. -/
def d3d8_overlay_enable {F : Type} (w : World F) (data : Option (D3DVideo F))
    (state : Bool) : World F × Option (D3DVideo F) :=
  match data with
  | none => (w, none)
  | some d3d =>
    let d3d := overlay_enable_loop state d3d.overlays d3d
    (w.log (Event.showMouse state), some d3d)

/-! ## The frame -/

/-- Modelled from the spec: d3d_swap of gfx/common/d3d_common.c, which is not under src/.
It presents the back buffer; a failed present is how device loss is detected, and the
call may leave needs_restore set. Both are answers of the runtime. -/
def d3d_swap {F : Type} (e : Env F) (w : World F) (d3d : D3DVideo F) : Res F Bool :=
  let ok := decide (answer e w ≠ 0)
  let w := w.next
  let lost := decide (answer e w ≠ 0)
  let w := w.next
  { ret := ok, world := w.log (Event.d3dSwap ok),
    d3d := { d3d with needs_restore := d3d.needs_restore || lost } }

/-- The loop over the overlays in d3d8_frame, from the index `i` on. -/
def overlays_render_loop {F : Type} (ops : FloatOps F) (e : Env F) (d3d : D3DVideo F)
    (video_info : VideoFrameInfo) : List (Overlay F) → Nat → World F → World F × List (Overlay F)
  | [], _, w => (w, [])
  | overlay :: rest, i, w =>
    let r := d3d8_overlay_render ops e w d3d video_info (Quad.overlay i) overlay
    let rs := overlays_render_loop ops e d3d video_info rest (i + 1) r.1
    (rs.1, r.2 :: rs.2)

/-- Where d3d8_frame returns. -/
inductive FrameExit where
  | nullFrame
  | iconic
  | restoreFailed
  | blackFrame
  | renderFailed
  | complete
  deriving DecidableEq, Repr

/-- The result of d3d8_frame: the value returned, the return statement taken, and the
state left behind. -/
structure FrameRes (F : Type) where
  ret : Bool
  exit : FrameExit
  world : World F
  d3d : D3DVideo F

/-- The block of d3d8_frame under `if (d3d->should_resize)`. -/
def d3d8_frame_resize {F : Type} (ops : FloatOps F) (e : Env F) (w : World F)
    (d3d : D3DVideo F) (video_info : VideoFrameInfo) : D3DVideo F :=
  if d3d.should_resize = true then
    { (d3d8_set_viewport ops e w d3d video_info.width video_info.height false true) with
      should_resize := false }
  else d3d

/-- The block of d3d8_frame under `if (video_info->black_frame_insertion)`. The first
component tells whether the block returns from d3d8_frame. -/
def d3d8_frame_black_frame {F : Type} (e : Env F) (w : World F) (d3d : D3DVideo F)
    (video_info : VideoFrameInfo) : Bool × World F × D3DVideo F :=
  if video_info.black_frame_insertion = true then
    let sw := d3d_swap e w d3d
    if sw.ret = false ∨ sw.d3d.needs_restore = true then (true, sw.world, sw.d3d)
    else (false, sw.world.log Event.clear, sw.d3d)
  else (false, w, d3d)

/-- The block of d3d8_frame under `if (d3d->menu && d3d->menu->enabled)`. -/
def d3d8_frame_menu {F : Type} (ops : FloatOps F) (e : Env F) (w : World F)
    (d3d : D3DVideo F) (video_info : VideoFrameInfo) : World F × D3DVideo F :=
  match d3d.menu with
  | some menu =>
    if menu.enabled = true then
      let w := d3d8_set_mvp ops w (some d3d) (some d3d.mvp)
      let ro := d3d8_overlay_render ops e w d3d video_info Quad.menu menu
      let d3d := { d3d with menu := some ro.2 }
      let d3d := { d3d with menu_display := { d3d.menu_display with offset := 0 } }
      let w := ro.1.log (Event.setViewports 0 0 video_info.width video_info.height)
      (w.log Event.menuDriverFrame, d3d)
    else (w, d3d)
  | none => (w, d3d)

/-- The block of d3d8_frame under `if (d3d->overlays_enabled)`. -/
def d3d8_frame_overlays {F : Type} (ops : FloatOps F) (e : Env F) (w : World F)
    (d3d : D3DVideo F) (video_info : VideoFrameInfo) : World F × D3DVideo F :=
  if d3d.overlays_enabled = true then
    let w := d3d8_set_mvp ops w (some d3d) (some d3d.mvp)
    let rl := overlays_render_loop ops e d3d video_info d3d.overlays 0 w
    (rl.1, { d3d with overlays := rl.2 })
  else (w, d3d)

/-- The block of d3d8_frame under `if (msg && *msg)`. -/
def d3d8_frame_msg {F : Type} (w : World F) (msg : Option String)
    (video_info : VideoFrameInfo) : World F :=
  match msg with
  | some text =>
    if text.isEmpty = false then
      (w.log (Event.setViewports 0 0 video_info.width video_info.height)).log
        (Event.renderMsg text)
    else w
  | none => w

/-- The statements of d3d8_frame after the restore block: the resize, the clear, the
black frame, the scene, the menu, the overlays, the message, the title and the swap. -/
def d3d8_frame_draw {F : Type} (ops : FloatOps F) (e : Env F) (w : World F)
    (d3d : D3DVideo F) (frame_width frame_height pitch : Nat)
    (msg : Option String) (video_info : VideoFrameInfo) : FrameRes F :=
  let d3d := d3d8_frame_resize ops e w d3d video_info
  let w := (w.log (Event.setViewports 0 0 video_info.width video_info.height)).log
    Event.clear
  let bf := d3d8_frame_black_frame e w d3d video_info
  if bf.1 = true then
    { ret := true, exit := FrameExit.blackFrame, world := bf.2.1, d3d := bf.2.2 }
  else
    let r := d3d8_renderchain_render ops e bf.2.1 bf.2.2 frame_width frame_height pitch
      bf.2.2.dev_rotation
    if r.ret = false then
      { ret := false, exit := FrameExit.renderFailed, world := r.world, d3d := r.d3d }
    else
      let rm := d3d8_frame_menu ops e r.world r.d3d video_info
      let ro := d3d8_frame_overlays ops e rm.1 rm.2 video_info
      let w := d3d8_frame_msg ro.1 msg video_info
      let w := w.log Event.updateWindowTitle
      let w := w.log Event.swapBuffers
      { ret := true, exit := FrameExit.complete, world := w, d3d := ro.2 }

/-- The function d3d8_frame. The frame is the pixel buffer, none for a NULL pointer. -/
def d3d8_frame {F : Type} (ops : FloatOps F) (e : Env F) (w : World F) (d3d : D3DVideo F)
    (frame : Option (List Nat)) (frame_width frame_height _frame_count pitch : Nat)
    (msg : Option String) (video_info : VideoFrameInfo) : FrameRes F :=
  match frame with
  | none => { ret := true, exit := FrameExit.nullFrame, world := w, d3d := d3d }
  | some _ =>
    if d3d.needs_restore = true then
      if e.is_iconic = true then
        { ret := true, exit := FrameExit.iconic, world := w, d3d := d3d }
      else
        let r := d3d_restore ops e w (some d3d)
        if r.ret = false then
          { ret := false, exit := FrameExit.restoreFailed, world := r.world,
            d3d := r.d3d.getD d3d }
        else
          d3d8_frame_draw ops e r.world (r.d3d.getD d3d) frame_width frame_height pitch msg
            video_info
    else
      d3d8_frame_draw ops e w d3d frame_width frame_height pitch msg video_info

/-- The matrix `proj` of d3d8_set_viewport for a rotation: the orthographic projection
of the unit square times the rotation about Z by the rotation times pi/2. -/
def proj_of_rotation {F : Type} (ops : FloatOps F) (dev_rotation : Nat) : Mat4 F :=
  d3d_matrix_multiply ops
    (d3d_matrix_ortho_off_center_lh ops (ops.ofRat 0) (ops.ofRat 1) (ops.ofRat 0)
      (ops.ofRat 1) (ops.ofRat 0) (ops.ofRat 1))
    (d3d_matrix_rotation_z ops (d3d_matrix_identity ops)
      (ops.mul (ops.ofNat dev_rotation) (M_PI_2 ops)))

/-! ## The non-blocking state, and the first initialisation -/

/-- The function d3d8_set_nonblock_state. -/
def d3d8_set_nonblock_state {F : Type} (ops : FloatOps F) (e : Env F) (w : World F)
    (data : Option (D3DVideo F)) (state : Bool) : World F × Option (D3DVideo F) :=
  let interval : Nat := if state = true then 0 else 1
  match data with
  | none => (w, none)
  | some d3d =>
    let d3d := { d3d with video_info := { d3d.video_info with vsync := !state } }
    let w := w.log (Event.swapInterval interval)
    let d3d := { d3d with needs_restore := true }
    let r := d3d_restore ops e w (some d3d)
    (r.world, some (r.d3d.getD d3d))

/-- The function d3d8_init_singlepass. The shader description it fills is read by no
other function of the driver and is not kept. -/
def d3d8_init_singlepass {F : Type} (data : Option (D3DVideo F)) : Bool :=
  match data with
  | none => false
  | some _ => true

/-- The function d3d8_init_internal. The window and the monitor belong to the frontend:
the monitor is the one of the environment, and the calls that create the window are
logged. -/
def d3d8_init_internal {F : Type} (ops : FloatOps F) (e : Env F) (w : World F)
    (d3d : D3DVideo F) (info : VideoInfo) : Res F Bool :=
  let menu : Overlay F :=
    { zero_overlay ops with
      tex_coords := ⟨ops.ofRat 0, ops.ofRat 0, ops.ofRat 1, ops.ofRat 1⟩
      vert_coords := ⟨ops.ofRat 0, ops.ofRat 1, ops.ofRat 1, ops.ofRat (-1)⟩ }
  let d3d := { d3d with menu := some menu, cur_mon_id := 0 }
  let w := w.log Event.windowInit
  let d3d := { d3d with cur_mon_id := e.mon_id }
  let w := { w with g_resize_width := info.width, g_resize_height := info.height }
  let windowed_full := e.settings.video_windowed_fullscreen
  let full_x := if windowed_full = true ∨ info.width = 0 then e.mon_width else info.width
  let full_y := if windowed_full = true ∨ info.height = 0 then e.mon_height else info.height
  let new_width := if info.fullscreen = true then full_x else info.width
  let new_height := if info.fullscreen = true then full_y else info.height
  let w := { w with drv_width := new_width, drv_height := new_height }
  let w := w.log (Event.windowCreate w.drv_width w.drv_height info.fullscreen)
  if d3d8_init_singlepass (some d3d) = false then { ret := false, world := w, d3d := d3d }
  else
    let d3d := { d3d with video_info := info }
    let r := d3d8_initialize ops e w (some d3d) d3d.video_info
    if r.ret = false then { ret := false, world := r.world, d3d := r.d3d.getD d3d }
    else { ret := true, world := r.world.log Event.inputDriver, d3d := r.d3d.getD d3d }

/-- The statements of d3d8_initialize before `if (!ret) return ret;`, on a driver that is
not NULL: the interface and the device are created, or the device is reset and created
anew when the reset fails, or nothing is done. -/
def d3d8_initialize_device {F : Type} (e : Env F) (w : World F) (d3d : D3DVideo F)
    (info : VideoInfo) : Res F Bool :=
  if w.g_pD3D8 = 0 then d3d8_init_base e w d3d info
  else if d3d.needs_restore = true then
    let pp := d3d8_make_d3dpp e w info
    let w := pp.2.log Event.menuDeinit
    let rs := d3d_reset e w
    let r : Res F Bool :=
      if rs.1 = false then
        let dd := d3d8_deinitialize rs.2 (some d3d)
        let d3d := dd.2.getD d3d
        let w := { (dd.1.log Event.deviceFree) with g_pD3D8 := 0 }
        d3d8_init_base e w d3d info
      else { ret := true, world := rs.2, d3d := d3d }
    { r with world := r.world.log Event.menuInit }
  else { ret := true, world := w, d3d := d3d }

/-- The statements of d3d8_initialize from `if (!ret) return ret;` on, after the
statements before it left the result `r`: the chain is initialised on the driver as they
left it, then the viewport is set, the font and the buffer of the menu display are
created and the two matrices are written. -/
def d3d8_initialize_chain {F : Type} (ops : FloatOps F) (e : Env F) (r : Res F Bool)
    (info : VideoInfo) : ResN F Bool :=
  if r.ret = false then { ret := false, world := r.world, d3d := some r.d3d }
  else
    let r := d3d8_init_chain e r.world r.d3d info
    if r.ret = false then { ret := false, world := r.world, d3d := some r.d3d }
    else
      let w := r.world
      let d3d := d3d8_set_viewport ops e w r.d3d w.drv_width w.drv_height false true
      let w := w.log Event.fontInitOsd
      let buf := answer e w
      let w := w.next.log (Event.vertexBufferNew buf)
      let d3d := { d3d with menu_display :=
        { d3d.menu_display with offset := 0, size := 1024, buffer := buf } }
      if d3d.menu_display.buffer = 0 then { ret := false, world := w, d3d := some d3d }
      else
        let mvp_transposed := d3d_matrix_ortho_off_center_lh ops (ops.ofRat 0)
          (ops.ofRat 1) (ops.ofRat 0) (ops.ofRat 1) (ops.ofRat 0) (ops.ofRat 1)
        { ret := true, world := w,
          d3d := some { d3d with mvp_transposed := mvp_transposed,
                                 mvp := d3d_matrix_transpose mvp_transposed } }

/-- The driver as calloc leaves it in d3d8_init: every field is zero. -/
def zero_d3d_video {F : Type} (ops : FloatOps F) : D3DVideo F :=
  { keep_aspect := false, should_resize := false, quitting := false, needs_restore := false,
    overlays_enabled := false, cur_mon_id := 0, dev_rotation := 0, menu := none,
    renderchain_data := none,
    mvp := fun _ _ => ops.ofRat 0, mvp_rotate := fun _ _ => ops.ofRat 0,
    mvp_transposed := fun _ _ => ops.ofRat 0,
    video_info := { width := 0, height := 0, fullscreen := false, vsync := false,
                    force_aspect := false, rgb32 := false, is_threaded := false,
                    input_scale := 0 },
    dev := 0, final_viewport := { x := 0, y := 0, width := 0, height := 0 },
    menu_display := { size := 0, offset := 0, buffer := 0, decl := 0 }, overlays := [] }

/-- The function d3d8_init. The result is the driver, none for NULL. Whether the symbols
of Direct3D load and which context driver the frontend finds are answers of the runtime;
calloc succeeds. -/
def d3d8_init {F : Type} (ops : FloatOps F) (e : Env F) (w : World F) (info : VideoInfo) :
    World F × Option (D3DVideo F) :=
  let ok := decide (answer e w ≠ 0)
  let w := w.next.log (Event.symbolsInit ok)
  if ok = false then (w, none)
  else
    let d3d := zero_d3d_video ops
    let ctx_driver := answer e w
    let w := w.next.log (Event.contextInit ctx_driver)
    if ctx_driver = 0 then (w.log Event.contextDestroy, none)
    else
      let d3d := { d3d with dev := 0, dev_rotation := 0, needs_restore := false,
                            overlays_enabled := false, should_resize := false, menu := none }
      let w := w.log Event.contextSet
      let r := d3d8_init_internal ops e w d3d info
      if r.ret = false then (r.world.log Event.contextDestroy, none)
      else (r.world, some { r.d3d with keep_aspect := info.force_aspect })

/-! ## The overlay interface: alpha and full screen -/

/-- The function d3d8_overlay_full_screen. -/
def d3d8_overlay_full_screen {F : Type} (d3d : D3DVideo F) (enable : Bool) : D3DVideo F :=
  { d3d with overlays := d3d.overlays.map (fun o => { o with fullscreen := enable }) }

/-- The function d3d8_overlay_set_alpha. -/
def d3d8_overlay_set_alpha {F : Type} (data : Option (D3DVideo F)) (index : Nat) (mod : F) :
    Option (D3DVideo F) :=
  match data with
  | some d3d =>
    some { d3d with overlays := List.modify (fun o => { o with alpha_mod := mod }) index
                                  d3d.overlays }
  | none => none

/-! ## The texture of the menu -/

/-- The body of the inner loop of d3d8_set_menu_texture_frame for 16-bit frames: the
32-bit pixel written for the 16-bit pixel `c`. -/
def menu_pixel_16 (c : Nat) : Nat :=
  let r := (c >>> 12) &&& 0xf
  let g := (c >>> 8) &&& 0xf
  let b := (c >>> 4) &&& 0xf
  let a := (c >>> 0) &&& 0xf
  let r := (((r <<< 4) ||| r) <<< 16) % 2 ^ 32
  let g := (((g <<< 4) ||| g) <<< 8) % 2 ^ 32
  let b := (((b <<< 4) ||| b) <<< 0) % 2 ^ 32
  let a := (((a <<< 4) ||| a) <<< 24) % 2 ^ 32
  r ||| g ||| b ||| a

/-- The rows that d3d8_set_menu_texture_frame writes: the pixels of the frame, row after
row, copied when they are 32-bit and converted when they are 16-bit. -/
def menu_texture_rows (frame : List Nat) (rgb32 : Bool) (width height : Nat) :
    List (List Nat) :=
  (List.range height).map fun h =>
    (List.range width).map fun x =>
      if rgb32 = true then frame.getD (h * width + x) 0
      else menu_pixel_16 (frame.getD (h * width + x) 0)

/-- The function d3d8_set_menu_texture_frame. The menu pointer is dereferenced unchecked:
on a driver without a menu the C code crashes, and the model returns at once. -/
def d3d8_set_menu_texture_frame {F : Type} (e : Env F) (w : World F) (d3d : D3DVideo F)
    (frame : List Nat) (rgb32 : Bool) (width height : Nat) (alpha : F) :
    World F × D3DVideo F :=
  match d3d.menu with
  | none => (w, d3d)
  | some menu =>
    let r : Bool × World F × Overlay F :=
      if menu.tex = 0 ∨ menu.tex_w ≠ width ∨ menu.tex_h ≠ height then
        let w := w.log (Event.textureFree menu.tex)
        let tex := answer e w
        let w := w.next.log (Event.textureNew tex)
        let menu := { menu with tex := tex }
        if menu.tex = 0 then (true, w, menu)
        else (false, w, { menu with tex_w := width, tex_h := height })
      else (false, w, menu)
    if r.1 = true then (r.2.1, { d3d with menu := some r.2.2 })
    else
      let w := r.2.1
      let menu := { r.2.2 with alpha_mod := alpha }
      let ok := decide (answer e w ≠ 0)
      let w := w.next.log (Event.lockRectangle menu.tex D3DLOCK_NOSYSLOCK ok)
      let w :=
        if ok = true then
          (w.log (Event.textureWrite menu.tex (menu_texture_rows frame rgb32 width height))).log
            (Event.unlockRectangle menu.tex)
        else w
      (w, { d3d with menu := some menu })

/-- The function d3d8_set_menu_texture_enable. -/
def d3d8_set_menu_texture_enable {F : Type} (data : Option (D3DVideo F))
    (state full_screen : Bool) : Option (D3DVideo F) :=
  match data with
  | none => none
  | some d3d =>
    match d3d.menu with
    | none => some d3d
    | some menu =>
      some { d3d with menu := some { menu with enabled := state, fullscreen := full_screen } }

/-! ## Loading a texture -/

/-- The conversion of a value of type uintptr_t to int: the low 32 bits, read as a
signed number. -/
def int_of_uintptr (n : Nat) : Int :=
  if n % 2 ^ 32 < 2 ^ 31 then ((n % 2 ^ 32 : Nat) : Int) else ((n % 2 ^ 32 : Nat) : Int) - 2 ^ 32

/-- The conversion of an int to a uintptr_t of the given width. -/
def uintptr_of_int (bits : Nat) (i : Int) : Nat := (i % 2 ^ bits).toNat

/-- The type struct d3d8_texture_info. -/
structure TextureInfo (F : Type) where
  userdata : D3DVideo F
  data : TextureImage
  type : Nat

/-- The function d3d8_video_texture_load_d3d. The second component is the value left in
the variable that `id` points to. -/
def d3d8_video_texture_load_d3d {F : Type} (e : Env F) (w : World F) (info : TextureInfo F)
    (id : Nat) : World F × Nat :=
  let ti := info.data
  let tex := answer e w
  let w := w.next.log (Event.textureNew tex)
  if tex = 0 then (w, id)
  else
    let ok := decide (answer e w ≠ 0)
    let w := w.next.log (Event.lockRectangle tex D3DLOCK_NOSYSLOCK ok)
    let w :=
      if ok = true then
        (w.log (Event.textureUpload tex ti.width ti.height)).log (Event.unlockRectangle tex)
      else w
    (w, tex)

/-- The function d3d8_video_texture_load_wrap_d3d. Its result is an int. -/
def d3d8_video_texture_load_wrap_d3d {F : Type} (e : Env F) (w : World F)
    (data : Option (TextureInfo F)) : World F × Int :=
  match data with
  | none => (w, 0)
  | some info =>
    let r := d3d8_video_texture_load_d3d e w info 0
    (r.1, int_of_uintptr r.2)

/-- Modelled from the spec: video_thread_texture_load of gfx/video_thread_wrapper.c, which
is not under src/. It runs the wrapper it is given, blocks until it is done, and returns
its result. -/
def video_thread_texture_load {F : Type} (w : World F) (data : Option (TextureInfo F))
    (func : World F → Option (TextureInfo F) → World F × Int) : World F × Int :=
  func w data

/-- The function d3d8_load_texture. Its result is a uintptr_t. -/
def d3d8_load_texture {F : Type} (e : Env F) (w : World F) (video_data : D3DVideo F)
    (data : TextureImage) (threaded : Bool) (filter_type : Nat) : World F × Nat :=
  let info : TextureInfo F := { userdata := video_data, data := data, type := filter_type }
  if threaded = true then
    let r := video_thread_texture_load w (some info) (d3d8_video_texture_load_wrap_d3d e)
    (r.1, uintptr_of_int e.uintptr_bits r.2)
  else
    d3d8_video_texture_load_d3d e w info 0

/-! ## The operations of a frame, as the specification lists them -/

/-- The calls that the order of a frame is about: the lock for the upload (the one with
no flag), the upload, the draws, the message and the swap of the context. -/
def Event.isFrameOp : Event → Bool
  | Event.lockRectangle _ 0 _ => true
  | Event.textureBlit _ _ _ _ => true
  | Event.drawPrimitive _ => true
  | Event.renderMsg _ => true
  | Event.swapBuffers => true
  | _ => false

/-- The calls of a log that the order of a frame is about. -/
def frame_ops (trace : List Event) : List Event := trace.filter Event.isFrameOp

/-- The draw of one overlay: made when it has a texture and a vertex buffer. -/
def quad_draw {F : Type} (quad : Quad) (overlay : Overlay F) : List Event :=
  if overlay.tex ≠ 0 ∧ overlay.vert_buf ≠ 0 then [Event.drawPrimitive quad] else []

/-- The draw of the menu, for the state a frame leaves. -/
def menu_draws {F : Type} (d3d : D3DVideo F) : List Event :=
  match d3d.menu with
  | some menu => if menu.enabled = true then quad_draw Quad.menu menu else []
  | none => []

/-- The draws of a list of overlays, in the order of the list, from the index `i` on. -/
def overlay_draws {F : Type} : List (Overlay F) → Nat → List Event
  | [], _ => []
  | overlay :: rest, i => quad_draw (Quad.overlay i) overlay ++ overlay_draws rest (i + 1)

/-- The draws of the overlays, for the state a frame leaves. -/
def overlays_draws {F : Type} (d3d : D3DVideo F) : List Event :=
  if d3d.overlays_enabled = true then overlay_draws d3d.overlays 0 else []

/-- The rendering of the message, when there is one and it is not empty. -/
def msg_ops (msg : Option String) : List Event :=
  match msg with
  | some text => if text.isEmpty = false then [Event.renderMsg text] else []
  | none => []

/-- The overlay that d3d8_overlay_load leaves for an image whose texture is `tex`:
the zeroed element with the texture, the size of the image, and the two geometries set
by d3d8_overlay_tex_geom and d3d8_overlay_vertex_geom from (0, 0, 1, 1). -/
def loaded_overlay {F : Type} (ops : FloatOps F) (image : TextureImage) (tex : Nat) :
    Overlay F :=
  { fullscreen := false, enabled := false,
    tex_coords := ⟨ops.ofRat 0, ops.ofRat 0, ops.ofRat 1, ops.ofRat 1⟩,
    vert_coords := ⟨ops.ofRat 0, ops.sub (ops.ofRat 1) (ops.ofRat 0), ops.ofRat 1,
                    ops.neg (ops.ofRat 1)⟩,
    alpha_mod := ops.ofRat 0, tex_w := image.width, tex_h := image.height, tex := tex,
    vert_buf := 0 }

/-- The calls that release a list of overlays: for each, in order, its texture and its
vertex buffer. -/
def release_events {F : Type} : List (Overlay F) → List Event
  | [] => []
  | overlay :: rest =>
    Event.textureFree overlay.tex :: Event.vertexBufferFree overlay.vert_buf
      :: release_events rest

/-- The calls that device recovery is about: the reset, the creation of the interface
and of the device, and the creation of vertex buffers and textures. -/
def Event.isRecoveryOp : Event → Bool
  | Event.d3dReset _ => true
  | Event.d3dCreate _ => true
  | Event.createDevice _ => true
  | Event.vertexBufferNew _ => true
  | Event.textureNew _ => true
  | _ => false

/-- The calls of a log that device recovery is about. -/
def recovery_ops (trace : List Event) : List Event := trace.filter Event.isRecoveryOp

/-- The block of d3d8_calculate_rect that letterboxes a window of the given width and
height, from the device aspect and the desired aspect: the window itself when the two
are closer than 0.0001, bars left and right when the device aspect is the greater, bars
above and below otherwise. -/
def calculate_rect_letterbox {F : Type} (ops : FloatOps F) (device_aspect desired_aspect : F)
    (width height : Nat) : Rect :=
  if ops.lt (ops.abs (ops.sub device_aspect desired_aspect)) (ops.ofRat (1 / 10000)) = true then
    { x := 0, y := 0, width := width, height := height }
  else if ops.lt desired_aspect device_aspect = true then
    let delta := ops.add (ops.div (ops.sub (ops.div desired_aspect device_aspect)
      (ops.ofRat 1)) (ops.ofRat 2)) (ops.ofRat (1 / 2))
    { x := ops.roundf (ops.mul (ops.ofNat width) (ops.sub (ops.ofRat (1 / 2)) delta)),
      y := 0,
      width := (ops.roundf (ops.mul (ops.mul (ops.ofRat 2) (ops.ofNat width)) delta)).toNat,
      height := height }
  else
    let delta := ops.add (ops.div (ops.sub (ops.div device_aspect desired_aspect)
      (ops.ofRat 1)) (ops.ofRat 2)) (ops.ofRat (1 / 2))
    { x := 0,
      y := ops.roundf (ops.mul (ops.ofNat height) (ops.sub (ops.ofRat (1 / 2)) delta)),
      width := width,
      height := (ops.roundf (ops.mul (ops.mul (ops.ofRat 2) (ops.ofNat height)) delta)).toNat }

/-- The creation of a texture. -/
def Event.isTextureNew : Event → Bool
  | Event.textureNew _ => true
  | _ => false

/-- The textures a log creates, oldest first. -/
def textures_created (trace : List Event) : List Event := trace.filter Event.isTextureNew

/-- The texture of a chain, as the frame sees it: the handle, the width and the height of
the texture, and the size of a pixel. -/
def chain_texture (c : Renderchain) : Nat × Nat × Nat × Nat :=
  (c.tex, c.tex_w, c.tex_h, c.pixel_size)

/-! ## Concrete states -/

/-- Settings with integer scaling off and the aspect index 0. -/
def sampleSettings : Settings :=
  { video_scale_integer := false, video_smooth := false, video_windowed_fullscreen := false,
    video_aspect_ratio_idx := 0, video_swap_interval := 1 }

/-- An environment over exact arithmetic: the context driver does not translate the
aspect, every call of the runtime succeeds (the answer at position n is n + 1), and the
unwritten matrix holds zeros. -/
def sampleEnv : Env ℚ :=
  { settings := sampleSettings, ASPECT_RATIO_CUSTOM := 23, RARCH_SCALE_BASE := 256,
    aspectratio_lut := fun _ => 1, translate_aspect := fun _ _ => none,
    scaled_integer := fun width height _ _ => ⟨0, 0, width, height, width, height⟩,
    oracle := fun n => n + 1, uninit_matrix := fun _ _ => 0, is_iconic := false,
    uintptr_bits := 32, mon_width := 1920, mon_height := 1080, mon_id := 0 }

/-- A world with a window of 640 by 480 and a desired aspect of 1. -/
def sampleWorld : World ℚ :=
  { g_pD3D8 := 1, drv_width := 640, drv_height := 480, aspect_ratio := 1,
    custom_vp := ⟨0, 0, 0, 0, 0, 0⟩, vbuf := fun _ => [], transform_world := fun _ _ => 0,
    g_resize_width := 0, g_resize_height := 0, tick := 0, trace := [] }

/-- A chain with a texture of 256 by 256 that has seen no frame yet. -/
def sampleChain : Renderchain :=
  { pixel_size := 2, dev := 7, tex := 8, vertex_buf := 9, last_width := 0, last_height := 0,
    vertex_decl := 0, tex_w := 256, tex_h := 256, frame_count := 0 }

/-- The default video information. -/
def sampleInfo : VideoInfo :=
  { width := 640, height := 480, fullscreen := false, vsync := true, force_aspect := true,
    rgb32 := false, is_threaded := false, input_scale := 1 }

/-- A running driver that keeps the aspect: the menu is enabled and has no texture yet,
and there is no overlay. -/
def sampleD3D : D3DVideo ℚ :=
  { keep_aspect := true, should_resize := false, quitting := false, needs_restore := false,
    overlays_enabled := false, cur_mon_id := 0, dev_rotation := 1,
    menu := some { fullscreen := false, enabled := true, tex_coords := ⟨0, 0, 1, 1⟩,
                   vert_coords := ⟨0, 1, 1, -1⟩, alpha_mod := 0, tex_w := 0, tex_h := 0,
                   tex := 0, vert_buf := 0 },
    renderchain_data := some sampleChain,
    mvp := fun _ _ => 0, mvp_rotate := fun _ _ => 0, mvp_transposed := fun _ _ => 0,
    video_info := sampleInfo, dev := 7, final_viewport := ⟨0, 0, 640, 480⟩,
    menu_display := ⟨1024, 0, 10, 0⟩, overlays := [] }

/-- The frame information of a window of 640 by 480. -/
def sampleFrameInfo : VideoFrameInfo :=
  { width := 640, height := 480, black_frame_insertion := false }

/-- A running driver with a textured menu and three overlays, enabled: the first has a
texture and a vertex buffer, the second has no texture, the third has a texture and no
vertex buffer yet. -/
def sampleBusyD3D : D3DVideo ℚ :=
  { sampleD3D with
    overlays_enabled := true
    menu := some { fullscreen := true, enabled := true, tex_coords := ⟨0, 0, 1, 1⟩,
                   vert_coords := ⟨0, 1, 1, -1⟩, alpha_mod := 1, tex_w := 64, tex_h := 64,
                   tex := 30, vert_buf := 31 }
    overlays :=
      [ { fullscreen := false, enabled := false, tex_coords := ⟨0, 0, 1, 1⟩,
          vert_coords := ⟨0, 1, 1, -1⟩, alpha_mod := 1, tex_w := 16, tex_h := 16,
          tex := 40, vert_buf := 41 },
        { fullscreen := false, enabled := false, tex_coords := ⟨0, 0, 0, 0⟩,
          vert_coords := ⟨0, 0, 0, 0⟩, alpha_mod := 0, tex_w := 0, tex_h := 0,
          tex := 0, vert_buf := 0 },
        { fullscreen := false, enabled := false, tex_coords := ⟨0, 0, 1, 1⟩,
          vert_coords := ⟨0, 1, 1, -1⟩, alpha_mod := 1, tex_w := 16, tex_h := 16,
          tex := 42, vert_buf := 0 } ] }

/-- Two images, of 16 by 16 and of 32 by 8. -/
def sampleImages : List TextureImage :=
  [ { width := 16, height := 16, pixels := [] }, { width := 32, height := 8, pixels := [] } ]

/-- An environment in which every call of the runtime fails (every answer is 0). -/
def sampleFailingEnv : Env ℚ := { sampleEnv with oracle := fun _ => 0 }

/-- The sample driver with overlays enabled and one overlay that has no texture, as a
load that failed at its first image leaves it. -/
def sampleBareD3D : D3DVideo ℚ :=
  { sampleD3D with overlays_enabled := true, overlays := [zero_overlay exactOps] }

/-- The sample environment with the custom aspect selected. -/
def sampleCustomEnv : Env ℚ :=
  { sampleEnv with settings := { sampleSettings with video_aspect_ratio_idx := 23 } }

/-- The sample world with a custom viewport whose origin is (-5, -7). -/
def sampleCustomWorld : World ℚ :=
  { sampleWorld with custom_vp := ⟨-5, -7, 320, 240, 640, 480⟩ }

/-- The sample driver after the device was lost: needs_restore is set. -/
def sampleLostD3D : D3DVideo ℚ := { sampleD3D with needs_restore := true }

/-- The sample environment of a build in which uintptr_t has 64 bits, where every handle
the runtime returns is 2^32 + 5. -/
def sampleEnv64 : Env ℚ :=
  { sampleEnv with oracle := fun _ => 4294967301, uintptr_bits := 64 }

/-- An environment in which the first two answers of the runtime are handles and every
later call fails. -/
def sampleHalfFailingEnv : Env ℚ :=
  { sampleEnv with oracle := fun n => if n < 2 then n + 1 else 0 }

/-! ## Theorems -/

/-! ### The viewport -/

/-- C1: after d3d8_set_viewport the stored final_viewport has a non-negative origin: its x
and y are the maximum of 0 and the x and y that d3d8_calculate_rect computed, and its
width and height are the computed ones, for every driver state, size, flag and
environment (so for every custom or integer-scaled viewport, with a negative origin
too). -/
theorem d3d8_set_viewport_origin_nonneg {F : Type} (ops : FloatOps F) (e : Env F)
    (w : World F) (d3d : D3DVideo F) (width height : Nat) (force_full allow_rotate : Bool) :
    0 ≤ (d3d8_set_viewport ops e w d3d width height force_full allow_rotate).final_viewport.x
    ∧ 0 ≤ (d3d8_set_viewport ops e w d3d width height force_full allow_rotate).final_viewport.y
    ∧ (d3d8_set_viewport ops e w d3d width height force_full allow_rotate).final_viewport.x
        = max 0 (d3d8_calculate_rect ops e w d3d width height force_full allow_rotate).x
    ∧ (d3d8_set_viewport ops e w d3d width height force_full allow_rotate).final_viewport.y
        = max 0 (d3d8_calculate_rect ops e w d3d width height force_full allow_rotate).y
    ∧ (d3d8_set_viewport ops e w d3d width height force_full allow_rotate).final_viewport.width
        = (d3d8_calculate_rect ops e w d3d width height force_full allow_rotate).width
    ∧ (d3d8_set_viewport ops e w d3d width height force_full allow_rotate).final_viewport.height
        = (d3d8_calculate_rect ops e w d3d width height force_full allow_rotate).height := by
  refine ⟨?_, ?_, ?_, ?_, rfl, rfl⟩
  · simp only [d3d8_set_viewport]
    split <;> omega
  · simp only [d3d8_set_viewport]
    split <;> omega
  · simp only [d3d8_set_viewport]
    split
    · rw [max_eq_left (by omega)]
    · rw [max_eq_right (by omega)]
  · simp only [d3d8_set_viewport]
    split
    · rw [max_eq_left (by omega)]
    · rw [max_eq_right (by omega)]

/-- A custom viewport with the origin (-5, -7) is stored with the origin (0, 0) and its
own width and height. -/
theorem d3d8_set_viewport_clamps_custom_origin :
    d3d8_calculate_rect exactOps sampleCustomEnv sampleCustomWorld sampleD3D 640 480 false
        true = { x := -5, y := -7, width := 320, height := 240 }
    ∧ (d3d8_set_viewport exactOps sampleCustomEnv sampleCustomWorld sampleD3D 640 480 false
        true).final_viewport = { x := 0, y := 0, width := 320, height := 240 } := by
  decide

/-! ### The value d3d8_frame returns -/

/-- The scene pass never fails. -/
theorem d3d8_renderchain_render_ret {F : Type} (ops : FloatOps F) (e : Env F) (w : World F)
    (d3d : D3DVideo F) (frame_width frame_height pitch rotation : Nat) :
    (d3d8_renderchain_render ops e w d3d frame_width frame_height pitch rotation).ret
      = true := by
  unfold d3d8_renderchain_render
  split
  · rfl
  · dsimp only
    split <;> rfl

/-- Once the restore is over, the frame returns true. -/
theorem d3d8_frame_draw_ret {F : Type} (ops : FloatOps F) (e : Env F) (w : World F)
    (d3d : D3DVideo F) (frame_width frame_height pitch : Nat) (msg : Option String)
    (video_info : VideoFrameInfo) :
    (d3d8_frame_draw ops e w d3d frame_width frame_height pitch msg video_info).ret
      = true := by
  unfold d3d8_frame_draw
  dsimp only
  split
  · rfl
  · rw [if_neg (by simp [d3d8_renderchain_render_ret])]

/-- C2: d3d8_frame returns false if and only if the frame pointer is not NULL,
needs_restore is set on entry, the window is not minimised, and d3d_restore fails; in
every other case it returns true, and d3d8_renderchain_render always returns true. -/
theorem d3d8_frame_false_iff_restore_fails {F : Type} (ops : FloatOps F) (e : Env F)
    (w : World F) (d3d : D3DVideo F) (frame : Option (List Nat))
    (frame_width frame_height frame_count pitch : Nat) (msg : Option String)
    (video_info : VideoFrameInfo) :
    ((d3d8_frame ops e w d3d frame frame_width frame_height frame_count pitch msg
        video_info).ret = false
      ↔ (frame ≠ none ∧ d3d.needs_restore = true ∧ e.is_iconic = false
          ∧ (d3d_restore ops e w (some d3d)).ret = false))
    ∧ (∀ (w1 : World F) (d1 : D3DVideo F) (fw fh p rot : Nat),
        (d3d8_renderchain_render ops e w1 d1 fw fh p rot).ret = true) := by
  refine ⟨?_, fun w1 d1 fw fh p rot => d3d8_renderchain_render_ret ops e w1 d1 fw fh p rot⟩
  unfold d3d8_frame
  cases frame with
  | none => simp
  | some f =>
    dsimp only
    by_cases hn : d3d.needs_restore = true
    · rw [if_pos hn]
      by_cases hi : e.is_iconic = true
      · rw [if_pos hi]
        simp [hi]
      · rw [if_neg hi]
        by_cases hr : (d3d_restore ops e w (some d3d)).ret = false
        · rw [if_pos hr]
          simp [hn, hi, hr]
        · rw [if_neg hr]
          simp [hr, d3d8_frame_draw_ret]
    · rw [if_neg hn]
      simp [hn, d3d8_frame_draw_ret]

/-! ### The matrices of d3d8_set_viewport -/

/-- The matrix mvp_rotate that d3d8_set_viewport stores is the transpose of its local
`matrix`, which nothing has written, for every rotation. -/
theorem d3d8_set_viewport_mvp_rotate {F : Type} (ops : FloatOps F) (e : Env F)
    (w : World F) (d3d : D3DVideo F) (width height : Nat) (force_full allow_rotate : Bool) :
    (d3d8_set_viewport ops e w d3d width height force_full allow_rotate).mvp_rotate
      = d3d_matrix_transpose e.uninit_matrix := rfl

/-- C3, the code at the failing input: with the rotation 1 and zeros in the unwritten
local, d3d8_set_viewport stores the transpose of that local in mvp_rotate, which is not
the transpose of the product `proj` of the projection and the rotation; and the same
matrix is stored for the rotation 0. -/
theorem d3d8_set_viewport_mvp_rotate_is_not_proj :
    (d3d8_set_viewport exactOps sampleEnv sampleWorld sampleD3D 640 480 false true).mvp_rotate
        = d3d_matrix_transpose sampleEnv.uninit_matrix
    ∧ (d3d8_set_viewport exactOps sampleEnv sampleWorld sampleD3D 640 480 false true).mvp_rotate
        ≠ d3d_matrix_transpose (proj_of_rotation exactOps sampleD3D.dev_rotation)
    ∧ (d3d8_set_viewport exactOps sampleEnv sampleWorld { sampleD3D with dev_rotation := 0 }
          640 480 false true).mvp_rotate
        = (d3d8_set_viewport exactOps sampleEnv sampleWorld sampleD3D 640 480 false
            true).mvp_rotate := by
  refine ⟨rfl, ?_, rfl⟩
  intro h
  have h22 := congrFun (congrFun h 2) 2
  simp [d3d8_set_viewport, d3d_matrix_transpose, proj_of_rotation, d3d_matrix_multiply,
    d3d_matrix_ortho_off_center_lh, d3d_matrix_rotation_z, d3d_matrix_identity, sampleEnv,
    exactOps] at h22

/-! ### The rectangle is a function of the settings -/

/-- C4, the claim as stated fails: with a window of 640 by 480, a desired aspect of 1 and
a context driver that does not translate the aspect, entry values of 480 by 480 give
the rectangle (0, 0, 640, 480) and entry values of 960 by 480 give (160, 0, 320, 480). -/
theorem d3d8_calculate_rect_depends_on_entry_size :
    d3d8_calculate_rect exactOps sampleEnv sampleWorld sampleD3D 480 480 false true
        = { x := 0, y := 0, width := 640, height := 480 }
    ∧ d3d8_calculate_rect exactOps sampleEnv sampleWorld sampleD3D 960 480 false true
        = { x := 160, y := 0, width := 320, height := 480 }
    ∧ d3d8_calculate_rect exactOps sampleEnv sampleWorld sampleD3D 480 480 false true
        ≠ d3d8_calculate_rect exactOps sampleEnv sampleWorld sampleD3D 960 480 false true := by
  have h1 : d3d8_calculate_rect exactOps sampleEnv sampleWorld sampleD3D 480 480 false true
      = { x := 0, y := 0, width := 640, height := 480 } := by
    simp [d3d8_calculate_rect, sampleEnv, sampleWorld, sampleD3D, sampleSettings, exactOps,
      FloatOps.ofNat]
  have h2 : d3d8_calculate_rect exactOps sampleEnv sampleWorld sampleD3D 960 480 false true
      = { x := 160, y := 0, width := 320, height := 480 } := by
    simp [d3d8_calculate_rect, sampleEnv, sampleWorld, sampleD3D, sampleSettings, exactOps,
      FloatOps.ofNat, roundHalfAway]
    norm_num [Rat.floor]
    rfl
  refine ⟨h1, h2, ?_⟩
  rw [h1, h2]
  decide

/-- C4, amended: d3d8_calculate_rect is a function of the window size the driver
reports, the aspect settings (desired aspect, aspect index, custom viewport,
keep_aspect), the integer-scaling flag, force_full, and the ratio of the width and the
height it is entered with. Two calls that agree on the former (the frontend helpers
being the same), and that agree on the entry ratio unless the context driver
translates the aspect or the letterbox branch is not taken, give the same x, y, width
and height, whatever allow_rotate is and whatever else the two states hold. -/
theorem d3d8_calculate_rect_deterministic {F : Type} (ops : FloatOps F)
    (e1 e2 : Env F) (w1 w2 : World F) (d1 d2 : D3DVideo F)
    (width1 height1 width2 height2 : Nat) (force_full allow_rotate1 allow_rotate2 : Bool)
    (hwidth : w1.drv_width = w2.drv_width) (hheight : w1.drv_height = w2.drv_height)
    (hdesired : w1.aspect_ratio = w2.aspect_ratio)
    (hidx : e1.settings.video_aspect_ratio_idx = e2.settings.video_aspect_ratio_idx)
    (hconst : e1.ASPECT_RATIO_CUSTOM = e2.ASPECT_RATIO_CUSTOM)
    (hcustom : w1.custom_vp = w2.custom_vp)
    (hkeep : d1.keep_aspect = d2.keep_aspect)
    (hint : e1.settings.video_scale_integer = e2.settings.video_scale_integer)
    (hscaled : e1.scaled_integer = e2.scaled_integer)
    (htranslate : e1.translate_aspect = e2.translate_aspect)
    (hentry : ops.div (ops.ofNat width1) (ops.ofNat height1)
          = ops.div (ops.ofNat width2) (ops.ofNat height2)
        ∨ (e1.translate_aspect w1.drv_width w1.drv_height).isSome = true
        ∨ force_full = true
        ∨ e1.settings.video_scale_integer = true
        ∨ d1.keep_aspect = false
        ∨ e1.settings.video_aspect_ratio_idx = e1.ASPECT_RATIO_CUSTOM) :
    d3d8_calculate_rect ops e1 w1 d1 width1 height1 force_full allow_rotate1
      = d3d8_calculate_rect ops e2 w2 d2 width2 height2 force_full allow_rotate2 := by
  simp only [d3d8_calculate_rect, ← hwidth, ← hheight, ← hdesired, ← hidx, ← hconst,
    ← hcustom, ← hkeep, ← hint, ← hscaled, ← htranslate]
  rcases hentry with h | h | h | h | h | h
  · rw [h]
  · cases ht : e1.translate_aspect w1.drv_width w1.drv_height with
    | none => simp [ht] at h
    | some a => rfl
  · simp [h]
  · by_cases hf : force_full = false
    · simp [h, hf]
    · simp [hf]
  · simp [h]
  · by_cases hs : e1.settings.video_scale_integer = true ∧ force_full = false
    · simp [hs]
    · simp [hs, h]

/-- C4, amended, at a concrete input: entry sizes of 640 by 480 and of 1280 by 960 have
the same ratio, and give the same rectangle in two driver states that differ in the
rotation. -/
theorem d3d8_calculate_rect_deterministic_witness :
    exactOps.div (exactOps.ofNat 640) (exactOps.ofNat 480)
        = exactOps.div (exactOps.ofNat 1280) (exactOps.ofNat 960)
    ∧ d3d8_calculate_rect exactOps sampleEnv sampleWorld sampleD3D 640 480 false true
        = d3d8_calculate_rect exactOps sampleEnv sampleWorld
            { sampleD3D with dev_rotation := 0 } 1280 960 false false :=
  have h : exactOps.div (exactOps.ofNat 640) (exactOps.ofNat 480)
      = exactOps.div (exactOps.ofNat 1280) (exactOps.ofNat 960) := by
    norm_num [exactOps, FloatOps.ofNat]
  ⟨h, d3d8_calculate_rect_deterministic exactOps sampleEnv sampleEnv sampleWorld sampleWorld
    sampleD3D { sampleD3D with dev_rotation := 0 } 640 480 1280 960 false true false
    rfl rfl rfl rfl rfl rfl rfl rfl rfl rfl (Or.inl h)⟩

/-! ### What the blocks of the frame leave alone -/

/-- The vertices of the scene are set on the chain only. -/
theorem d3d8_renderchain_set_vertices_d3d {F : Type} (ops : FloatOps F) (w : World F)
    (d3d : D3DVideo F) (pass vert_width vert_height frame_count : Nat) :
    ∃ c, (d3d8_renderchain_set_vertices ops w (some d3d) pass vert_width vert_height
      frame_count).2 = some { d3d with renderchain_data := c } := by
  unfold d3d8_renderchain_set_vertices
  dsimp only
  split
  · rename_i h
    exact ⟨none, by rw [← h]⟩
  · rename_i chain h
    split
    · exact ⟨_, rfl⟩
    · exact ⟨some chain, by rw [← h]⟩

/-- The scene pass changes the chain only. -/
theorem d3d8_renderchain_render_d3d {F : Type} (ops : FloatOps F) (e : Env F) (w : World F)
    (d3d : D3DVideo F) (frame_width frame_height pitch rotation : Nat) :
    ∃ c, (d3d8_renderchain_render ops e w d3d frame_width frame_height pitch rotation).d3d
      = { d3d with renderchain_data := c } := by
  unfold d3d8_renderchain_render
  split
  · rename_i h
    exact ⟨none, by rw [← h]⟩
  · rename_i chain h
    dsimp only
    generalize d3d8_renderchain_blit_to_texture e w chain frame_width frame_height pitch
      = bl
    obtain ⟨c, hc⟩ := d3d8_renderchain_set_vertices_d3d ops bl.1
      { d3d with renderchain_data := some bl.2 } 1 frame_width frame_height chain.frame_count
    rw [hc]
    dsimp only [Option.getD]
    split
    · exact ⟨_, rfl⟩
    · exact ⟨_, rfl⟩

/-- The black frame changes needs_restore only. -/
theorem d3d8_frame_black_frame_d3d {F : Type} (e : Env F) (w : World F) (d3d : D3DVideo F)
    (video_info : VideoFrameInfo) :
    ∃ b, (d3d8_frame_black_frame e w d3d video_info).2.2 = { d3d with needs_restore := b } := by
  unfold d3d8_frame_black_frame d3d_swap
  dsimp only
  split
  · split
    · exact ⟨_, rfl⟩
    · exact ⟨_, rfl⟩
  · exact ⟨d3d.needs_restore, rfl⟩

/-- The menu block changes the menu and the offset of the menu display only. -/
theorem d3d8_frame_menu_d3d {F : Type} (ops : FloatOps F) (e : Env F) (w : World F)
    (d3d : D3DVideo F) (video_info : VideoFrameInfo) :
    ∃ m md, (d3d8_frame_menu ops e w d3d video_info).2
      = { d3d with menu := m, menu_display := md } := by
  unfold d3d8_frame_menu
  split
  · split
    · exact ⟨_, _, rfl⟩
    · exact ⟨d3d.menu, d3d.menu_display, rfl⟩
  · exact ⟨d3d.menu, d3d.menu_display, rfl⟩

/-- The overlay block changes the overlays only. -/
theorem d3d8_frame_overlays_d3d {F : Type} (ops : FloatOps F) (e : Env F) (w : World F)
    (d3d : D3DVideo F) (video_info : VideoFrameInfo) :
    ∃ os, (d3d8_frame_overlays ops e w d3d video_info).2 = { d3d with overlays := os } := by
  unfold d3d8_frame_overlays
  split
  · exact ⟨_, rfl⟩
  · exact ⟨d3d.overlays, rfl⟩

/-- After the resize block, the frame changes neither the viewport nor should_resize. -/
theorem d3d8_frame_draw_viewport {F : Type} (ops : FloatOps F) (e : Env F) (w : World F)
    (d3d : D3DVideo F) (frame_width frame_height pitch : Nat) (msg : Option String)
    (video_info : VideoFrameInfo) :
    (d3d8_frame_draw ops e w d3d frame_width frame_height pitch msg video_info).d3d.final_viewport
        = (d3d8_frame_resize ops e w d3d video_info).final_viewport
    ∧ (d3d8_frame_draw ops e w d3d frame_width frame_height pitch msg video_info).d3d.should_resize
        = (d3d8_frame_resize ops e w d3d video_info).should_resize := by
  unfold d3d8_frame_draw
  dsimp only
  generalize d3d8_frame_resize ops e w d3d video_info = d0
  generalize (w.log (Event.setViewports 0 0 video_info.width video_info.height)).log
    Event.clear = w0
  obtain ⟨b, hb⟩ := d3d8_frame_black_frame_d3d e w0 d0 video_info
  split
  · rw [hb]
    exact ⟨rfl, rfl⟩
  · rw [if_neg (by simp [d3d8_renderchain_render_ret])]
    dsimp only
    generalize (d3d8_frame_black_frame e w0 d0 video_info).2.1 = w1 at *
    generalize (d3d8_frame_black_frame e w0 d0 video_info).2.2 = d1 at *
    obtain ⟨c, hc⟩ := d3d8_renderchain_render_d3d ops e w1 d1 frame_width frame_height pitch
      d1.dev_rotation
    generalize (d3d8_renderchain_render ops e w1 d1 frame_width frame_height pitch
      d1.dev_rotation).world = w2 at *
    generalize (d3d8_renderchain_render ops e w1 d1 frame_width frame_height pitch
      d1.dev_rotation).d3d = d2 at *
    obtain ⟨m, md, hm⟩ := d3d8_frame_menu_d3d ops e w2 d2 video_info
    generalize (d3d8_frame_menu ops e w2 d2 video_info).1 = w3 at *
    generalize (d3d8_frame_menu ops e w2 d2 video_info).2 = d3 at *
    obtain ⟨os, ho⟩ := d3d8_frame_overlays_d3d ops e w3 d3 video_info
    rw [ho, hm, hc, hb]
    exact ⟨rfl, rfl⟩

/-! ### The order of the operations of a frame -/

theorem frame_ops_log {F : Type} (w : World F) (ev : Event) :
    frame_ops (w.log ev).trace
      = frame_ops w.trace ++ (if ev.isFrameOp = true then [ev] else []) := by
  unfold frame_ops World.log
  simp only [List.filter_append]
  by_cases h : ev.isFrameOp = true
  · simp [h]
  · simp [h]

theorem trace_next {F : Type} (w : World F) : w.next.trace = w.trace := rfl

/-- Releasing the chain is none of the operations of a frame. -/
theorem frame_ops_renderchain_free {F : Type} (w : World F) (data : Option Renderchain) :
    frame_ops (d3d8_renderchain_free w data).trace = frame_ops w.trace := by
  unfold d3d8_renderchain_free
  split
  · rfl
  · dsimp only
    split <;> simp [frame_ops_log, Event.isFrameOp]

theorem deinitialize_frame_ops {F : Type} (w : World F) (d3d : D3DVideo F) :
    frame_ops ( d3d8_deinitialize w (some d3d)).1.trace = frame_ops w.trace := by
  simp [ d3d8_deinitialize, d3d8_deinit_chain, frame_ops_log, frame_ops_renderchain_free,
    Event.isFrameOp]

theorem frame_ops_create_first_pass {F : Type} (e : Env F) (w : World F)
    (chain : Renderchain) (info : VideoInfo) :
    frame_ops (d3d8_renderchain_create_first_pass e w chain info).2.1.trace
      = frame_ops w.trace := by
  unfold d3d8_renderchain_create_first_pass
  dsimp only
  split
  · simp [frame_ops_log, Event.isFrameOp, trace_next]
  · split <;> simp [frame_ops_log, Event.isFrameOp, trace_next]

theorem frame_ops_renderchain_init {F : Type} (e : Env F) (w : World F)
    (chain : Renderchain) (info : VideoInfo) (dev tex_w tex_h : Nat) (rgb32 : Bool) :
    frame_ops (d3d8_renderchain_init e w chain info dev tex_w tex_h rgb32).2.1.trace
      = frame_ops w.trace := by
  unfold d3d8_renderchain_init
  dsimp only
  split_ifs <;> simp [frame_ops_create_first_pass]

theorem frame_ops_init_chain {F : Type} (e : Env F) (w : World F) (d3d : D3DVideo F)
    (info : VideoInfo) :
    frame_ops (d3d8_init_chain e w d3d info).world.trace = frame_ops w.trace := by
  simp [d3d8_init_chain, frame_ops_renderchain_init]

theorem trace_make_d3dpp {F : Type} (e : Env F) (w : World F) (info : VideoInfo) :
    (d3d8_make_d3dpp e w info).2.trace = w.trace := by
  unfold d3d8_make_d3dpp d3d8_get_color_format_backbuffer
  dsimp only
  split <;> rfl

theorem frame_ops_init_base {F : Type} (e : Env F) (w : World F) (d3d : D3DVideo F)
    (info : VideoInfo) :
    frame_ops (d3d8_init_base e w d3d info).world.trace = frame_ops w.trace := by
  unfold d3d8_init_base
  dsimp only
  split
  · simp [trace_make_d3dpp, frame_ops_log, Event.isFrameOp, trace_next]
  · split <;> simp [trace_make_d3dpp, frame_ops_log, Event.isFrameOp, trace_next]

theorem frame_ops_d3d_reset {F : Type} (e : Env F) (w : World F) :
    frame_ops (d3d_reset e w).2.trace = frame_ops w.trace := by
  simp [d3d_reset, frame_ops_log, Event.isFrameOp, trace_next]

/-- The device part of d3d8_initialize is none of the operations of a frame. -/
theorem initialize_frame_ops {F : Type} (ops : FloatOps F) (e : Env F) (w : World F)
    (d3d : D3DVideo F) (info : VideoInfo) :
    frame_ops ( d3d8_initialize ops e w (some d3d) info).world.trace = frame_ops w.trace := by
  unfold d3d8_initialize
  dsimp only
  split_ifs <;>
    simp [frame_ops_log, Event.isFrameOp, trace_next, frame_ops_init_chain,
      frame_ops_init_base, frame_ops_d3d_reset, trace_make_d3dpp, deinitialize_frame_ops]

theorem frame_ops_restore {F : Type} (ops : FloatOps F) (e : Env F) (w : World F)
    (d3d : D3DVideo F) :
    frame_ops (d3d_restore ops e w (some d3d)).world.trace = frame_ops w.trace := by
  unfold d3d_restore
  dsimp only
  split_ifs <;> simp [initialize_frame_ops, deinitialize_frame_ops]

theorem frame_ops_black_frame {F : Type} (e : Env F) (w : World F) (d3d : D3DVideo F)
    (video_info : VideoFrameInfo) :
    frame_ops (d3d8_frame_black_frame e w d3d video_info).2.1.trace = frame_ops w.trace := by
  unfold d3d8_frame_black_frame d3d_swap
  dsimp only
  split_ifs <;> simp [frame_ops_log, Event.isFrameOp, trace_next]

/-- The upload: the lock with no flag, and the blit when the lock succeeded. -/
theorem frame_ops_blit_to_texture {F : Type} (e : Env F) (w : World F) (chain : Renderchain)
    (width height pitch : Nat) :
    ∃ ok : Bool, frame_ops (d3d8_renderchain_blit_to_texture e w chain width height pitch).1.trace
      = frame_ops w.trace ++ Event.lockRectangle chain.tex 0 ok
          :: (if ok = true then [Event.textureBlit chain.tex width height pitch] else []) := by
  unfold d3d8_renderchain_blit_to_texture
  dsimp only
  split_ifs with h1 h2 h3
  · refine ⟨true, ?_⟩
    simp [frame_ops_log, Event.isFrameOp, trace_next, D3DLOCK_NOSYSLOCK]
    simpa [D3DLOCK_NOSYSLOCK] using h2
  · refine ⟨false, ?_⟩
    simp [frame_ops_log, Event.isFrameOp, trace_next, D3DLOCK_NOSYSLOCK]
    simpa [D3DLOCK_NOSYSLOCK] using h2
  · refine ⟨true, ?_⟩
    simp [frame_ops_log, Event.isFrameOp, trace_next]
    simpa using h3
  · refine ⟨false, ?_⟩
    simp [frame_ops_log, Event.isFrameOp, trace_next]
    simpa using h3

theorem blit_to_texture_chain {F : Type} (e : Env F) (w : World F) (chain : Renderchain)
    (width height pitch : Nat) :
    (d3d8_renderchain_blit_to_texture e w chain width height pitch).2 = chain := by
  unfold d3d8_renderchain_blit_to_texture
  dsimp only
  split_ifs <;> rfl

/-- Setting the vertices is none of the operations of a frame, and keeps the texture. -/
theorem frame_ops_set_vertices {F : Type} (ops : FloatOps F) (w : World F)
    (d3d : D3DVideo F) (chain : Renderchain) (pass vert_width vert_height frame_count : Nat)
    (hchain : d3d.renderchain_data = some chain) :
    frame_ops (d3d8_renderchain_set_vertices ops w (some d3d) pass vert_width vert_height
        frame_count).1.trace = frame_ops w.trace
    ∧ ∃ c, (d3d8_renderchain_set_vertices ops w (some d3d) pass vert_width vert_height
        frame_count).2 = some { d3d with renderchain_data := some c } ∧ c.tex = chain.tex := by
  unfold d3d8_renderchain_set_vertices
  simp only [hchain]
  split_ifs
  · refine ⟨by simp [World.writeVbuf, frame_ops_log, Event.isFrameOp, frame_ops, World.log],
      _, rfl, rfl⟩
  · exact ⟨rfl, chain, by rw [← hchain], rfl⟩

theorem frame_ops_render_pass {F : Type} (ops : FloatOps F) (w : World F)
    (d3d : D3DVideo F) (chain : Renderchain) (pass_index rotation : Nat) :
    frame_ops (d3d8_renderchain_render_pass ops w d3d chain pass_index rotation).trace
      = frame_ops w.trace ++ [Event.drawPrimitive Quad.main] := by
  simp [d3d8_renderchain_render_pass, d3d8_renderchain_set_mvp, frame_ops_log,
    Event.isFrameOp]

/-- The scene: the lock for the upload, the blit when the lock succeeded, the draw of
the main quad. The texture of the chain stays. -/
theorem frame_ops_render {F : Type} (ops : FloatOps F) (e : Env F) (w : World F)
    (d3d : D3DVideo F) (chain : Renderchain) (frame_width frame_height pitch rotation : Nat)
    (hchain : d3d.renderchain_data = some chain) :
    ∃ (ok : Bool) (c : Renderchain),
      (d3d8_renderchain_render ops e w d3d frame_width frame_height pitch rotation).d3d
        = { d3d with renderchain_data := some c }
      ∧ c.tex = chain.tex
      ∧ frame_ops (d3d8_renderchain_render ops e w d3d frame_width frame_height pitch
          rotation).world.trace
        = frame_ops w.trace ++ Event.lockRectangle chain.tex 0 ok
            :: ((if ok = true then [Event.textureBlit chain.tex frame_width frame_height pitch]
                else []) ++ [Event.drawPrimitive Quad.main]) := by
  obtain ⟨ok, hok⟩ := frame_ops_blit_to_texture e w chain frame_width frame_height pitch
  have hbc := blit_to_texture_chain e w chain frame_width frame_height pitch
  unfold d3d8_renderchain_render
  simp only [hchain]
  generalize d3d8_renderchain_blit_to_texture e w chain frame_width frame_height pitch
    = bl at hok hbc
  obtain ⟨hq, c, hc, hct⟩ := frame_ops_set_vertices ops bl.1
    { d3d with renderchain_data := some bl.2 } bl.2 1 frame_width frame_height
    chain.frame_count rfl
  rw [hc]
  simp only [Option.getD]
  refine ⟨ok, _, rfl, ?_, ?_⟩
  · rw [← hbc]
    exact hct
  · rw [frame_ops_render_pass, hq, hok]
    simp

/-- The draw of one overlay is made when, afterwards, it has a texture and a vertex
buffer; the call changes the vertex buffer of the overlay only. -/
theorem frame_ops_overlay_render {F : Type} (ops : FloatOps F) (e : Env F) (w : World F)
    (d3d : D3DVideo F) (video_info : VideoFrameInfo) (quad : Quad) (overlay : Overlay F) :
    frame_ops (d3d8_overlay_render ops e w d3d video_info quad overlay).1.trace
        = frame_ops w.trace
          ++ quad_draw quad (d3d8_overlay_render ops e w d3d video_info quad overlay).2
    ∧ ∃ vb, (d3d8_overlay_render ops e w d3d video_info quad overlay).2
        = { overlay with vert_buf := vb } := by
  unfold d3d8_overlay_render
  dsimp only
  split_ifs <;>
    refine ⟨?_, _, rfl⟩ <;>
    simp_all [quad_draw, World.writeVbuf, frame_ops_log, Event.isFrameOp, trace_next,
      frame_ops, World.log]

/-- The menu block draws the menu when it is enabled and, afterwards, has a texture and a
vertex buffer. -/
theorem frame_ops_frame_menu {F : Type} (ops : FloatOps F) (e : Env F) (w : World F)
    (d3d : D3DVideo F) (video_info : VideoFrameInfo) :
    frame_ops (d3d8_frame_menu ops e w d3d video_info).1.trace
      = frame_ops w.trace ++ menu_draws (d3d8_frame_menu ops e w d3d video_info).2 := by
  unfold d3d8_frame_menu
  split
  · rename_i menu hmenu
    split_ifs with hen
    · have hmvp : (d3d8_set_mvp ops w (some d3d) (some d3d.mvp)).trace = w.trace := rfl
      generalize d3d8_set_mvp ops w (some d3d) (some d3d.mvp) = w1 at hmvp ⊢
      obtain ⟨h1, vb, h2⟩ := frame_ops_overlay_render ops e w1 d3d video_info Quad.menu menu
      have hen2 : (d3d8_overlay_render ops e w1 d3d video_info Quad.menu menu).2.enabled
          = true := by rw [h2]; exact hen
      simp [menu_draws, frame_ops_log, Event.isFrameOp, h1, hen2, hmvp]
    · simp [menu_draws, hmenu, hen]
  · rename_i hmenu
    simp [menu_draws, hmenu]

/-- The loop over the overlays draws, in the order of the indices, those that have a
texture and a vertex buffer afterwards. -/
theorem frame_ops_overlays_render_loop {F : Type} (ops : FloatOps F) (e : Env F)
    (d3d : D3DVideo F) (video_info : VideoFrameInfo) (overlays : List (Overlay F)) :
    ∀ (i : Nat) (w : World F),
      frame_ops (overlays_render_loop ops e d3d video_info overlays i w).1.trace
        = frame_ops w.trace
          ++ overlay_draws (overlays_render_loop ops e d3d video_info overlays i w).2 i := by
  induction overlays with
  | nil =>
    intro i w
    simp [overlays_render_loop, overlay_draws]
  | cons overlay rest ih =>
    intro i w
    simp only [overlays_render_loop, overlay_draws]
    rw [ih, (frame_ops_overlay_render ops e w d3d video_info (Quad.overlay i) overlay).1]
    simp

theorem frame_ops_frame_overlays {F : Type} (ops : FloatOps F) (e : Env F) (w : World F)
    (d3d : D3DVideo F) (video_info : VideoFrameInfo) :
    frame_ops (d3d8_frame_overlays ops e w d3d video_info).1.trace
      = frame_ops w.trace ++ overlays_draws (d3d8_frame_overlays ops e w d3d video_info).2 := by
  unfold d3d8_frame_overlays
  split_ifs with hen
  · have hmvp : (d3d8_set_mvp ops w (some d3d) (some d3d.mvp)).trace = w.trace := rfl
    generalize d3d8_set_mvp ops w (some d3d) (some d3d.mvp) = w1 at hmvp ⊢
    simp [overlays_draws, hen, frame_ops_overlays_render_loop, hmvp]
  · simp [overlays_draws, hen]

theorem frame_ops_frame_msg {F : Type} (w : World F) (msg : Option String)
    (video_info : VideoFrameInfo) :
    frame_ops (d3d8_frame_msg w msg video_info).trace = frame_ops w.trace ++ msg_ops msg := by
  unfold d3d8_frame_msg msg_ops
  split
  · split_ifs <;> simp [frame_ops_log, Event.isFrameOp]
  · simp

theorem menu_draws_congr {F : Type} (d1 d2 : D3DVideo F) (h : d1.menu = d2.menu) :
    menu_draws d1 = menu_draws d2 := by
  unfold menu_draws
  rw [h]

theorem frame_resize_chain {F : Type} (ops : FloatOps F) (e : Env F) (w : World F)
    (d3d : D3DVideo F) (video_info : VideoFrameInfo) :
    (d3d8_frame_resize ops e w d3d video_info).renderchain_data = d3d.renderchain_data := by
  unfold d3d8_frame_resize
  split <;> rfl

/-- The operations of the statements after the restore block, when they run to the
end. -/
theorem frame_ops_frame_draw {F : Type} (ops : FloatOps F) (e : Env F) (w : World F)
    (d3d : D3DVideo F) (chain : Renderchain) (frame_width frame_height pitch : Nat)
    (msg : Option String) (video_info : VideoFrameInfo)
    (hchain : d3d.renderchain_data = some chain)
    (hexit : (d3d8_frame_draw ops e w d3d frame_width frame_height pitch msg video_info).exit
      = FrameExit.complete) :
    ∃ (ok : Bool) (c : Renderchain),
      (d3d8_frame_draw ops e w d3d frame_width frame_height pitch msg
          video_info).d3d.renderchain_data = some c
      ∧ c.tex = chain.tex
      ∧ frame_ops (d3d8_frame_draw ops e w d3d frame_width frame_height pitch msg
          video_info).world.trace
        = frame_ops w.trace ++ Event.lockRectangle chain.tex 0 ok
            :: ((if ok = true then [Event.textureBlit chain.tex frame_width frame_height pitch]
                else [])
              ++ [Event.drawPrimitive Quad.main]
              ++ menu_draws (d3d8_frame_draw ops e w d3d frame_width frame_height pitch msg
                  video_info).d3d
              ++ overlays_draws (d3d8_frame_draw ops e w d3d frame_width frame_height pitch
                  msg video_info).d3d
              ++ msg_ops msg ++ [Event.swapBuffers])
      ∧ (d3d8_frame_draw ops e w d3d frame_width frame_height pitch msg
          video_info).world.trace.getLast? = some Event.swapBuffers := by
  unfold d3d8_frame_draw at hexit ⊢
  dsimp only at hexit ⊢
  have hrc := frame_resize_chain ops e w d3d video_info
  generalize d3d8_frame_resize ops e w d3d video_info = d0 at hexit hrc ⊢
  have hw0 : frame_ops ((w.log (Event.setViewports 0 0 video_info.width
      video_info.height)).log Event.clear).trace = frame_ops w.trace := by
    simp [frame_ops_log, Event.isFrameOp]
  generalize (w.log (Event.setViewports 0 0 video_info.width video_info.height)).log
    Event.clear = w0 at hexit hw0 ⊢
  obtain ⟨b, hb⟩ := d3d8_frame_black_frame_d3d e w0 d0 video_info
  have hw1 := frame_ops_black_frame e w0 d0 video_info
  by_cases hbf : (d3d8_frame_black_frame e w0 d0 video_info).1 = true
  · rw [if_pos hbf] at hexit
    exact absurd hexit (by simp)
  · rw [if_neg hbf, if_neg (by simp [d3d8_renderchain_render_ret])]
    clear hexit
    dsimp only
    generalize (d3d8_frame_black_frame e w0 d0 video_info).2.1 = w1 at hw1 ⊢
    generalize (d3d8_frame_black_frame e w0 d0 video_info).2.2 = d1 at hb ⊢
    have hc1 : d1.renderchain_data = some chain := by rw [hb, ← hchain, ← hrc]
    obtain ⟨ok, c, hd2, hct, hw2⟩ := frame_ops_render ops e w1 d1 chain frame_width
      frame_height pitch d1.dev_rotation hc1
    generalize (d3d8_renderchain_render ops e w1 d1 frame_width frame_height pitch
      d1.dev_rotation).world = w2 at hw2 ⊢
    generalize (d3d8_renderchain_render ops e w1 d1 frame_width frame_height pitch
      d1.dev_rotation).d3d = d2 at hd2 ⊢
    obtain ⟨m, md, hd3⟩ := d3d8_frame_menu_d3d ops e w2 d2 video_info
    have hw3 := frame_ops_frame_menu ops e w2 d2 video_info
    generalize (d3d8_frame_menu ops e w2 d2 video_info).1 = w3 at hw3 ⊢
    generalize (d3d8_frame_menu ops e w2 d2 video_info).2 = d3 at hd3 hw3 ⊢
    obtain ⟨os, hd4⟩ := d3d8_frame_overlays_d3d ops e w3 d3 video_info
    have hw4 := frame_ops_frame_overlays ops e w3 d3 video_info
    generalize (d3d8_frame_overlays ops e w3 d3 video_info).1 = w4 at hw4 ⊢
    generalize (d3d8_frame_overlays ops e w3 d3 video_info).2 = d4 at hd4 hw4 ⊢
    have hmenu : menu_draws d4 = menu_draws d3 := menu_draws_congr d4 d3 (by rw [hd4])
    refine ⟨ok, c, by rw [hd4, hd3, hd2], hct, ?_, ?_⟩
    · rw [frame_ops_log, frame_ops_log, frame_ops_frame_msg, hw4, hw3, hw2, hw1, hw0, hmenu]
      simp [Event.isFrameOp]
    · simp [World.log]

/-- A successful d3d8_initialize leaves a render chain. -/
theorem initialize_leaves_chain {F : Type} (ops : FloatOps F) (e : Env F) (w : World F)
    (d3d : D3DVideo F) (info : VideoInfo)
    (h : ( d3d8_initialize ops e w (some d3d) info).ret = true) :
    ∃ d, ( d3d8_initialize ops e w (some d3d) info).d3d = some d
      ∧ d.renderchain_data.isSome = true := by
  unfold d3d8_initialize at h ⊢
  dsimp only at h ⊢
  split_ifs at h ⊢
  all_goals exact ⟨_, rfl, rfl⟩

/-- A successful d3d_restore leaves a render chain. -/
theorem restore_leaves_chain {F : Type} (ops : FloatOps F) (e : Env F) (w : World F)
    (d3d : D3DVideo F) (h : (d3d_restore ops e w (some d3d)).ret = true) :
    ∃ c, ((d3d_restore ops e w (some d3d)).d3d.getD d3d).renderchain_data = some c := by
  unfold d3d_restore at h ⊢
  dsimp only at h ⊢
  split_ifs at h ⊢ with hi
  have hi2 : ( d3d8_initialize ops e ( d3d8_deinitialize w (some d3d)).1
      (some (( d3d8_deinitialize w (some d3d)).2.getD d3d))
      (( d3d8_deinitialize w (some d3d)).2.getD d3d).video_info).ret = true := by
    simpa using hi
  obtain ⟨d, hd, hc⟩ := initialize_leaves_chain ops e _ _ _ hi2
  rw [hd]
  exact Option.isSome_iff_exists.mp hc

theorem count_swap_frame_ops (trace : List Event) :
    (frame_ops trace).count Event.swapBuffers = trace.count Event.swapBuffers :=
  List.count_filter rfl

theorem count_swap_quad_draw {F : Type} (quad : Quad) (overlay : Overlay F) :
    (quad_draw quad overlay).count Event.swapBuffers = 0 := by
  unfold quad_draw
  split <;> simp

theorem count_swap_menu_draws {F : Type} (d3d : D3DVideo F) :
    (menu_draws d3d).count Event.swapBuffers = 0 := by
  unfold menu_draws
  split
  · split
    · exact count_swap_quad_draw _ _
    · rfl
  · rfl

theorem count_swap_overlay_draws {F : Type} (overlays : List (Overlay F)) :
    ∀ i, (overlay_draws overlays i).count Event.swapBuffers = 0 := by
  induction overlays with
  | nil => intro i; rfl
  | cons overlay rest ih =>
    intro i
    simp [overlay_draws, count_swap_quad_draw, ih]

theorem count_swap_overlays_draws {F : Type} (d3d : D3DVideo F) :
    (overlays_draws d3d).count Event.swapBuffers = 0 := by
  unfold overlays_draws
  split
  · exact count_swap_overlay_draws _ _
  · rfl

theorem count_swap_msg_ops (msg : Option String) :
    (msg_ops msg).count Event.swapBuffers = 0 := by
  unfold msg_ops
  split
  · split <;> simp
  · rfl

/-- C6, the claim as stated fails: the menu of the sample driver is enabled and has no
texture, overlays are enabled and the one overlay has no texture, and the lock of the
render texture fails. The frame runs to the end and its operations are the failed lock,
the draw of the main quad and the swap: nothing is blitted, and neither the menu quad
nor the overlay is drawn. -/
theorem d3d8_frame_skips_blit_menu_and_overlay :
    (d3d8_frame exactOps sampleFailingEnv sampleWorld sampleBareD3D (some []) 320 240 0 640
        none sampleFrameInfo).exit = FrameExit.complete
    ∧ sampleBareD3D.menu.map (fun menu => menu.enabled) = some true
    ∧ sampleBareD3D.overlays_enabled = true
    ∧ sampleBareD3D.overlays_size = 1
    ∧ frame_ops (d3d8_frame exactOps sampleFailingEnv sampleWorld sampleBareD3D (some []) 320
        240 0 640 none sampleFrameInfo).world.trace
      = [Event.lockRectangle 8 0 false, Event.drawPrimitive Quad.main, Event.swapBuffers]
    ∧ Event.textureBlit 8 320 240 640 ∉ (d3d8_frame exactOps sampleFailingEnv sampleWorld
        sampleBareD3D (some []) 320 240 0 640 none sampleFrameInfo).world.trace
    ∧ Event.drawPrimitive Quad.menu ∉ (d3d8_frame exactOps sampleFailingEnv sampleWorld
        sampleBareD3D (some []) 320 240 0 640 none sampleFrameInfo).world.trace
    ∧ Event.drawPrimitive (Quad.overlay 0) ∉ (d3d8_frame exactOps sampleFailingEnv sampleWorld
        sampleBareD3D (some []) 320 240 0 640 none sampleFrameInfo).world.trace := by
  decide

/-- C6, amended: for every d3d8_frame call that runs to its last statement, on a driver
whose render chain exists when the scene is drawn, the operations happen in this order:
the render texture is locked and, when the lock succeeds, the pixel buffer is blitted
into it; the main quad is drawn; the menu quad is drawn if the menu is enabled and has
a texture and a vertex buffer (created by the call when missing); if overlays are
enabled, every overlay that has a texture and a vertex buffer is drawn, in the order of
the indices; the message is rendered if it is not empty; and cb_swap_buffers is called
exactly once, as the last operation. -/
theorem d3d8_frame_order_of_operations {F : Type} (ops : FloatOps F) (e : Env F)
    (w : World F) (d3d : D3DVideo F) (frame : Option (List Nat))
    (frame_width frame_height frame_count pitch : Nat) (msg : Option String)
    (video_info : VideoFrameInfo)
    (hchain : d3d.needs_restore = false → d3d.renderchain_data.isSome = true)
    (hexit : (d3d8_frame ops e w d3d frame frame_width frame_height frame_count pitch msg
      video_info).exit = FrameExit.complete) :
    ∃ (ok : Bool) (c : Renderchain),
      (d3d8_frame ops e w d3d frame frame_width frame_height frame_count pitch msg
          video_info).d3d.renderchain_data = some c
      ∧ frame_ops (d3d8_frame ops e w d3d frame frame_width frame_height frame_count pitch msg
          video_info).world.trace
        = frame_ops w.trace ++ Event.lockRectangle c.tex 0 ok
            :: ((if ok = true then [Event.textureBlit c.tex frame_width frame_height pitch]
                else [])
              ++ [Event.drawPrimitive Quad.main]
              ++ menu_draws (d3d8_frame ops e w d3d frame frame_width frame_height frame_count
                  pitch msg video_info).d3d
              ++ overlays_draws (d3d8_frame ops e w d3d frame frame_width frame_height
                  frame_count pitch msg video_info).d3d
              ++ msg_ops msg ++ [Event.swapBuffers])
      ∧ (d3d8_frame ops e w d3d frame frame_width frame_height frame_count pitch msg
          video_info).world.trace.getLast? = some Event.swapBuffers
      ∧ (d3d8_frame ops e w d3d frame frame_width frame_height frame_count pitch msg
          video_info).world.trace.count Event.swapBuffers
        = w.trace.count Event.swapBuffers + 1 := by
  have key : ∀ (w1 : World F) (d1 : D3DVideo F) (chain : Renderchain),
      frame_ops w1.trace = frame_ops w.trace → d1.renderchain_data = some chain →
      (d3d8_frame_draw ops e w1 d1 frame_width frame_height pitch msg video_info).exit
        = FrameExit.complete →
      ∃ (ok : Bool) (c : Renderchain),
        (d3d8_frame_draw ops e w1 d1 frame_width frame_height pitch msg
            video_info).d3d.renderchain_data = some c
        ∧ frame_ops (d3d8_frame_draw ops e w1 d1 frame_width frame_height pitch msg
            video_info).world.trace
          = frame_ops w.trace ++ Event.lockRectangle c.tex 0 ok
              :: ((if ok = true then [Event.textureBlit c.tex frame_width frame_height pitch]
                  else [])
                ++ [Event.drawPrimitive Quad.main]
                ++ menu_draws (d3d8_frame_draw ops e w1 d1 frame_width frame_height pitch msg
                    video_info).d3d
                ++ overlays_draws (d3d8_frame_draw ops e w1 d1 frame_width frame_height pitch
                    msg video_info).d3d
                ++ msg_ops msg ++ [Event.swapBuffers])
        ∧ (d3d8_frame_draw ops e w1 d1 frame_width frame_height pitch msg
            video_info).world.trace.getLast? = some Event.swapBuffers
        ∧ (d3d8_frame_draw ops e w1 d1 frame_width frame_height pitch msg
            video_info).world.trace.count Event.swapBuffers
          = w.trace.count Event.swapBuffers + 1 := by
    intro w1 d1 chain hw1 hc1 hx
    obtain ⟨ok, c, hc, hct, hops, hlast⟩ := frame_ops_frame_draw ops e w1 d1 chain
      frame_width frame_height pitch msg video_info hc1 hx
    rw [hw1, ← hct] at hops
    refine ⟨ok, c, hc, hops, hlast, ?_⟩
    rw [← count_swap_frame_ops, hops]
    simp only [List.count_append, List.count_cons, count_swap_frame_ops,
      count_swap_menu_draws, count_swap_overlays_draws, count_swap_msg_ops, List.count_nil]
    cases ok <;> simp
  cases frame with
  | none => exact absurd hexit (by simp [d3d8_frame])
  | some f =>
    unfold d3d8_frame at hexit ⊢
    dsimp only at hexit ⊢
    by_cases hn : d3d.needs_restore = true
    · rw [if_pos hn] at hexit ⊢
      by_cases hi : e.is_iconic = true
      · rw [if_pos hi] at hexit
        exact absurd hexit (by simp)
      · rw [if_neg hi] at hexit ⊢
        by_cases hr : (d3d_restore ops e w (some d3d)).ret = false
        · rw [if_pos hr] at hexit
          exact absurd hexit (by simp)
        · rw [if_neg hr] at hexit ⊢
          obtain ⟨chain, hchain1⟩ := restore_leaves_chain ops e w d3d (by simpa using hr)
          exact key _ _ chain (frame_ops_restore ops e w d3d) hchain1 hexit
    · rw [if_neg hn] at hexit ⊢
      obtain ⟨chain, hchain1⟩ := Option.isSome_iff_exists.mp (hchain (by simpa using hn))
      exact key w d3d chain rfl hchain1 hexit

/-- C6, amended, at a concrete input: a frame with a message on the driver with a
textured menu and three overlays runs to the end; the overlay without a texture is the
one that is not drawn. -/
theorem d3d8_frame_order_of_operations_witness :
    (sampleBusyD3D.needs_restore = false → sampleBusyD3D.renderchain_data.isSome = true)
    ∧ (d3d8_frame exactOps sampleEnv sampleWorld sampleBusyD3D (some []) 320 240 0 640
        (some "msg") sampleFrameInfo).exit = FrameExit.complete
    ∧ frame_ops (d3d8_frame exactOps sampleEnv sampleWorld sampleBusyD3D (some []) 320 240 0
        640 (some "msg") sampleFrameInfo).world.trace
      = [Event.lockRectangle 8 0 true, Event.textureBlit 8 320 240 640,
         Event.drawPrimitive Quad.main, Event.drawPrimitive Quad.menu,
         Event.drawPrimitive (Quad.overlay 0), Event.drawPrimitive (Quad.overlay 2),
         Event.renderMsg "msg", Event.swapBuffers]
    ∧ (d3d8_frame exactOps sampleEnv sampleWorld sampleBusyD3D (some []) 320 240 0 640
        (some "msg") sampleFrameInfo).world.trace.count Event.swapBuffers = 1 := by
  have hchain : sampleBusyD3D.needs_restore = false →
      sampleBusyD3D.renderchain_data.isSome = true := fun _ => rfl
  have hexit : (d3d8_frame exactOps sampleEnv sampleWorld sampleBusyD3D (some []) 320 240 0
      640 (some "msg") sampleFrameInfo).exit = FrameExit.complete := by decide
  obtain ⟨ok, c, _, _, _, hcount⟩ := d3d8_frame_order_of_operations exactOps sampleEnv
    sampleWorld sampleBusyD3D (some []) 320 240 0 640 (some "msg") sampleFrameInfo hchain
    hexit
  exact ⟨hchain, hexit, by decide, hcount⟩

/-! ### The upload clears the texture when the size changes -/

/-- C7: d3d8_renderchain_blit_to_texture clears the render texture (after a lock whose
result it ignores) exactly when the incoming width or height differs from last_width or
last_height; in both cases it then locks the texture and, when that lock succeeds,
uploads the frame with d3d_texture_blit; the chain, last_width and last_height
included, is not modified. -/
theorem d3d8_renderchain_blit_to_texture_clears_iff_resized {F : Type} (e : Env F)
    (w : World F) (chain : Renderchain) (width height pitch : Nat) :
    (d3d8_renderchain_blit_to_texture e w chain width height pitch).1.trace
      = w.trace
        ++ (if chain.last_width ≠ width ∨ chain.last_height ≠ height then
              [Event.lockRectangle chain.tex D3DLOCK_NOSYSLOCK (decide (e.oracle w.tick ≠ 0)),
               Event.lockRectangleClear chain.tex]
            else [])
        ++ [Event.setTexture 0]
        ++ (if e.oracle (w.tick
                + (if chain.last_width ≠ width ∨ chain.last_height ≠ height then 1 else 0)) ≠ 0
            then
              [Event.lockRectangle chain.tex 0 true,
               Event.textureBlit chain.tex width height pitch,
               Event.unlockRectangle chain.tex]
            else [Event.lockRectangle chain.tex 0 false])
    ∧ (Event.lockRectangleClear chain.tex
          ∈ (d3d8_renderchain_blit_to_texture e w chain width height pitch).1.trace.drop
              w.trace.length
        ↔ (chain.last_width, chain.last_height) ≠ (width, height))
    ∧ (d3d8_renderchain_blit_to_texture e w chain width height pitch).2 = chain
    ∧ (d3d8_renderchain_blit_to_texture e w chain width height pitch).2.last_width
        = chain.last_width
    ∧ (d3d8_renderchain_blit_to_texture e w chain width height pitch).2.last_height
        = chain.last_height := by
  have htrace : (d3d8_renderchain_blit_to_texture e w chain width height pitch).1.trace
      = w.trace
        ++ (if chain.last_width ≠ width ∨ chain.last_height ≠ height then
              [Event.lockRectangle chain.tex D3DLOCK_NOSYSLOCK (decide (e.oracle w.tick ≠ 0)),
               Event.lockRectangleClear chain.tex]
            else [])
        ++ [Event.setTexture 0]
        ++ (if e.oracle (w.tick
                + (if chain.last_width ≠ width ∨ chain.last_height ≠ height then 1 else 0)) ≠ 0
            then
              [Event.lockRectangle chain.tex 0 true,
               Event.textureBlit chain.tex width height pitch,
               Event.unlockRectangle chain.tex]
            else [Event.lockRectangle chain.tex 0 false]) := by
    unfold d3d8_renderchain_blit_to_texture
    by_cases hc : chain.last_width ≠ width ∨ chain.last_height ≠ height
    · by_cases ho : e.oracle (w.tick + 1) ≠ 0
      · simp [hc, ho, World.log, World.next, answer]
      · simp [hc, ho, World.log, World.next, answer]
    · by_cases ho : e.oracle w.tick ≠ 0
      · simp [hc, ho, World.log, World.next, answer]
      · simp [hc, ho, World.log, World.next, answer]
  have hchain := blit_to_texture_chain e w chain width height pitch
  refine ⟨htrace, ?_, hchain, by rw [hchain], by rw [hchain]⟩
  rw [htrace]
  by_cases hc : chain.last_width ≠ width ∨ chain.last_height ≠ height
  · have hne : (chain.last_width, chain.last_height) ≠ (width, height) := by
      intro h
      simp only [Prod.mk.injEq] at h
      rcases hc with h1 | h1
      · exact h1 h.1
      · exact h1 h.2
    simp [hc, hne]
  · have heq : (chain.last_width, chain.last_height) = (width, height) := by
      simp only [not_or, not_not] at hc
      rw [hc.1, hc.2]
    simp only [hc, if_false, List.append_nil, List.append_assoc, List.drop_left, heq]
    split_ifs <;> simp

/-! ### The vertices of the main quad are written when the size changes -/

/-- C8: on a driver with a chain, d3d8_renderchain_set_vertices rewrites the vertex buffer
of the main quad exactly when the width or height given differs from last_width or
last_height. In that case the world afterwards is the world before with the contents of
the buffer chain.vertex_buf replaced by the four vertices (0, 1, 1), (1, 1, 1),
(0, 0, 1), (1, 0, 1), with the texture coordinates 0 or width / tex_w and 0 or
height / tex_h and the colour 0xFFFFFFFF, every other buffer as it was, and one write
of that buffer appended to the calls made; otherwise the world, its vertex buffers and
its calls included, is untouched. Afterwards last_width and last_height are the width
and height given, and a second call with the same width and height changes neither the
world, so neither the vertex buffers nor the calls made, nor the driver. -/
theorem d3d8_renderchain_set_vertices_writes_iff_resized {F : Type} (ops : FloatOps F)
    (w : World F) (d3d : D3DVideo F) (chain : Renderchain)
    (pass vert_width vert_height frame_count pass2 frame_count2 : Nat) :
    (d3d8_renderchain_set_vertices ops w (some { d3d with renderchain_data := some chain })
        pass vert_width vert_height frame_count).1
      = (if (chain.last_width, chain.last_height) ≠ (vert_width, vert_height) then
          { w with
            vbuf := Function.update w.vbuf chain.vertex_buf
              [ { x := ops.ofRat 0, y := ops.ofRat 1, z := ops.ofRat 1,
                  u := ops.ofRat 0, v := ops.ofRat 0, color := 0xFFFFFFFF },
                { x := ops.ofRat 1, y := ops.ofRat 1, z := ops.ofRat 1,
                  u := ops.div (ops.ofRat (vert_width : ℚ)) (ops.ofRat (chain.tex_w : ℚ)),
                  v := ops.ofRat 0, color := 0xFFFFFFFF },
                { x := ops.ofRat 0, y := ops.ofRat 0, z := ops.ofRat 1,
                  u := ops.ofRat 0,
                  v := ops.div (ops.ofRat (vert_height : ℚ)) (ops.ofRat (chain.tex_h : ℚ)),
                  color := 0xFFFFFFFF },
                { x := ops.ofRat 1, y := ops.ofRat 0, z := ops.ofRat 1,
                  u := ops.div (ops.ofRat (vert_width : ℚ)) (ops.ofRat (chain.tex_w : ℚ)),
                  v := ops.div (ops.ofRat (vert_height : ℚ)) (ops.ofRat (chain.tex_h : ℚ)),
                  color := 0xFFFFFFFF } ],
            trace := w.trace ++ [Event.vertexBufferWrite chain.vertex_buf] }
        else w)
    ∧ ((chain.last_width, chain.last_height) ≠ (vert_width, vert_height) →
        ((d3d8_renderchain_set_vertices ops w
            (some { d3d with renderchain_data := some chain })
            pass vert_width vert_height frame_count).1.vbuf chain.vertex_buf).length = 4
        ∧ (∀ buf, buf ≠ chain.vertex_buf →
            (d3d8_renderchain_set_vertices ops w
              (some { d3d with renderchain_data := some chain })
              pass vert_width vert_height frame_count).1.vbuf buf = w.vbuf buf)
        ∧ (d3d8_renderchain_set_vertices ops w
            (some { d3d with renderchain_data := some chain })
            pass vert_width vert_height frame_count).1.trace
          = w.trace ++ [Event.vertexBufferWrite chain.vertex_buf])
    ∧ ((chain.last_width, chain.last_height) = (vert_width, vert_height) →
        (d3d8_renderchain_set_vertices ops w
            (some { d3d with renderchain_data := some chain })
            pass vert_width vert_height frame_count).1.vbuf = w.vbuf
        ∧ (d3d8_renderchain_set_vertices ops w
            (some { d3d with renderchain_data := some chain })
            pass vert_width vert_height frame_count).1.trace = w.trace)
    ∧ (d3d8_renderchain_set_vertices ops w (some { d3d with renderchain_data := some chain })
        pass vert_width vert_height frame_count).2
      = some { d3d with
          renderchain_data := some { chain with last_width := vert_width,
                                                last_height := vert_height } }
    ∧ d3d8_renderchain_set_vertices ops
        (d3d8_renderchain_set_vertices ops w (some { d3d with renderchain_data := some chain })
          pass vert_width vert_height frame_count).1
        (d3d8_renderchain_set_vertices ops w (some { d3d with renderchain_data := some chain })
          pass vert_width vert_height frame_count).2
        pass2 vert_width vert_height frame_count2
      = d3d8_renderchain_set_vertices ops w (some { d3d with renderchain_data := some chain })
          pass vert_width vert_height frame_count := by
  have h2 : (d3d8_renderchain_set_vertices ops w
      (some { d3d with renderchain_data := some chain }) pass vert_width vert_height
        frame_count).2
      = some { d3d with
          renderchain_data := some { chain with last_width := vert_width,
                                                last_height := vert_height } } := by
    unfold d3d8_renderchain_set_vertices
    dsimp only
    split_ifs with hc
    · rfl
    · simp only [not_or, not_not] at hc
      have hchain : { chain with last_width := vert_width, last_height := vert_height }
          = chain := by
        rw [← hc.1, ← hc.2]
      rw [hchain]
  have hcond : (chain.last_width, chain.last_height) ≠ (vert_width, vert_height)
      ↔ (chain.last_width ≠ vert_width ∨ chain.last_height ≠ vert_height) := by
    constructor
    · intro h
      by_contra hn
      simp only [not_or, not_not] at hn
      exact h (by rw [hn.1, hn.2])
    · intro h heq
      simp only [Prod.mk.injEq] at heq
      rcases h with h1 | h1
      · exact h1 heq.1
      · exact h1 heq.2
  have h1 : (d3d8_renderchain_set_vertices ops w
      (some { d3d with renderchain_data := some chain }) pass vert_width vert_height
        frame_count).1
      = (if (chain.last_width, chain.last_height) ≠ (vert_width, vert_height) then
          { w with
            vbuf := Function.update w.vbuf chain.vertex_buf
              [ { x := ops.ofRat 0, y := ops.ofRat 1, z := ops.ofRat 1,
                  u := ops.ofRat 0, v := ops.ofRat 0, color := 0xFFFFFFFF },
                { x := ops.ofRat 1, y := ops.ofRat 1, z := ops.ofRat 1,
                  u := ops.div (ops.ofRat (vert_width : ℚ)) (ops.ofRat (chain.tex_w : ℚ)),
                  v := ops.ofRat 0, color := 0xFFFFFFFF },
                { x := ops.ofRat 0, y := ops.ofRat 0, z := ops.ofRat 1,
                  u := ops.ofRat 0,
                  v := ops.div (ops.ofRat (vert_height : ℚ)) (ops.ofRat (chain.tex_h : ℚ)),
                  color := 0xFFFFFFFF },
                { x := ops.ofRat 1, y := ops.ofRat 0, z := ops.ofRat 1,
                  u := ops.div (ops.ofRat (vert_width : ℚ)) (ops.ofRat (chain.tex_w : ℚ)),
                  v := ops.div (ops.ofRat (vert_height : ℚ)) (ops.ofRat (chain.tex_h : ℚ)),
                  color := 0xFFFFFFFF } ],
            trace := w.trace ++ [Event.vertexBufferWrite chain.vertex_buf] }
        else w) := by
    unfold d3d8_renderchain_set_vertices
    dsimp only
    by_cases hc : chain.last_width ≠ vert_width ∨ chain.last_height ≠ vert_height
    · rw [if_pos hc, if_pos (hcond.2 hc)]
      rfl
    · rw [if_neg hc, if_neg (fun h => hc (hcond.1 h))]
  refine ⟨h1, ?_, ?_, h2, ?_⟩
  · intro hne
    rw [h1, if_pos hne]
    refine ⟨?_, ?_, rfl⟩
    · simp [Function.update_same]
    · intro buf hbuf
      exact Function.update_noteq hbuf _ _
  · intro heq
    rw [h1, if_neg (by simp [heq])]
    exact ⟨rfl, rfl⟩
  · rw [h2]
    unfold d3d8_renderchain_set_vertices
    dsimp only
    rw [if_neg (by simp)]
    by_cases hc : chain.last_width ≠ vert_width ∨ chain.last_height ≠ vert_height
    · rw [if_pos hc]
    · rw [if_neg hc]
      simp only [not_or, not_not] at hc
      have hchain : { chain with last_width := vert_width, last_height := vert_height }
          = chain := by
        rw [← hc.1, ← hc.2]
      rw [hchain]

/-- C8 at a concrete input: on the sample driver, whose chain has seen no frame, a call
with 320 by 240 writes four vertices into the buffer 9 of the chain, leaves every other
buffer as it was and appends one write of the buffer 9 to the calls made. -/
theorem d3d8_renderchain_set_vertices_writes_iff_resized_witness :
    ((d3d8_renderchain_set_vertices exactOps sampleWorld
        (some { sampleD3D with renderchain_data := some sampleChain })
        1 320 240 0).1.vbuf sampleChain.vertex_buf).length = 4
    ∧ (∀ buf, buf ≠ sampleChain.vertex_buf →
        (d3d8_renderchain_set_vertices exactOps sampleWorld
          (some { sampleD3D with renderchain_data := some sampleChain })
          1 320 240 0).1.vbuf buf = sampleWorld.vbuf buf)
    ∧ (d3d8_renderchain_set_vertices exactOps sampleWorld
        (some { sampleD3D with renderchain_data := some sampleChain })
        1 320 240 0).1.trace
      = sampleWorld.trace ++ [Event.vertexBufferWrite sampleChain.vertex_buf] :=
  (d3d8_renderchain_set_vertices_writes_iff_resized exactOps sampleWorld sampleD3D
    sampleChain 1 320 240 0 1 0).2.1 (by decide)

/-! ### Loading overlays replaces the collection -/

theorem modify_at_length {α : Type} (f : α → α) (done : List α) (x : α) (tl : List α) :
    List.modify f done.length (done ++ x :: tl) = done ++ f x :: tl := by
  induction done with
  | nil => rfl
  | cons a done ih => simp [ih]

theorem free_overlays_loop_trace {F : Type} (d3d : D3DVideo F) (overlays : List (Overlay F)) :
    ∀ w : World F, (free_overlays_loop (some d3d) overlays w).trace
      = w.trace ++ release_events overlays := by
  induction overlays with
  | nil => intro w; simp [free_overlays_loop, release_events]
  | cons overlay rest ih =>
    intro w
    simp [free_overlays_loop, release_events, ih, d3d8_free_overlay, World.log]

theorem overlay_load_body_trace {F : Type} (ops : FloatOps F) (e : Env F)
    (image : TextureImage) (i : Nat) (w : World F) (d3d : D3DVideo F) :
    ∃ rest, (overlay_load_body ops e image i w d3d).world.trace = w.trace ++ rest := by
  unfold overlay_load_body
  dsimp only
  split_ifs <;> exact ⟨_, by simp [World.log, World.next, List.append_assoc]; rfl⟩

theorem overlay_load_loop_trace {F : Type} (ops : FloatOps F) (e : Env F)
    (images : List TextureImage) :
    ∀ (i : Nat) (w : World F) (d3d : D3DVideo F),
      ∃ rest, (overlay_load_loop ops e images i w d3d).world.trace = w.trace ++ rest := by
  induction images with
  | nil => intro i w d3d; exact ⟨[], by simp [overlay_load_loop]⟩
  | cons image rest ih =>
    intro i w d3d
    simp only [overlay_load_loop]
    obtain ⟨r1, h1⟩ := overlay_load_body_trace ops e image i w d3d
    split_ifs
    · exact ⟨r1, h1⟩
    · obtain ⟨r2, h2⟩ := ih (i + 1) (overlay_load_body ops e image i w d3d).world
        (overlay_load_body ops e image i w d3d).d3d
      exact ⟨r1 ++ r2, by rw [h2, h1, List.append_assoc]⟩

/-- One iteration that returns true turns the zeroed element of its index into a loaded
overlay with a texture. -/
theorem overlay_load_body_overlays {F : Type} (ops : FloatOps F) (e : Env F)
    (image : TextureImage) (done tl : List (Overlay F)) (w : World F) (d3d : D3DVideo F)
    (hov : d3d.overlays = done ++ zero_overlay ops :: tl)
    (hret : (overlay_load_body ops e image done.length w d3d).ret = true) :
    ∃ tex, tex ≠ 0 ∧ (overlay_load_body ops e image done.length w d3d).d3d.overlays
      = done ++ loaded_overlay ops image tex :: tl := by
  unfold overlay_load_body at hret ⊢
  dsimp only at hret ⊢
  by_cases htex : answer e w = 0
  · rw [if_pos htex] at hret
    exact absurd hret (by simp)
  · rw [if_neg htex]
    refine ⟨answer e w, htex, ?_⟩
    simp [d3d8_overlay_vertex_geom, d3d8_overlay_tex_geom, hov, modify_at_length,
      loaded_overlay, zero_overlay]

/-- The loop of d3d8_overlay_load, when it returns true, has turned the zeroed elements
into loaded overlays, one for each image, each with a texture. -/
theorem overlay_load_loop_overlays {F : Type} (ops : FloatOps F) (e : Env F)
    (images : List TextureImage) :
    ∀ (done : List (Overlay F)) (w : World F) (d3d : D3DVideo F),
      d3d.overlays = done ++ List.replicate images.length (zero_overlay ops) →
      (overlay_load_loop ops e images done.length w d3d).ret = true →
      ∃ texs : List Nat, texs.length = images.length ∧ (∀ t ∈ texs, t ≠ 0)
        ∧ (overlay_load_loop ops e images done.length w d3d).d3d.overlays
            = done ++ List.zipWith (loaded_overlay ops) images texs := by
  induction images with
  | nil =>
    intro done w d3d hov _
    exact ⟨[], rfl, by simp, by simpa [overlay_load_loop] using hov⟩
  | cons image rest ih =>
    intro done w d3d hov hret
    simp only [overlay_load_loop] at hret ⊢
    by_cases hb : (overlay_load_body ops e image done.length w d3d).ret = false
    · rw [if_pos hb] at hret
      rw [hb] at hret
      exact absurd hret (by simp)
    · rw [if_neg hb] at hret ⊢
      obtain ⟨tex, htex, hstep⟩ := overlay_load_body_overlays ops e image done
        (List.replicate rest.length (zero_overlay ops)) w d3d
        (by simpa [List.replicate_succ] using hov) (by simpa using hb)
      have hlen : (done ++ [loaded_overlay ops image tex]).length = done.length + 1 := by
        simp
      rw [← hlen] at hret ⊢
      obtain ⟨texs, hl, hnz, hres⟩ := ih (done ++ [loaded_overlay ops image tex]) _ _
        (by rw [hstep]; simp) hret
      refine ⟨tex :: texs, by simp [hl], ?_, ?_⟩
      · intro t ht
        rcases List.mem_cons.mp ht with h | h
        · rw [h]; exact htex
        · exact hnz t h
      · rw [hres]
        simp

/-- C9: when d3d8_overlay_load succeeds with n images, the texture and the vertex buffer
of every overlay loaded before have been released (the first calls of the load, in
order), overlays_size is n, and for every i below n the overlay i has a texture, tex_w
and tex_h equal to the width and height of the image i, tex_coords (0, 0, 1, 1),
vert_coords (0, 1, 1, -1), and alpha_mod, fullscreen and vert_buf zero. The float
arithmetic is any in which 1 - 0 is 1 and the negation of 1 is -1. -/
theorem d3d8_overlay_load_replaces_collection {F : Type} (ops : FloatOps F) (e : Env F)
    (w : World F) (d3d : D3DVideo F) (images : List TextureImage)
    (hsub : ops.sub (ops.ofRat 1) (ops.ofRat 0) = ops.ofRat 1)
    (hneg : ops.neg (ops.ofRat 1) = ops.ofRat (-1))
    (hret : (d3d8_overlay_load ops e w (some d3d) images).ret = true) :
    ∃ d rest, (d3d8_overlay_load ops e w (some d3d) images).d3d = some d
      ∧ (d3d8_overlay_load ops e w (some d3d) images).world.trace
          = w.trace ++ release_events d3d.overlays ++ rest
      ∧ d.overlays_size = images.length
      ∧ ∀ i, i < images.length →
          ∃ overlay image, d.overlays[i]? = some overlay ∧ images[i]? = some image
            ∧ overlay.tex ≠ 0
            ∧ overlay.tex_w = image.width ∧ overlay.tex_h = image.height
            ∧ overlay.tex_coords = ⟨ops.ofRat 0, ops.ofRat 0, ops.ofRat 1, ops.ofRat 1⟩
            ∧ overlay.vert_coords = ⟨ops.ofRat 0, ops.ofRat 1, ops.ofRat 1, ops.ofRat (-1)⟩
            ∧ overlay.alpha_mod = ops.ofRat 0 ∧ overlay.fullscreen = false
            ∧ overlay.vert_buf = 0 := by
  unfold d3d8_overlay_load at hret ⊢
  simp only [d3d8_free_overlays, Option.getD] at hret ⊢
  obtain ⟨texs, hl, hnz, hres⟩ := overlay_load_loop_overlays ops e images [] _ _
    (by simp) hret
  obtain ⟨rest, hrest⟩ := overlay_load_loop_trace ops e images 0
    (free_overlays_loop (some d3d) d3d.overlays w)
    { d3d with overlays := List.replicate images.length (zero_overlay ops) }
  refine ⟨_, rest, rfl, ?_, ?_, ?_⟩
  · rw [hrest, free_overlays_loop_trace]
  · rw [D3DVideo.overlays_size]
    simp only [List.length_nil] at hres
    rw [hres]
    simp [hl]
  · intro i hi
    have hi2 : i < texs.length := by rw [hl]; exact hi
    refine ⟨loaded_overlay ops images[i] texs[i], images[i], ?_, by simp [hi], ?_, rfl, rfl,
      rfl, ?_, rfl, rfl, rfl⟩
    · simp only [List.length_nil] at hres
      rw [hres]
      simp [List.getElem?_zipWith, hi, hi2]
    · exact hnz _ (List.getElem_mem _)
    · simp [loaded_overlay, hsub, hneg]

/-- C9 at a concrete input: exact arithmetic has the two laws, the load of two images
over the three overlays of the sample driver succeeds, and leaves two overlays. -/
theorem d3d8_overlay_load_replaces_collection_witness :
    exactOps.sub (exactOps.ofRat 1) (exactOps.ofRat 0) = exactOps.ofRat 1
    ∧ exactOps.neg (exactOps.ofRat 1) = exactOps.ofRat (-1)
    ∧ (d3d8_overlay_load exactOps sampleEnv sampleWorld (some sampleBusyD3D)
        sampleImages).ret = true
    ∧ ∃ d rest, (d3d8_overlay_load exactOps sampleEnv sampleWorld (some sampleBusyD3D)
          sampleImages).d3d = some d
        ∧ (d3d8_overlay_load exactOps sampleEnv sampleWorld (some sampleBusyD3D)
            sampleImages).world.trace
          = [Event.textureFree 40, Event.vertexBufferFree 41, Event.textureFree 0,
             Event.vertexBufferFree 0, Event.textureFree 42, Event.vertexBufferFree 0] ++ rest
        ∧ d.overlays_size = 2 := by
  have hsub : exactOps.sub (exactOps.ofRat 1) (exactOps.ofRat 0) = exactOps.ofRat 1 := by
    simp [exactOps]
  have hneg : exactOps.neg (exactOps.ofRat 1) = exactOps.ofRat (-1) := by
    simp [exactOps]
  have hret : (d3d8_overlay_load exactOps sampleEnv sampleWorld (some sampleBusyD3D)
      sampleImages).ret = true := by decide
  obtain ⟨d, rest, hd, htrace, hsize, _⟩ := d3d8_overlay_load_replaces_collection exactOps
    sampleEnv sampleWorld sampleBusyD3D sampleImages hsub hneg hret
  exact ⟨hsub, hneg, hret, d, rest, hd, htrace, hsize⟩

/-! ### Enabling the overlays -/

/-- The loop of d3d8_overlay_enable assigns the flag once for each overlay: with no
overlay the flag keeps its value, with one or more it is the state given. -/
theorem overlay_enable_loop_flag {F : Type} (state : Bool) (overlays : List (Overlay F)) :
    ∀ d3d : D3DVideo F, (overlay_enable_loop state overlays d3d).overlays_enabled
      = if overlays.isEmpty = true then d3d.overlays_enabled else state := by
  induction overlays with
  | nil => intro d3d; rfl
  | cons overlay rest ih =>
    intro d3d
    simp only [overlay_enable_loop, ih]
    cases rest <;> simp

/-- C10, the code at the failing input: the sample driver has no overlay and
overlays_enabled clear; after d3d8_overlay_enable with the state true, overlays_enabled
is still clear. -/
theorem d3d8_overlay_enable_empty_collection_keeps_flag :
    sampleD3D.overlays_size = 0
    ∧ sampleD3D.overlays_enabled = false
    ∧ (d3d8_overlay_enable sampleWorld (some sampleD3D) true).2.map
        (fun d3d => d3d.overlays_enabled) = some false := by
  decide

/-! ### The presentation parameters -/

/-- C19: d3d8_make_d3dpp selects the presentation interval so: DEFAULT (zero) when the
windowed flag is set, whatever vsync and the swap interval are; otherwise IMMEDIATE when
vsync is off; otherwise TWO, THREE or FOUR for a swap interval of 2, 3 or 4 and ONE for
every other value. The windowed flag is true when fullscreen is not requested and is
the setting video_windowed_fullscreen otherwise. SwapEffect is DISCARD and
BackBufferCount is 2 in all cases. -/
theorem d3d8_make_d3dpp_presentation_interval {F : Type} (e : Env F) (w : World F)
    (info : VideoInfo) :
    (d3d8_make_d3dpp e w info).1.Windowed
        = (if info.fullscreen = false then true else e.settings.video_windowed_fullscreen)
    ∧ (d3d8_make_d3dpp e w info).1.FullScreen_PresentationInterval
        = (if (d3d8_make_d3dpp e w info).1.Windowed = true then D3DPRESENT_INTERVAL_DEFAULT
           else if info.vsync = false then D3DPRESENT_INTERVAL_IMMEDIATE
           else if e.settings.video_swap_interval = 2 then D3DPRESENT_INTERVAL_TWO
           else if e.settings.video_swap_interval = 3 then D3DPRESENT_INTERVAL_THREE
           else if e.settings.video_swap_interval = 4 then D3DPRESENT_INTERVAL_FOUR
           else D3DPRESENT_INTERVAL_ONE)
    ∧ D3DPRESENT_INTERVAL_DEFAULT = 0
    ∧ (d3d8_make_d3dpp e w info).1.SwapEffect = D3DSWAPEFFECT_DISCARD
    ∧ (d3d8_make_d3dpp e w info).1.BackBufferCount = 2 := by
  refine ⟨rfl, ?_, rfl, rfl, rfl⟩
  simp only [d3d8_make_d3dpp]
  by_cases hw : d3d8_is_windowed_enable e info.fullscreen = true
  · simp [hw]
  · by_cases hv : info.vsync = true
    · simp only [hw, hv, if_true, if_false, Bool.true_eq_false]
      by_cases h2 : e.settings.video_swap_interval = 2
      · simp [h2]
      · by_cases h3 : e.settings.video_swap_interval = 3
        · simp [h3]
        · by_cases h4 : e.settings.video_swap_interval = 4
          · simp [h4]
          · simp only [h2, h3, h4, if_false]
    · have hv2 : info.vsync = false := by simpa using hv
      simp [hw, hv2]

/-! ### Geometry and alpha of one overlay -/

/-- C16: for every valid index i, d3d8_overlay_tex_geom sets tex_coords of the overlay i
to (x, y, w, h), d3d8_overlay_vertex_geom changes vert_coords of the overlay i only, and
d3d8_overlay_set_alpha sets alpha_mod of the overlay i only; in each case the other
fields of the overlay i (texture and vertex buffer among them), every overlay j other
than i, overlays_size, overlays_enabled and the rest of the driver are unchanged. -/
theorem overlay_geometry_and_alpha_touch_one_overlay {F : Type} (ops : FloatOps F)
    (d3d : D3DVideo F) (i : Nat) (x y w h m : F) (overlay : Overlay F)
    (hi : d3d.overlays[i]? = some overlay) :
    (∃ d, d3d8_overlay_tex_geom (some d3d) i x y w h = some d
        ∧ d.overlays[i]? = some { overlay with tex_coords := ⟨x, y, w, h⟩ }
        ∧ (∀ j, j ≠ i → d.overlays[j]? = d3d.overlays[j]?)
        ∧ d.overlays_size = d3d.overlays_size
        ∧ d.overlays_enabled = d3d.overlays_enabled
        ∧ d = { d3d with overlays := d.overlays })
    ∧ (∃ d, d3d8_overlay_vertex_geom ops (some d3d) i x y w h = some d
        ∧ d.overlays[i]?
            = some { overlay with vert_coords := ⟨x, ops.sub (ops.ofRat 1) y, w, ops.neg h⟩ }
        ∧ (∀ j, j ≠ i → d.overlays[j]? = d3d.overlays[j]?)
        ∧ d.overlays_size = d3d.overlays_size
        ∧ d.overlays_enabled = d3d.overlays_enabled
        ∧ d = { d3d with overlays := d.overlays })
    ∧ (∃ d, d3d8_overlay_set_alpha (some d3d) i m = some d
        ∧ d.overlays[i]? = some { overlay with alpha_mod := m }
        ∧ (∀ j, j ≠ i → d.overlays[j]? = d3d.overlays[j]?)
        ∧ d.overlays_size = d3d.overlays_size
        ∧ d.overlays_enabled = d3d.overlays_enabled
        ∧ d = { d3d with overlays := d.overlays }) := by
  refine ⟨⟨_, rfl, ?_, ?_, ?_, rfl, rfl⟩, ⟨_, rfl, ?_, ?_, ?_, rfl, rfl⟩,
    ⟨_, rfl, ?_, ?_, ?_, rfl, rfl⟩⟩
  · simp [hi]
  · intro j hj
    simp [List.getElem?_modify_ne _ _ (Ne.symm hj)]
  · simp [D3DVideo.overlays_size]
  · simp [hi]
  · intro j hj
    simp [List.getElem?_modify_ne _ _ (Ne.symm hj)]
  · simp [D3DVideo.overlays_size]
  · simp [hi]
  · intro j hj
    simp [List.getElem?_modify_ne _ _ (Ne.symm hj)]
  · simp [D3DVideo.overlays_size]

/-- C16 at a concrete input: the geometry of the overlay 2 of the sample driver with
three overlays. -/
theorem overlay_geometry_and_alpha_touch_one_overlay_witness :
    (∃ overlay, sampleBusyD3D.overlays[2]? = some overlay)
    ∧ (∃ d, d3d8_overlay_tex_geom (some sampleBusyD3D) 2 (1 / 4 : ℚ) (1 / 4) (1 / 2) (1 / 2)
          = some d
        ∧ (∀ j, j ≠ 2 → d.overlays[j]? = sampleBusyD3D.overlays[j]?)
        ∧ d.overlays_size = 3) := by
  have hi : sampleBusyD3D.overlays[2]? = some
      { fullscreen := false, enabled := false, tex_coords := ⟨0, 0, 1, 1⟩,
        vert_coords := ⟨0, 1, 1, -1⟩, alpha_mod := 1, tex_w := 16, tex_h := 16,
        tex := 42, vert_buf := 0 } := rfl
  obtain ⟨⟨d, hd, _, hj, hsize, _, _⟩, _, _⟩ := overlay_geometry_and_alpha_touch_one_overlay
    exactOps sampleBusyD3D 2 (1 / 4) (1 / 4) (1 / 2) (1 / 2) 1 _ hi
  exact ⟨⟨_, hi⟩, d, hd, hj, by rw [hsize]; rfl⟩

/-! ### The vertical flip of the overlay geometry -/

/-- The function d3d8_init_base changes the device of the driver only. -/
theorem init_base_d3d {F : Type} (e : Env F) (w : World F) (d3d : D3DVideo F)
    (info : VideoInfo) :
    ∃ dev, (d3d8_init_base e w d3d info).d3d = { d3d with dev := dev } := by
  unfold d3d8_init_base
  dsimp only
  split_ifs
  · exact ⟨d3d.dev, rfl⟩
  · exact ⟨d3d.dev, rfl⟩
  · exact ⟨_, rfl⟩

/-- The function d3d8_deinitialize drops the chain and the buffer of the menu display. -/
theorem deinitialize_d3d {F : Type} (w : World F) (d3d : D3DVideo F) :
    (( d3d8_deinitialize w (some d3d)).2.getD d3d)
      = { d3d with renderchain_data := none,
                   menu_display := { d3d.menu_display with buffer := 0, decl := 0 } } := rfl

/-- The function d3d8_initialize changes the device, the render chain, the viewport, the
three matrices and the menu display of the driver, and nothing else. -/
theorem initialize_d3d {F : Type} (ops : FloatOps F) (e : Env F) (w : World F)
    (d3d : D3DVideo F) (info : VideoInfo) :
    ∃ d, ( d3d8_initialize ops e w (some d3d) info).d3d = some d
      ∧ d = { d3d with dev := d.dev, renderchain_data := d.renderchain_data,
                       final_viewport := d.final_viewport, mvp := d.mvp,
                       mvp_rotate := d.mvp_rotate, mvp_transposed := d.mvp_transposed,
                       menu_display := d.menu_display } := by
  unfold d3d8_initialize
  dsimp only
  by_cases hg : w.g_pD3D8 = 0
  · rw [if_pos hg]
    obtain ⟨dev, hdev⟩ := init_base_d3d e w d3d info
    generalize d3d8_init_base e w d3d info = rb at hdev ⊢
    obtain ⟨rbret, rbw, rbd⟩ := rb
    simp only at hdev
    subst hdev
    split_ifs <;> exact ⟨_, rfl, rfl⟩
  · rw [if_neg hg]
    by_cases hn : d3d.needs_restore = true
    · rw [if_pos hn]
      by_cases hr : (d3d_reset e ((d3d8_make_d3dpp e w info).2.log Event.menuDeinit)).1 = false
      · rw [if_pos hr]
        simp only [deinitialize_d3d]
        generalize ( d3d8_deinitialize (d3d_reset e
          ((d3d8_make_d3dpp e w info).2.log Event.menuDeinit)).2 (some d3d)).1 = w1
        obtain ⟨dev, hdev⟩ := init_base_d3d e
          { (w1.log Event.deviceFree) with g_pD3D8 := 0 }
          { d3d with renderchain_data := none,
                     menu_display := { d3d.menu_display with buffer := 0, decl := 0 } } info
        generalize d3d8_init_base e { (w1.log Event.deviceFree) with g_pD3D8 := 0 }
          { d3d with renderchain_data := none,
                     menu_display := { d3d.menu_display with buffer := 0, decl := 0 } } info
          = rb at hdev ⊢
        obtain ⟨rbret, rbw, rbd⟩ := rb
        simp only at hdev
        subst hdev
        split_ifs <;> exact ⟨_, rfl, rfl⟩
      · rw [if_neg hr]
        split_ifs <;> exact ⟨_, rfl, rfl⟩
    · rw [if_neg hn]
      split_ifs <;> exact ⟨_, rfl, rfl⟩

/-- The function d3d8_initialize leaves the menu alone. -/
theorem initialize_menu {F : Type} (ops : FloatOps F) (e : Env F) (w : World F)
    (d3d : D3DVideo F) (info : VideoInfo) :
    (( d3d8_initialize ops e w (some d3d) info).d3d.getD d3d).menu = d3d.menu := by
  obtain ⟨d, h, hd⟩ := initialize_d3d ops e w d3d info
  rw [h, Option.getD_some, hd]

/-- The menu that d3d8_init_internal creates has the vert_coords (0, 1, 1, -1), whether
the initialisation succeeds or not. -/
theorem init_internal_menu_vert_coords {F : Type} (ops : FloatOps F) (e : Env F)
    (w : World F) (d3d : D3DVideo F) (info : VideoInfo) :
    (d3d8_init_internal ops e w d3d info).d3d.menu.map (fun menu => menu.vert_coords)
      = some ⟨ops.ofRat 0, ops.ofRat 1, ops.ofRat 1, ops.ofRat (-1)⟩ := by
  unfold d3d8_init_internal
  dsimp only
  split_ifs <;> first | rfl | (rw [initialize_menu]; rfl)

/-- C17, the claim as stated fails in the arithmetic of float: for y = 0.7f and
h = 0.1f, which are 11744051 / 2^24 and 13421773 / 2^27, d3d8_overlay_vertex_geom stores
1.0f - y = 5033165 / 2^24 and -h; their sum in float is 13421774 / 2^26, about
0.20000001788, while 1.0f - (y + h) in float is 3355443 / 2^24, about 0.19999998808. -/
theorem d3d8_overlay_vertex_geom_bottom_edge_rounds :
    binary32Ops.ofRat (7 / 10) = 11744051 / 16777216
    ∧ binary32Ops.ofRat (1 / 10) = 13421773 / 134217728
    ∧ (d3d8_overlay_vertex_geom binary32Ops (some sampleBusyD3D) 0 0
          (binary32Ops.ofRat (7 / 10)) 1 (binary32Ops.ofRat (1 / 10))).bind
        (fun d => d.overlays[0]?.map (fun o => (o.vert_coords.c1, o.vert_coords.c3)))
      = some ((5033165 / 16777216 : ℚ), (-(13421773 / 134217728) : ℚ))
    ∧ binary32Ops.add (5033165 / 16777216) (-(13421773 / 134217728))
      = 13421774 / 67108864
    ∧ binary32Ops.sub (binary32Ops.ofRat 1)
        (binary32Ops.add (binary32Ops.ofRat (7 / 10)) (binary32Ops.ofRat (1 / 10)))
      = 3355443 / 16777216
    ∧ binary32Ops.add (5033165 / 16777216) (-(13421773 / 134217728))
      ≠ binary32Ops.sub (binary32Ops.ofRat 1)
          (binary32Ops.add (binary32Ops.ofRat (7 / 10)) (binary32Ops.ofRat (1 / 10))) := by
  refine ⟨?_, ?_, ?_, ?_, ?_, ?_⟩
  · decide!
  · decide!
  · decide!
  · decide!
  · decide!
  · decide!

/-- C17, amended: in any arithmetic of float, d3d8_overlay_vertex_geom stores vert_coords
(x, 1.0f - y, w, -h) for the overlay of a valid index, the subtraction being that of
float; when 1.0f - 0.0f is 1.0f and -(1.0f) is the float of -1, the default geometry
(0, 0, 1, 1) is stored as (0, 1, 1, -1), which is the vert_coords that d3d8_init_internal
gives the menu quad, and this is so in binary32 as in exact arithmetic. Over exact
arithmetic the top edge y goes to 1 - y and the bottom edge y + h goes to
(1 - y) + (-h), which is 1 - (y + h). -/
theorem d3d8_overlay_vertex_geom_flips_vertical {F : Type} (ops : FloatOps F)
    (d3d : D3DVideo F) (i : Nat) (x y w h : F) (overlay : Overlay F)
    (hi : d3d.overlays[i]? = some overlay)
    (e : Env F) (w0 : World F) (d0 : D3DVideo F) (info : VideoInfo)
    (dq : D3DVideo ℚ) (xq yq wq hq : ℚ) (overlayq : Overlay ℚ)
    (hiq : dq.overlays[i]? = some overlayq)
    (eq : Env ℚ) (wq0 : World ℚ) (dq0 : D3DVideo ℚ) :
    (∃ d, d3d8_overlay_vertex_geom ops (some d3d) i x y w h = some d
        ∧ d.overlays[i]?.map (fun o => o.vert_coords)
            = some ⟨x, ops.sub (ops.ofRat 1) y, w, ops.neg h⟩)
    ∧ (ops.sub (ops.ofRat 1) (ops.ofRat 0) = ops.ofRat 1 →
        ops.neg (ops.ofRat 1) = ops.ofRat (-1) →
        ∃ d, d3d8_overlay_vertex_geom ops (some d3d) i (ops.ofRat 0) (ops.ofRat 0)
            (ops.ofRat 1) (ops.ofRat 1) = some d
          ∧ d.overlays[i]?.map (fun o => o.vert_coords)
              = some ⟨ops.ofRat 0, ops.ofRat 1, ops.ofRat 1, ops.ofRat (-1)⟩
          ∧ d.overlays[i]?.map (fun o => o.vert_coords)
              = (d3d8_init_internal ops e w0 d0 info).d3d.menu.map
                  (fun menu => menu.vert_coords))
    ∧ (∃ d stored, d3d8_overlay_vertex_geom exactOps (some dq) i xq yq wq hq = some d
        ∧ d.overlays[i]?.map (fun o => o.vert_coords) = some stored
        ∧ stored.c0 = xq ∧ stored.c1 = 1 - yq ∧ stored.c2 = wq ∧ stored.c3 = - hq
        ∧ stored.c1 + stored.c3 = 1 - (yq + hq))
    ∧ (∃ d, d3d8_overlay_vertex_geom exactOps (some dq) i 0 0 1 1 = some d
        ∧ d.overlays[i]?.map (fun o => o.vert_coords) = some ⟨0, 1, 1, -1⟩
        ∧ d.overlays[i]?.map (fun o => o.vert_coords)
            = (d3d8_init_internal exactOps eq wq0 dq0 info).d3d.menu.map
                (fun menu => menu.vert_coords))
    ∧ (∃ d, d3d8_overlay_vertex_geom binary32Ops (some dq) i 0 0 1 1 = some d
        ∧ d.overlays[i]?.map (fun o => o.vert_coords) = some ⟨0, 1, 1, -1⟩
        ∧ d.overlays[i]?.map (fun o => o.vert_coords)
            = (d3d8_init_internal binary32Ops eq wq0 dq0 info).d3d.menu.map
                (fun menu => menu.vert_coords)) := by
  have h0 : round32 0 = 0 := by decide!
  have h1 : round32 1 = 1 := by decide!
  have hm1 : round32 (-1) = -1 := by decide!
  have hs : round32 (round32 1 - 0) = 1 := by decide!
  refine ⟨⟨_, rfl, ?_⟩, ?_, ⟨_, ⟨xq, 1 - yq, wq, - hq⟩, rfl, ?_, rfl, rfl, rfl, rfl, by ring⟩,
    ⟨_, rfl, ?_, ?_⟩, ⟨_, rfl, ?_, ?_⟩⟩
  · simp [hi]
  · intro hsub hneg
    refine ⟨_, rfl, ?_, ?_⟩
    · simp [hi, hsub, hneg]
    · rw [init_internal_menu_vert_coords]
      simp [hi, hsub, hneg]
  · simp [hiq, exactOps]
  · simp [hiq, exactOps]
  · rw [init_internal_menu_vert_coords]
    simp [hiq, exactOps]
  · simp [hiq, binary32Ops, h1, hs]
  · rw [init_internal_menu_vert_coords]
    simp [hiq, binary32Ops, h0, h1, hm1, hs]

/-- C17, amended, at a concrete input: in binary32 the overlay 0 of the sample driver
with three overlays, given the rectangle (0, 0.7f, 1, 0.1f), has the vert_coords
(0, 1.0f - 0.7f, 1, -0.1f), and 1.0f - 0.0f is 1.0f and -(1.0f) is the float of -1, so
the default geometry is stored as the vert_coords of the menu quad; over exact
arithmetic the rectangle (1/4, 1/4, 1/2, 1/2) has the vert_coords (1/4, 3/4, 1/2, -1/2). -/
theorem d3d8_overlay_vertex_geom_flips_vertical_witness :
    (∃ overlay, sampleBusyD3D.overlays[0]? = some overlay)
    ∧ (∃ d : D3DVideo ℚ,
        d3d8_overlay_vertex_geom binary32Ops (some sampleBusyD3D) 0 0
          (binary32Ops.ofRat (7 / 10)) 1 (binary32Ops.ofRat (1 / 10)) = some d
        ∧ d.overlays[0]?.map (fun o => o.vert_coords)
            = some ⟨0, binary32Ops.sub (binary32Ops.ofRat 1) (binary32Ops.ofRat (7 / 10)), 1,
                binary32Ops.neg (binary32Ops.ofRat (1 / 10))⟩)
    ∧ binary32Ops.sub (binary32Ops.ofRat 1) (binary32Ops.ofRat 0) = binary32Ops.ofRat 1
    ∧ binary32Ops.neg (binary32Ops.ofRat 1) = binary32Ops.ofRat (-1)
    ∧ (∃ d : D3DVideo ℚ,
        d3d8_overlay_vertex_geom binary32Ops (some sampleBusyD3D) 0 (binary32Ops.ofRat 0)
          (binary32Ops.ofRat 0) (binary32Ops.ofRat 1) (binary32Ops.ofRat 1) = some d
        ∧ d.overlays[0]?.map (fun o => o.vert_coords)
            = some ⟨binary32Ops.ofRat 0, binary32Ops.ofRat 1, binary32Ops.ofRat 1,
                binary32Ops.ofRat (-1)⟩
        ∧ d.overlays[0]?.map (fun o => o.vert_coords)
            = (d3d8_init_internal binary32Ops sampleEnv sampleWorld sampleD3D
                sampleInfo).d3d.menu.map (fun menu => menu.vert_coords))
    ∧ ∃ (d : D3DVideo ℚ) (stored : Coords ℚ),
        d3d8_overlay_vertex_geom exactOps (some sampleBusyD3D) 0 (1 / 4) (1 / 4)
          (1 / 2) (1 / 2) = some d
        ∧ d.overlays[0]?.map (fun o => o.vert_coords) = some stored
        ∧ stored.c1 = (3 / 4 : ℚ) ∧ stored.c3 = (- (1 / 2) : ℚ)
        ∧ stored.c1 + stored.c3 = (1 / 4 : ℚ) := by
  have hi : sampleBusyD3D.overlays[0]? = some
      { fullscreen := false, enabled := false, tex_coords := ⟨0, 0, 1, 1⟩,
        vert_coords := ⟨0, 1, 1, -1⟩, alpha_mod := 1, tex_w := 16, tex_h := 16,
        tex := 40, vert_buf := 41 } := rfl
  have hsub : binary32Ops.sub (binary32Ops.ofRat 1) (binary32Ops.ofRat 0)
      = binary32Ops.ofRat 1 := by decide!
  have hneg : binary32Ops.neg (binary32Ops.ofRat 1) = binary32Ops.ofRat (-1) := by decide!
  obtain ⟨hstored, hdefault, ⟨d, stored, hd, hs, _, h1, _, h3, hsum⟩, _, _⟩ :=
    d3d8_overlay_vertex_geom_flips_vertical binary32Ops sampleBusyD3D 0 0
      (binary32Ops.ofRat (7 / 10)) 1 (binary32Ops.ofRat (1 / 10)) _ hi
      sampleEnv sampleWorld sampleD3D sampleInfo
      sampleBusyD3D (1 / 4) (1 / 4) (1 / 2) (1 / 2) _ hi sampleEnv sampleWorld sampleD3D
  exact ⟨⟨_, hi⟩, hstored, hsub, hneg, hdefault hsub hneg,
    d, stored, hd, hs, by rw [h1]; norm_num, h3, by rw [hsum]; norm_num⟩

/-! ### The render chain after d3d8_init_chain -/

/-- The first pass leaves the sizes and the pixel size of the chain, and the window size
and the custom viewport of the world, as they are. -/
theorem create_first_pass_keeps {F : Type} (e : Env F) (w : World F) (chain : Renderchain)
    (info : VideoInfo) :
    (d3d8_renderchain_create_first_pass e w chain info).2.2.tex_w = chain.tex_w
    ∧ (d3d8_renderchain_create_first_pass e w chain info).2.2.tex_h = chain.tex_h
    ∧ (d3d8_renderchain_create_first_pass e w chain info).2.2.pixel_size = chain.pixel_size
    ∧ (d3d8_renderchain_create_first_pass e w chain info).2.1.custom_vp = w.custom_vp
    ∧ (d3d8_renderchain_create_first_pass e w chain info).2.1.drv_width = w.drv_width
    ∧ (d3d8_renderchain_create_first_pass e w chain info).2.1.drv_height = w.drv_height := by
  unfold d3d8_renderchain_create_first_pass
  dsimp only
  split_ifs <;> exact ⟨rfl, rfl, rfl, rfl, rfl, rfl⟩

/-- C14: after a successful d3d8_init_chain the texture of the render chain is square, its
side being input_scale * RARCH_SCALE_BASE in unsigned arithmetic (the product itself
when it fits 32 bits); pixel_size is 4 when the video information of the driver is
rgb32 and 2 otherwise; and the width and the height of the custom viewport are replaced
by the width and the height of the window exactly when they were 0, the rest of the
custom viewport being left as it was. -/
theorem d3d8_init_chain_texture_and_custom_viewport {F : Type} (e : Env F) (w : World F)
    (d3d : D3DVideo F) (video_info : VideoInfo)
    (hret : (d3d8_init_chain e w d3d video_info).ret = true) :
    (∃ c, (d3d8_init_chain e w d3d video_info).d3d.renderchain_data = some c
      ∧ c.tex_w = c.tex_h
      ∧ c.tex_w = (video_info.input_scale * e.RARCH_SCALE_BASE) % 2 ^ 32
      ∧ (video_info.input_scale * e.RARCH_SCALE_BASE < 2 ^ 32 →
          c.tex_w = video_info.input_scale * e.RARCH_SCALE_BASE)
      ∧ c.pixel_size = (if d3d.video_info.rgb32 = true then 4 else 2))
    ∧ (d3d8_init_chain e w d3d video_info).world.custom_vp.width
        = (if w.custom_vp.width = 0 then w.drv_width else w.custom_vp.width)
    ∧ (d3d8_init_chain e w d3d video_info).world.custom_vp.height
        = (if w.custom_vp.height = 0 then w.drv_height else w.custom_vp.height)
    ∧ (d3d8_init_chain e w d3d video_info).world.custom_vp.x = w.custom_vp.x
    ∧ (d3d8_init_chain e w d3d video_info).world.custom_vp.y = w.custom_vp.y
    ∧ (d3d8_init_chain e w d3d video_info).world.custom_vp.full_width
        = w.custom_vp.full_width
    ∧ (d3d8_init_chain e w d3d video_info).world.custom_vp.full_height
        = w.custom_vp.full_height := by
  unfold d3d8_init_chain d3d8_renderchain_init at hret ⊢
  dsimp only at hret ⊢
  generalize hc0 : ({ d3d8_renderchain_new with
      dev := d3d.dev, pixel_size := if d3d.video_info.rgb32 = true then 4 else 2,
      tex_w := video_info.input_scale * e.RARCH_SCALE_BASE % 2 ^ 32,
      tex_h := video_info.input_scale * e.RARCH_SCALE_BASE % 2 ^ 32 } : Renderchain) = c0
    at hret ⊢
  obtain ⟨h1, h2, h3, h4, h5, h6⟩ := create_first_pass_keeps e w c0 d3d.video_info
  have hw : c0.tex_w = video_info.input_scale * e.RARCH_SCALE_BASE % 2 ^ 32 := by
    rw [← hc0]
  have hh : c0.tex_h = video_info.input_scale * e.RARCH_SCALE_BASE % 2 ^ 32 := by
    rw [← hc0]
  have hp : c0.pixel_size = (if d3d.video_info.rgb32 = true then 4 else 2) := by
    rw [← hc0]
  by_cases hf : (d3d8_renderchain_create_first_pass e w c0 d3d.video_info).1 = false
  · rw [if_pos hf] at hret
    exact absurd hret (by simp)
  · rw [if_neg hf]
    refine ⟨⟨_, rfl, ?_, ?_, ?_, ?_⟩, ?_, ?_, ?_, ?_, ?_, ?_⟩
    · rw [h1, h2, hw, hh]
    · rw [h1, hw]
    · intro hlt
      rw [h1, hw, Nat.mod_eq_of_lt hlt]
    · rw [h3, hp]
    · simp only [h4, h5]
    · simp only [h4, h6]
    · simp only [h4]
    · simp only [h4]
    · simp only [h4]
    · simp only [h4]

/-- C14 at a concrete input: with an input scale of 1, a window of 640 by 480 and a custom
viewport of width and height 0, the chain gets a texture of 256 by 256 and the custom
viewport becomes 640 by 480. -/
theorem d3d8_init_chain_texture_and_custom_viewport_witness :
    (d3d8_init_chain sampleEnv sampleWorld sampleD3D sampleInfo).ret = true
    ∧ (∃ c, (d3d8_init_chain sampleEnv sampleWorld sampleD3D sampleInfo).d3d.renderchain_data
          = some c
        ∧ c.tex_w = 256 ∧ c.tex_h = 256 ∧ c.pixel_size = 2)
    ∧ (d3d8_init_chain sampleEnv sampleWorld sampleD3D sampleInfo).world.custom_vp.width = 640
    ∧ (d3d8_init_chain sampleEnv sampleWorld sampleD3D sampleInfo).world.custom_vp.height
        = 480 := by
  have hret : (d3d8_init_chain sampleEnv sampleWorld sampleD3D sampleInfo).ret = true := by
    decide
  obtain ⟨⟨c, hc, hsq, hw, _, hp⟩, hcw, hch, _⟩ :=
    d3d8_init_chain_texture_and_custom_viewport sampleEnv sampleWorld sampleD3D sampleInfo hret
  refine ⟨hret, ⟨c, hc, ?_, ?_, ?_⟩, ?_, ?_⟩
  · rw [hw]; rfl
  · rw [← hsq, hw]; rfl
  · rw [hp]; rfl
  · rw [hcw]; rfl
  · rw [hch]; rfl

/-! ### The non-blocking state triggers a restore -/

/-- The function d3d_restore returns what d3d8_initialize returns on the deinitialised
driver; on success needs_restore is cleared, on failure it keeps its value. -/
theorem restore_ret_and_needs_restore {F : Type} (ops : FloatOps F) (e : Env F)
    (w : World F) (d3d : D3DVideo F) :
    (d3d_restore ops e w (some d3d)).ret
        = ( d3d8_initialize ops e ( d3d8_deinitialize w (some d3d)).1
            (some (( d3d8_deinitialize w (some d3d)).2.getD d3d)) d3d.video_info).ret
    ∧ ((d3d_restore ops e w (some d3d)).ret = true →
        ((d3d_restore ops e w (some d3d)).d3d.getD d3d).needs_restore = false)
    ∧ ((d3d_restore ops e w (some d3d)).ret = false →
        ((d3d_restore ops e w (some d3d)).d3d.getD d3d).needs_restore = d3d.needs_restore)
    ∧ ((d3d_restore ops e w (some d3d)).d3d.getD d3d).video_info = d3d.video_info := by
  obtain ⟨d, hd, hdeq⟩ := initialize_d3d ops e ( d3d8_deinitialize w (some d3d)).1
    (( d3d8_deinitialize w (some d3d)).2.getD d3d) d3d.video_info
  rw [deinitialize_d3d] at hd hdeq
  unfold d3d_restore
  dsimp only
  rw [deinitialize_d3d]
  dsimp only
  by_cases hr : ( d3d8_initialize ops e ( d3d8_deinitialize w (some d3d)).1
      (some { d3d with renderchain_data := none,
                       menu_display := { d3d.menu_display with buffer := 0, decl := 0 } })
      d3d.video_info).ret = false
  · rw [if_pos hr]
    dsimp only
    rw [hd, hr]
    refine ⟨rfl, by simp, fun _ => ?_, ?_⟩
    · rw [Option.getD_some, hdeq]
    · rw [Option.getD_some, hdeq]
  · rw [if_neg hr]
    have hr2 : ( d3d8_initialize ops e ( d3d8_deinitialize w (some d3d)).1
        (some { d3d with renderchain_data := none,
                         menu_display := { d3d.menu_display with buffer := 0, decl := 0 } })
        d3d.video_info).ret = true := by simpa using hr
    dsimp only
    rw [hd, hr2]
    refine ⟨rfl, fun _ => rfl, by simp, ?_⟩
    rw [Option.getD_some, Option.getD_some]
    dsimp only
    rw [hdeq]

/-- The function d3d_restore hands the driver back. -/
theorem restore_d3d_some {F : Type} (ops : FloatOps F) (e : Env F) (w : World F)
    (d3d : D3DVideo F) : ∃ d, (d3d_restore ops e w (some d3d)).d3d = some d := by
  unfold d3d_restore
  dsimp only
  split_ifs
  · obtain ⟨d, hd, _⟩ := initialize_d3d ops e ( d3d8_deinitialize w (some d3d)).1
      (( d3d8_deinitialize w (some d3d)).2.getD d3d) d3d.video_info
    exact ⟨d, hd⟩
  · exact ⟨_, rfl⟩

/-- C12: on a driver that is not NULL, d3d8_set_nonblock_state sets vsync to the negation
of the state, sets needs_restore and runs d3d_restore on the result; on return
needs_restore is false if and only if that restore succeeded. The function d3d_restore
itself returns true exactly when d3d8_initialize, run on the deinitialised driver,
succeeds, and on failure it leaves needs_restore as it was. -/
theorem d3d8_set_nonblock_state_triggers_restore {F : Type} (ops : FloatOps F) (e : Env F)
    (w : World F) (d3d : D3DVideo F) (state : Bool) :
    (∃ d, (d3d8_set_nonblock_state ops e w (some d3d) state).2 = some d
      ∧ d.video_info.vsync = !state
      ∧ d3d8_set_nonblock_state ops e w (some d3d) state
          = ((d3d_restore ops e (w.log (Event.swapInterval (if state = true then 0 else 1)))
                (some { d3d with video_info := { d3d.video_info with vsync := !state },
                                 needs_restore := true })).world,
             some d)
      ∧ some d = (d3d_restore ops e (w.log (Event.swapInterval (if state = true then 0 else 1)))
                (some { d3d with video_info := { d3d.video_info with vsync := !state },
                                 needs_restore := true })).d3d
      ∧ (d.needs_restore = false
          ↔ (d3d_restore ops e (w.log (Event.swapInterval (if state = true then 0 else 1)))
                (some { d3d with video_info := { d3d.video_info with vsync := !state },
                                 needs_restore := true })).ret = true))
    ∧ (∀ (w1 : World F) (d1 : D3DVideo F),
        ((d3d_restore ops e w1 (some d1)).ret = true
          ↔ ( d3d8_initialize ops e ( d3d8_deinitialize w1 (some d1)).1
              (some (( d3d8_deinitialize w1 (some d1)).2.getD d1)) d1.video_info).ret = true)
        ∧ ((d3d_restore ops e w1 (some d1)).ret = false →
            ((d3d_restore ops e w1 (some d1)).d3d.getD d1).needs_restore
              = d1.needs_restore)) := by
  constructor
  · have hnr1 : ({ d3d with video_info := { d3d.video_info with vsync := !state },
                            needs_restore := true } : D3DVideo F).needs_restore = true := rfl
    have hvs1 : ({ d3d with video_info := { d3d.video_info with vsync := !state },
                            needs_restore := true } : D3DVideo F).video_info.vsync
        = !state := rfl
    have hdef : d3d8_set_nonblock_state ops e w (some d3d) state
        = ((d3d_restore ops e (w.log (Event.swapInterval (if state = true then 0 else 1)))
              (some { d3d with video_info := { d3d.video_info with vsync := !state },
                               needs_restore := true })).world,
           some ((d3d_restore ops e (w.log (Event.swapInterval (if state = true then 0 else 1)))
              (some { d3d with video_info := { d3d.video_info with vsync := !state },
                               needs_restore := true })).d3d.getD
                { d3d with video_info := { d3d.video_info with vsync := !state },
                           needs_restore := true })) := rfl
    rw [hdef]
    generalize w.log (Event.swapInterval (if state = true then 0 else 1)) = w1
    generalize ({ d3d with video_info := { d3d.video_info with vsync := !state },
                           needs_restore := true } : D3DVideo F) = d1 at hnr1 hvs1 ⊢
    obtain ⟨hret, hok, hfail, hvi⟩ := restore_ret_and_needs_restore ops e w1 d1
    obtain ⟨d, hd⟩ := restore_d3d_some ops e w1 d1
    rw [hd, Option.getD_some] at hok hfail hvi
    rw [hd, Option.getD_some]
    refine ⟨d, rfl, ?_, rfl, rfl, ?_⟩
    · rw [hvi, hvs1]
    · constructor
      · intro hnr
        by_contra hne
        have hf := hfail (by simpa using hne)
        rw [hnr, hnr1] at hf
        exact absurd hf (by simp)
      · exact hok
  · intro w1 d1
    obtain ⟨hret, _, hfail, _⟩ := restore_ret_and_needs_restore ops e w1 d1
    exact ⟨by rw [hret], hfail⟩

/-! ### Device recovery in d3d8_initialize -/

/-- The calls of the recovery at the lost sample driver: when every call of the runtime
fails, one reset and one creation of the interface, and the call returns false; when
every call succeeds, one reset and the three resources of the chain and of the menu
display, and the call returns true. -/
theorem d3d8_initialize_recovery_samples :
    recovery_ops
        ( d3d8_initialize exactOps sampleFailingEnv sampleWorld (some sampleLostD3D)
          sampleInfo).world.trace
      = [Event.d3dReset false, Event.d3dCreate 0]
    ∧ ( d3d8_initialize exactOps sampleFailingEnv sampleWorld (some sampleLostD3D)
          sampleInfo).ret = false
    ∧ recovery_ops
        ( d3d8_initialize exactOps sampleEnv sampleWorld (some sampleLostD3D)
          sampleInfo).world.trace
      = [Event.d3dReset true, Event.vertexBufferNew 3, Event.textureNew 4,
         Event.vertexBufferNew 5]
    ∧ ( d3d8_initialize exactOps sampleEnv sampleWorld (some sampleLostD3D)
          sampleInfo).ret = true := by
  refine ⟨by decide, by decide, by decide, by decide⟩

/-! ### The texture of the chain is created on a restore only -/

theorem textures_created_log {F : Type} (w : World F) (ev : Event) :
    textures_created (w.log ev).trace
      = textures_created w.trace ++ (if ev.isTextureNew = true then [ev] else []) := by
  unfold textures_created World.log
  simp only [List.filter_append]
  by_cases h : ev.isTextureNew = true
  · simp [h]
  · simp [h]

theorem textures_created_black_frame {F : Type} (e : Env F) (w : World F) (d3d : D3DVideo F)
    (video_info : VideoFrameInfo) :
    textures_created (d3d8_frame_black_frame e w d3d video_info).2.1.trace
      = textures_created w.trace := by
  unfold d3d8_frame_black_frame d3d_swap
  dsimp only
  split_ifs <;> simp [textures_created_log, Event.isTextureNew, trace_next]

theorem textures_created_blit_to_texture {F : Type} (e : Env F) (w : World F)
    (chain : Renderchain) (width height pitch : Nat) :
    textures_created (d3d8_renderchain_blit_to_texture e w chain width height pitch).1.trace
      = textures_created w.trace := by
  unfold d3d8_renderchain_blit_to_texture
  dsimp only
  split_ifs <;> simp [textures_created_log, Event.isTextureNew, trace_next]

theorem textures_created_set_vertices {F : Type} (ops : FloatOps F) (w : World F)
    (d3d : D3DVideo F) (pass vert_width vert_height frame_count : Nat) :
    textures_created (d3d8_renderchain_set_vertices ops w (some d3d) pass vert_width
        vert_height frame_count).1.trace = textures_created w.trace := by
  unfold d3d8_renderchain_set_vertices
  dsimp only
  split
  · rfl
  · split_ifs
    · simp [World.writeVbuf, textures_created, World.log, Event.isTextureNew]
    · rfl

/-- Setting the vertices keeps the texture of the chain. -/
theorem set_vertices_chain_texture {F : Type} (ops : FloatOps F) (w : World F)
    (d3d : D3DVideo F) (pass vert_width vert_height frame_count : Nat) :
    ((d3d8_renderchain_set_vertices ops w (some d3d) pass vert_width vert_height
        frame_count).2.getD d3d).renderchain_data.map chain_texture
      = d3d.renderchain_data.map chain_texture := by
  unfold d3d8_renderchain_set_vertices
  dsimp only
  split
  · rfl
  · rename_i chain h
    split_ifs
    · rw [h]
      rfl
    · rfl

theorem textures_created_render_pass {F : Type} (ops : FloatOps F) (w : World F)
    (d3d : D3DVideo F) (chain : Renderchain) (pass_index rotation : Nat) :
    textures_created (d3d8_renderchain_render_pass ops w d3d chain pass_index rotation).trace
      = textures_created w.trace := by
  simp [d3d8_renderchain_render_pass, d3d8_renderchain_set_mvp, textures_created_log,
    Event.isTextureNew]

/-- The scene pass creates no texture and keeps the texture of the chain. -/
theorem render_chain_texture {F : Type} (ops : FloatOps F) (e : Env F) (w : World F)
    (d3d : D3DVideo F) (frame_width frame_height pitch rotation : Nat) :
    (d3d8_renderchain_render ops e w d3d frame_width frame_height pitch
        rotation).d3d.renderchain_data.map chain_texture
      = d3d.renderchain_data.map chain_texture
    ∧ textures_created (d3d8_renderchain_render ops e w d3d frame_width frame_height pitch
        rotation).world.trace = textures_created w.trace := by
  unfold d3d8_renderchain_render
  split
  · exact ⟨rfl, rfl⟩
  · rename_i chain hchain
    dsimp only
    have hbl := textures_created_blit_to_texture e w chain frame_width frame_height pitch
    rw [blit_to_texture_chain]
    generalize (d3d8_renderchain_blit_to_texture e w chain frame_width frame_height pitch).1
      = w1 at hbl ⊢
    have hsv := textures_created_set_vertices ops w1
      { d3d with renderchain_data := some chain } 1 frame_width frame_height
      chain.frame_count
    have hct := set_vertices_chain_texture ops w1
      { d3d with renderchain_data := some chain } 1 frame_width frame_height
      chain.frame_count
    generalize d3d8_renderchain_set_vertices ops w1
      (some { d3d with renderchain_data := some chain }) 1 frame_width frame_height
      chain.frame_count = sv at hsv hct ⊢
    generalize sv.2.getD ({ d3d with renderchain_data := some chain } : D3DVideo F) = d2
      at hct ⊢
    rw [hchain]
    split
    · rename_i h2
      rw [h2] at hct
      exact absurd hct (by simp)
    · rename_i c h2
      rw [h2] at hct
      refine ⟨?_, by rw [textures_created_render_pass, hsv, hbl]⟩
      rw [← hct]
      rfl

theorem textures_created_overlay_render {F : Type} (ops : FloatOps F) (e : Env F)
    (w : World F) (d3d : D3DVideo F) (video_info : VideoFrameInfo) (quad : Quad)
    (overlay : Overlay F) :
    textures_created (d3d8_overlay_render ops e w d3d video_info quad overlay).1.trace
      = textures_created w.trace := by
  unfold d3d8_overlay_render
  dsimp only
  split_ifs <;>
    simp_all [World.writeVbuf, textures_created_log, Event.isTextureNew, trace_next,
      textures_created, World.log]

theorem textures_created_frame_menu {F : Type} (ops : FloatOps F) (e : Env F) (w : World F)
    (d3d : D3DVideo F) (video_info : VideoFrameInfo) :
    textures_created (d3d8_frame_menu ops e w d3d video_info).1.trace
      = textures_created w.trace := by
  unfold d3d8_frame_menu
  split
  · split_ifs
    · have hmvp : (d3d8_set_mvp ops w (some d3d) (some d3d.mvp)).trace = w.trace := rfl
      generalize d3d8_set_mvp ops w (some d3d) (some d3d.mvp) = w1 at hmvp ⊢
      simp [textures_created_log, Event.isTextureNew, textures_created_overlay_render, hmvp]
    · rfl
  · rfl

theorem textures_created_overlays_render_loop {F : Type} (ops : FloatOps F) (e : Env F)
    (d3d : D3DVideo F) (video_info : VideoFrameInfo) (overlays : List (Overlay F)) :
    ∀ (i : Nat) (w : World F),
      textures_created (overlays_render_loop ops e d3d video_info overlays i w).1.trace
        = textures_created w.trace := by
  induction overlays with
  | nil =>
    intro i w
    rfl
  | cons overlay rest ih =>
    intro i w
    simp only [overlays_render_loop]
    rw [ih, textures_created_overlay_render]

theorem textures_created_frame_overlays {F : Type} (ops : FloatOps F) (e : Env F)
    (w : World F) (d3d : D3DVideo F) (video_info : VideoFrameInfo) :
    textures_created (d3d8_frame_overlays ops e w d3d video_info).1.trace
      = textures_created w.trace := by
  unfold d3d8_frame_overlays
  split_ifs
  · have hmvp : (d3d8_set_mvp ops w (some d3d) (some d3d.mvp)).trace = w.trace := rfl
    generalize d3d8_set_mvp ops w (some d3d) (some d3d.mvp) = w1 at hmvp ⊢
    simp [textures_created_overlays_render_loop, hmvp]
  · rfl

theorem textures_created_frame_msg {F : Type} (w : World F) (msg : Option String)
    (video_info : VideoFrameInfo) :
    textures_created (d3d8_frame_msg w msg video_info).trace = textures_created w.trace := by
  unfold d3d8_frame_msg
  split
  · split_ifs <;> simp [textures_created_log, Event.isTextureNew]
  · rfl

/-- The statements of the frame after the restore block create no texture and keep the
texture of the chain. -/
theorem frame_draw_chain_texture {F : Type} (ops : FloatOps F) (e : Env F) (w : World F)
    (d3d : D3DVideo F) (frame_width frame_height pitch : Nat) (msg : Option String)
    (video_info : VideoFrameInfo) :
    (d3d8_frame_draw ops e w d3d frame_width frame_height pitch msg
        video_info).d3d.renderchain_data.map chain_texture
      = d3d.renderchain_data.map chain_texture
    ∧ textures_created (d3d8_frame_draw ops e w d3d frame_width frame_height pitch msg
        video_info).world.trace = textures_created w.trace := by
  unfold d3d8_frame_draw
  dsimp only
  have hrc := frame_resize_chain ops e w d3d video_info
  generalize d3d8_frame_resize ops e w d3d video_info = d0 at hrc ⊢
  have hw0 : textures_created ((w.log (Event.setViewports 0 0 video_info.width
      video_info.height)).log Event.clear).trace = textures_created w.trace := by
    simp [textures_created_log, Event.isTextureNew]
  generalize (w.log (Event.setViewports 0 0 video_info.width video_info.height)).log
    Event.clear = w0 at hw0 ⊢
  obtain ⟨b, hb⟩ := d3d8_frame_black_frame_d3d e w0 d0 video_info
  have hw1 := textures_created_black_frame e w0 d0 video_info
  generalize (d3d8_frame_black_frame e w0 d0 video_info).1 = b1
  generalize (d3d8_frame_black_frame e w0 d0 video_info).2.1 = w1 at hw1 ⊢
  generalize (d3d8_frame_black_frame e w0 d0 video_info).2.2 = d1 at hb ⊢
  have hc1 : d1.renderchain_data = d3d.renderchain_data := by rw [hb, ← hrc]
  by_cases hbf : b1 = true
  · rw [if_pos hbf]
    exact ⟨by rw [hc1], by rw [hw1, hw0]⟩
  · rw [if_neg hbf, if_neg (by simp [d3d8_renderchain_render_ret])]
    dsimp only
    obtain ⟨hd2, hw2⟩ := render_chain_texture ops e w1 d1 frame_width frame_height pitch
      d1.dev_rotation
    generalize (d3d8_renderchain_render ops e w1 d1 frame_width frame_height pitch
      d1.dev_rotation).world = w2 at hw2 ⊢
    generalize (d3d8_renderchain_render ops e w1 d1 frame_width frame_height pitch
      d1.dev_rotation).d3d = d2 at hd2 ⊢
    obtain ⟨m, md, hd3⟩ := d3d8_frame_menu_d3d ops e w2 d2 video_info
    have hw3 := textures_created_frame_menu ops e w2 d2 video_info
    generalize (d3d8_frame_menu ops e w2 d2 video_info).1 = w3 at hw3 ⊢
    generalize (d3d8_frame_menu ops e w2 d2 video_info).2 = d3 at hd3 ⊢
    obtain ⟨os, hd4⟩ := d3d8_frame_overlays_d3d ops e w3 d3 video_info
    have hw4 := textures_created_frame_overlays ops e w3 d3 video_info
    generalize (d3d8_frame_overlays ops e w3 d3 video_info).1 = w4 at hw4 ⊢
    generalize (d3d8_frame_overlays ops e w3 d3 video_info).2 = d4 at hd4 ⊢
    refine ⟨?_, ?_⟩
    · rw [hd4, hd3]
      dsimp only
      rw [hd2, hc1]
    · rw [textures_created_log, textures_created_log, textures_created_frame_msg, hw4, hw3,
        hw2, hw1, hw0]
      simp [Event.isTextureNew]

/-- C13: a call of d3d8_frame entered with needs_restore false leaves the texture of the
chain as it was (the handle, tex_w, tex_h and pixel_size are the same after the call as
before) and creates no texture. -/
theorem d3d8_frame_keeps_render_texture {F : Type} (ops : FloatOps F) (e : Env F)
    (w : World F) (d3d : D3DVideo F) (frame : Option (List Nat))
    (frame_width frame_height frame_count pitch : Nat) (msg : Option String)
    (video_info : VideoFrameInfo) (hn : d3d.needs_restore = false) :
    (d3d8_frame ops e w d3d frame frame_width frame_height frame_count pitch msg
        video_info).d3d.renderchain_data.map chain_texture
      = d3d.renderchain_data.map chain_texture
    ∧ textures_created (d3d8_frame ops e w d3d frame frame_width frame_height frame_count
        pitch msg video_info).world.trace = textures_created w.trace := by
  unfold d3d8_frame
  cases frame with
  | none => exact ⟨rfl, rfl⟩
  | some f =>
    dsimp only
    rw [if_neg (by simp [hn])]
    exact frame_draw_chain_texture ops e w d3d frame_width frame_height pitch msg video_info

/-- The sample driver keeps the texture 8 of 256 by 256 with pixels of 2 bytes over a
frame of 320 by 240. -/
theorem d3d8_frame_keeps_render_texture_witness :
    sampleD3D.needs_restore = false
    ∧ (d3d8_frame exactOps sampleEnv sampleWorld sampleD3D (some []) 320 240 0 640 none
        sampleFrameInfo).d3d.renderchain_data.map chain_texture
      = sampleD3D.renderchain_data.map chain_texture
    ∧ textures_created (d3d8_frame exactOps sampleEnv sampleWorld sampleD3D (some []) 320 240
        0 640 none sampleFrameInfo).world.trace = textures_created sampleWorld.trace :=
  ⟨rfl, d3d8_frame_keeps_render_texture exactOps sampleEnv sampleWorld sampleD3D (some [])
    320 240 0 640 none sampleFrameInfo rfl⟩

/-- A frame entered with needs_restore set creates the texture of the chain anew: the
lost sample driver leaves the frame with the texture 4 in the place of the texture 8. -/
theorem d3d8_frame_restore_creates_texture :
    sampleLostD3D.renderchain_data.map chain_texture = some (8, 256, 256, 2)
    ∧ (d3d8_frame exactOps sampleEnv sampleWorld sampleLostD3D (some []) 320 240 0 640 none
        sampleFrameInfo).d3d.renderchain_data.map chain_texture = some (4, 256, 256, 2)
    ∧ textures_created (d3d8_frame exactOps sampleEnv sampleWorld sampleLostD3D (some []) 320
        240 0 640 none sampleFrameInfo).world.trace = [Event.textureNew 4] := by
  refine ⟨by decide, by decide, by decide⟩

/-! ### Loading a texture, threaded or not -/

/-- A value of 32 bits survives the way through int. -/
theorem uintptr_of_int_of_uintptr (n : Nat) (h : n < 2 ^ 32) :
    uintptr_of_int 32 (int_of_uintptr n) = n := by
  unfold uintptr_of_int int_of_uintptr
  norm_num at h ⊢
  split_ifs <;> omega

/-- The id that d3d8_video_texture_load_d3d leaves, from the id 0, is the handle that the
creation of the texture returned: 0 when the creation failed. -/
theorem d3d8_video_texture_load_d3d_id {F : Type} (e : Env F) (w : World F)
    (info : TextureInfo F) :
    (d3d8_video_texture_load_d3d e w info 0).2 = answer e w := by
  unfold d3d8_video_texture_load_d3d
  dsimp only
  by_cases h : answer e w = 0
  · rw [if_pos h]
    exact h.symm
  · rw [if_neg h]

/-- Where uintptr_t has 32 bits, the threaded load and the direct load return the same
id and leave the same log. -/
theorem d3d8_load_texture_threaded_agrees_32 {F : Type} (e : Env F) (w : World F)
    (video_data : D3DVideo F) (data : TextureImage) (filter_type : Nat)
    (hbits : e.uintptr_bits = 32) (hid : answer e w < 2 ^ 32) :
    d3d8_load_texture e w video_data data true filter_type
      = d3d8_load_texture e w video_data data false filter_type := by
  have h1 : d3d8_load_texture e w video_data data true filter_type
      = ((d3d8_video_texture_load_d3d e w
            { userdata := video_data, data := data, type := filter_type } 0).1,
         uintptr_of_int e.uintptr_bits (int_of_uintptr (d3d8_video_texture_load_d3d e w
            { userdata := video_data, data := data, type := filter_type } 0).2)) := rfl
  have h2 : d3d8_load_texture e w video_data data false filter_type
      = d3d8_video_texture_load_d3d e w
          { userdata := video_data, data := data, type := filter_type } 0 := rfl
  rw [h1, h2, hbits, d3d8_video_texture_load_d3d_id, uintptr_of_int_of_uintptr _ hid]
  exact Prod.ext rfl (d3d8_video_texture_load_d3d_id e w _).symm

/-- C15: in a build in which uintptr_t has 64 bits, for the handle 2^32 + 5 the direct load
returns the handle 4294967301 and the threaded load returns 5: the wrapper
d3d8_video_texture_load_wrap_d3d returns the id as an int. -/
theorem d3d8_load_texture_threaded_truncates_handle :
    (d3d8_load_texture sampleEnv64 sampleWorld sampleD3D ⟨16, 16, []⟩ false 0).2 = 4294967301
    ∧ (d3d8_load_texture sampleEnv64 sampleWorld sampleD3D ⟨16, 16, []⟩ true 0).2 = 5
    ∧ (d3d8_video_texture_load_d3d sampleEnv64 sampleWorld
        { userdata := sampleD3D, data := ⟨16, 16, []⟩, type := 0 } 0).2 = 4294967301
    ∧ (d3d8_video_texture_load_wrap_d3d sampleEnv64 sampleWorld
        (some { userdata := sampleD3D, data := ⟨16, 16, []⟩, type := 0 })).2 = 5 := by
  refine ⟨by decide, by decide, by decide, by decide⟩

/-! ### The letterbox over exact arithmetic -/

theorem rat_floor_eq (q : ℚ) : Rat.floor q = ⌊q⌋ := rfl

theorem roundHalfAway_of_nonneg (q : ℚ) (h : 0 ≤ q) : roundHalfAway q = ⌊q + 1 / 2⌋ := by
  unfold roundHalfAway
  rw [if_pos h, rat_floor_eq]

theorem roundHalfAway_nonneg (q : ℚ) (h : 0 ≤ q) : 0 ≤ roundHalfAway q := by
  rw [roundHalfAway_of_nonneg q h]
  exact Int.floor_nonneg.mpr (by linarith)

theorem roundHalfAway_le_nat (q : ℚ) (n : Nat) (h0 : 0 ≤ q) (h : q ≤ n) :
    roundHalfAway q ≤ n := by
  rw [roundHalfAway_of_nonneg q h0]
  have h1 : ⌊q + 1 / 2⌋ < (n : Int) + 1 := by
    rw [Int.floor_lt]
    push_cast
    linarith
  omega

/-- A margin rounded and the rest rounded miss the whole by one at most. -/
theorem roundHalfAway_centred (a : ℚ) (n : Nat) (h0 : 0 ≤ a) (h : 2 * a ≤ n) :
    |(n : Int) - (2 * roundHalfAway a + roundHalfAway (n - 2 * a))| ≤ 1 := by
  rw [roundHalfAway_of_nonneg a h0, roundHalfAway_of_nonneg _ (by linarith)]
  have h1 := Int.floor_le (a + 1 / 2)
  have h2 := Int.lt_floor_add_one (a + 1 / 2)
  have h3 := Int.floor_le ((n : ℚ) - 2 * a + 1 / 2)
  have h4 := Int.lt_floor_add_one ((n : ℚ) - 2 * a + 1 / 2)
  generalize ⌊a + 1 / 2⌋ = m at *
  generalize ⌊(n : ℚ) - 2 * a + 1 / 2⌋ = k at *
  have h5 : ((2 * m + k : Int) : ℚ) < (n : ℚ) + 2 := by
    push_cast
    linarith
  have h6 : (n : ℚ) - 2 < ((2 * m + k : Int) : ℚ) := by
    push_cast
    linarith
  have h7 : 2 * m + k < (n : Int) + 2 := by exact_mod_cast h5
  have h8 : (n : Int) - 2 < 2 * m + k := by exact_mod_cast h6
  rw [abs_le]
  constructor <;> omega

theorem exactOps_abs (a : ℚ) : exactOps.abs a = |a| := by
  show (if 0 ≤ a then a else - a) = |a|
  split_ifs with h
  · exact (abs_of_nonneg h).symm
  · exact (abs_of_neg (not_le.mp h)).symm

/-- One side of the letterbox: for a length n and a ratio r between 0 and 1, the margin
and the length that the code computes from delta = (r - 1) / 2 + 0.5. -/
theorem letterbox_side (n : Nat) (r : ℚ) (h0 : 0 < r) (h1 : r < 1) :
    roundHalfAway (n * (1 / 2 - ((r - 1) / 2 + 1 / 2))) = roundHalfAway (n * (1 - r) / 2)
    ∧ 0 ≤ roundHalfAway (n * (1 - r) / 2)
    ∧ ((roundHalfAway (2 * n * ((r - 1) / 2 + 1 / 2))).toNat : Int) = roundHalfAway (n * r)
    ∧ (roundHalfAway (2 * n * ((r - 1) / 2 + 1 / 2))).toNat ≤ n
    ∧ |(n : Int) - (2 * roundHalfAway (n * (1 - r) / 2)
          + ((roundHalfAway (2 * n * ((r - 1) / 2 + 1 / 2))).toNat : Int))| ≤ 1 := by
  have hn : (0 : ℚ) ≤ n := Nat.cast_nonneg n
  have e1 : (n : ℚ) * (1 / 2 - ((r - 1) / 2 + 1 / 2)) = n * (1 - r) / 2 := by ring
  have e2 : 2 * (n : ℚ) * ((r - 1) / 2 + 1 / 2) = n * r := by ring
  have e3 : (n : ℚ) * r = n - 2 * (n * (1 - r) / 2) := by ring
  have hm : 0 ≤ (n : ℚ) * (1 - r) / 2 := by
    have : 0 ≤ (n : ℚ) * (1 - r) := mul_nonneg hn (by linarith)
    linarith
  have hl : 0 ≤ (n : ℚ) * r := mul_nonneg hn (le_of_lt h0)
  have hle : (n : ℚ) * r ≤ n := by
    have : (n : ℚ) * r ≤ n * 1 := mul_le_mul_of_nonneg_left (le_of_lt h1) hn
    linarith
  have hw : ((roundHalfAway (n * r)).toNat : Int) = roundHalfAway (n * r) :=
    Int.toNat_of_nonneg (roundHalfAway_nonneg _ hl)
  have hwn : roundHalfAway (n * r) ≤ n := roundHalfAway_le_nat _ n hl hle
  rw [e1, e2, hw]
  refine ⟨rfl, roundHalfAway_nonneg _ hm, rfl, ?_, ?_⟩
  · omega
  · rw [e3]
    exact roundHalfAway_centred _ n hm (by linarith)

/-- The rectangle of d3d8_calculate_rect over exact arithmetic when the aspect is kept, the
scaling is not in whole numbers and the aspect is not the custom one. -/
theorem d3d8_calculate_rect_exact (e : Env ℚ) (w : World ℚ) (d3d : D3DVideo ℚ)
    (width height : Nat) (allow_rotate : Bool) (device_aspect : ℚ)
    (hkeep : d3d.keep_aspect = true) (hint : e.settings.video_scale_integer = false)
    (hcustom : e.settings.video_aspect_ratio_idx ≠ e.ASPECT_RATIO_CUSTOM)
    (hdevice : (e.translate_aspect w.drv_width w.drv_height).getD
      (exactOps.div (exactOps.ofNat width) (exactOps.ofNat height)) = device_aspect) :
    d3d8_calculate_rect exactOps e w d3d width height false allow_rotate
      = if |device_aspect - w.aspect_ratio| < 1 / 10000 then
          { x := 0, y := 0, width := w.drv_width, height := w.drv_height }
        else if w.aspect_ratio < device_aspect then
          { x := roundHalfAway
              (w.drv_width * (1 / 2 - ((w.aspect_ratio / device_aspect - 1) / 2 + 1 / 2))),
            y := 0,
            width := (roundHalfAway
              (2 * w.drv_width * ((w.aspect_ratio / device_aspect - 1) / 2 + 1 / 2))).toNat,
            height := w.drv_height }
        else
          { x := 0,
            y := roundHalfAway
              (w.drv_height * (1 / 2 - ((device_aspect / w.aspect_ratio - 1) / 2 + 1 / 2))),
            width := w.drv_width,
            height := (roundHalfAway
              (2 * w.drv_height * ((device_aspect / w.aspect_ratio - 1) / 2 + 1 / 2))).toNat } := by
  have hclose : ∀ a : ℚ, (exactOps.lt (exactOps.abs (exactOps.sub a w.aspect_ratio))
      (exactOps.ofRat (1 / 10000)) = true) ↔ |a - w.aspect_ratio| < 1 / 10000 := by
    intro a
    rw [exactOps_abs]
    show decide (|a - w.aspect_ratio| < 1 / 10000) = true ↔ _
    simp
  have hlt : ∀ a : ℚ, (exactOps.lt w.aspect_ratio a = true) ↔ w.aspect_ratio < a := by
    intro a
    show decide (w.aspect_ratio < a) = true ↔ _
    simp
  subst hdevice
  unfold d3d8_calculate_rect
  dsimp only
  rw [if_neg (by simp [hint]), if_pos ⟨hkeep, rfl⟩, if_neg hcustom]
  cases ht : e.translate_aspect w.drv_width w.drv_height with
  | none =>
    simp only [Option.getD, hclose, hlt]
    rfl
  | some a =>
    simp only [Option.getD, hclose, hlt]
    rfl

/-- C18: over exact arithmetic, in the branch of d3d8_calculate_rect that corrects the
aspect (keep_aspect set, no force_full, no integer scaling, not the custom aspect), with
positive aspect ratios and a window of W by H: when the two ratios differ by less than
0.0001 the rectangle is (0, 0, W, H); otherwise, when device_aspect is the greater,
y = 0, height = H, width = round(W * desired / device) <= W and
x = round(W * (1 - desired / device) / 2) >= 0; otherwise, when desired_aspect is the
greater, the same holds for y and height, with x = 0 and width = W. In every case x and
y are not negative, and the rectangle is centred to within one pixel: W differs from
2 * x + width, and H from 2 * y + height, by one at most. -/
theorem d3d8_calculate_rect_letterbox (e : Env ℚ) (w : World ℚ) (d3d : D3DVideo ℚ)
    (width height : Nat) (allow_rotate : Bool) (device_aspect : ℚ)
    (hkeep : d3d.keep_aspect = true) (hint : e.settings.video_scale_integer = false)
    (hcustom : e.settings.video_aspect_ratio_idx ≠ e.ASPECT_RATIO_CUSTOM)
    (hdevice : (e.translate_aspect w.drv_width w.drv_height).getD
      (exactOps.div (exactOps.ofNat width) (exactOps.ofNat height)) = device_aspect)
    (hdev0 : 0 < device_aspect) (hdes0 : 0 < w.aspect_ratio) :
    ∃ rect : Rect,
      d3d8_calculate_rect exactOps e w d3d width height false allow_rotate = rect
      ∧ (|device_aspect - w.aspect_ratio| < 1 / 10000 →
          rect = { x := 0, y := 0, width := w.drv_width, height := w.drv_height })
      ∧ (¬ |device_aspect - w.aspect_ratio| < 1 / 10000 → w.aspect_ratio < device_aspect →
          rect.y = 0 ∧ rect.height = w.drv_height
          ∧ (rect.width : Int)
              = roundHalfAway (w.drv_width * (w.aspect_ratio / device_aspect))
          ∧ rect.width ≤ w.drv_width
          ∧ rect.x = roundHalfAway (w.drv_width * (1 - w.aspect_ratio / device_aspect) / 2)
          ∧ 0 ≤ rect.x)
      ∧ (¬ |device_aspect - w.aspect_ratio| < 1 / 10000 → device_aspect < w.aspect_ratio →
          rect.x = 0 ∧ rect.width = w.drv_width
          ∧ (rect.height : Int)
              = roundHalfAway (w.drv_height * (device_aspect / w.aspect_ratio))
          ∧ rect.height ≤ w.drv_height
          ∧ rect.y = roundHalfAway (w.drv_height * (1 - device_aspect / w.aspect_ratio) / 2)
          ∧ 0 ≤ rect.y)
      ∧ 0 ≤ rect.x ∧ 0 ≤ rect.y
      ∧ |(w.drv_width : Int) - (2 * rect.x + (rect.width : Int))| ≤ 1
      ∧ |(w.drv_height : Int) - (2 * rect.y + (rect.height : Int))| ≤ 1 := by
  refine ⟨_, rfl, ?_⟩
  rw [d3d8_calculate_rect_exact e w d3d width height allow_rotate device_aspect hkeep hint
    hcustom hdevice]
  by_cases hc : |device_aspect - w.aspect_ratio| < 1 / 10000
  · rw [if_pos hc]
    refine ⟨fun _ => rfl, fun h => absurd hc h, fun h => absurd hc h, le_refl _, le_refl _,
      ?_, ?_⟩
    · simp
    · simp
  · rw [if_neg hc]
    by_cases hl : w.aspect_ratio < device_aspect
    · rw [if_pos hl]
      obtain ⟨h1, h2, h3, h4, h5⟩ := letterbox_side w.drv_width
        (w.aspect_ratio / device_aspect) (div_pos hdes0 hdev0) ((div_lt_one hdev0).mpr hl)
      refine ⟨fun h => absurd h hc, fun _ _ => ⟨rfl, rfl, h3, h4, h1, ?_⟩,
        fun _ h => absurd hl (not_lt.mpr (le_of_lt h)), ?_, le_refl _, ?_, ?_⟩
      · rw [h1]
        exact h2
      · rw [h1]
        exact h2
      · rw [h1]
        exact h5
      · simp
    · rw [if_neg hl]
      have hne : device_aspect ≠ w.aspect_ratio := by
        intro h
        apply hc
        rw [h, sub_self, abs_zero]
        norm_num
      have hl2 : device_aspect < w.aspect_ratio :=
        lt_of_le_of_ne (not_lt.mp hl) hne
      obtain ⟨h1, h2, h3, h4, h5⟩ := letterbox_side w.drv_height
        (device_aspect / w.aspect_ratio) (div_pos hdev0 hdes0) ((div_lt_one hdes0).mpr hl2)
      refine ⟨fun h => absurd h hc, fun _ h => absurd h hl,
        fun _ _ => ⟨rfl, rfl, h3, h4, h1, ?_⟩, le_refl _, ?_, ?_, ?_⟩
      · rw [h1]
        exact h2
      · rw [h1]
        exact h2
      · simp
      · rw [h1]
        exact h5

/-- C18 at a concrete input: a window of 640 by 480 with a desired aspect of 1 and a device
aspect of 2 (entry values of 960 by 480) is letterboxed to the rectangle
(160, 0, 320, 480). -/
theorem d3d8_calculate_rect_letterbox_witness :
    sampleD3D.keep_aspect = true ∧ sampleEnv.settings.video_scale_integer = false
    ∧ sampleEnv.settings.video_aspect_ratio_idx ≠ sampleEnv.ASPECT_RATIO_CUSTOM
    ∧ (0 : ℚ) < 2 ∧ 0 < sampleWorld.aspect_ratio
    ∧ d3d8_calculate_rect exactOps sampleEnv sampleWorld sampleD3D 960 480 false true
        = { x := 160, y := 0, width := 320, height := 480 } := by
  have hdevice : (sampleEnv.translate_aspect sampleWorld.drv_width
      sampleWorld.drv_height).getD (exactOps.div (exactOps.ofNat 960) (exactOps.ofNat 480))
      = 2 := by
    show ((960 : ℕ) : ℚ) / ((480 : ℕ) : ℚ) = 2
    norm_num
  have hdes : (0 : ℚ) < sampleWorld.aspect_ratio := by
    show (0 : ℚ) < 1
    norm_num
  have hfar : ¬ |(2 : ℚ) - sampleWorld.aspect_ratio| < 1 / 10000 := by
    show ¬ |(2 : ℚ) - 1| < 1 / 10000
    norm_num
  have hlt : sampleWorld.aspect_ratio < (2 : ℚ) := by
    show (1 : ℚ) < 2
    norm_num
  obtain ⟨rect, hrect, _, hwide, _, _⟩ :=
    d3d8_calculate_rect_letterbox sampleEnv sampleWorld sampleD3D 960 480 true 2 rfl rfl
      (by decide) hdevice (by norm_num) hdes
  obtain ⟨hy, hh, hw, _, hx, _⟩ := hwide hfar hlt
  refine ⟨rfl, rfl, by decide, by norm_num, hdes, ?_⟩
  rw [hrect]
  have hx2 : rect.x = 160 := by
    rw [hx]
    show roundHalfAway (((640 : ℕ) : ℚ) * (1 - 1 / 2) / 2) = 160
    norm_num [roundHalfAway, Rat.floor]
  have hw2 : rect.width = 320 := by
    have : (rect.width : Int) = 320 := by
      rw [hw]
      show roundHalfAway (((640 : ℕ) : ℚ) * (1 / 2)) = 320
      norm_num [roundHalfAway, Rat.floor]
    exact_mod_cast this
  have hh2 : rect.height = 480 := hh
  cases rect
  simp only at hx2 hy hw2 hh2
  subst hx2 hy hw2 hh2
  rfl

/-! ### The conversion of the 16-bit pixels of the menu -/

/-- A nibble of a value, as a quotient and a remainder. -/
theorem nibble_eq (c k : Nat) : (c >>> k) &&& 0xf = c / 2 ^ k % 16 := by
  rw [Nat.shiftRight_eq_div_pow]
  exact Nat.and_pow_two_sub_one_eq_mod _ 4

theorem shl_or_eq_add (a b i : Nat) (h : b < 2 ^ i) : a <<< i ||| b = a * 2 ^ i + b := by
  rw [Nat.shiftLeft_eq, Nat.mul_comm a, ← Nat.mul_add_lt_is_or h]

theorem nibble_expand (n : Nat) (h : n < 16) : ((n <<< 4) ||| n) = 17 * n := by
  rw [shl_or_eq_add n n 4 (by simpa using h)]
  omega

theorem channels_pack (r g b a : Nat) (hr : r < 256) (hg : g < 256) (hb : b < 256)
    (ha : a < 256) :
    ((r <<< 16) % 2 ^ 32) ||| ((g <<< 8) % 2 ^ 32) ||| ((b <<< 0) % 2 ^ 32)
        ||| ((a <<< 24) % 2 ^ 32)
      = a * 2 ^ 24 + r * 2 ^ 16 + g * 2 ^ 8 + b := by
  have e1 : (r <<< 16) % 2 ^ 32 = r <<< 16 := by
    rw [Nat.shiftLeft_eq]; omega
  have e2 : (g <<< 8) % 2 ^ 32 = g <<< 8 := by
    rw [Nat.shiftLeft_eq]; omega
  have e3 : (b <<< 0) % 2 ^ 32 = b := by
    rw [Nat.shiftLeft_eq]; omega
  have e4 : (a <<< 24) % 2 ^ 32 = a <<< 24 := by
    rw [Nat.shiftLeft_eq]; omega
  rw [e1, e2, e3, e4]
  rw [Nat.lor_assoc (r <<< 16), shl_or_eq_add g b 8 (by omega),
    shl_or_eq_add r _ 16 (by omega), Nat.lor_comm, shl_or_eq_add a _ 24 (by omega)]
  omega

theorem menu_pixel_16_eq (c : Nat) :
    menu_pixel_16 c = 17 * (c % 16) * 2 ^ 24 + 17 * (c / 2 ^ 12 % 16) * 2 ^ 16
      + 17 * (c / 2 ^ 8 % 16) * 2 ^ 8 + 17 * (c / 2 ^ 4 % 16) := by
  unfold menu_pixel_16
  dsimp only
  have h0 : ∀ k, (c >>> k) &&& 0xf < 16 := by
    intro k
    rw [nibble_eq]
    omega
  rw [nibble_expand _ (h0 12), nibble_expand _ (h0 8), nibble_expand _ (h0 4),
    nibble_expand _ (h0 0)]
  rw [channels_pack _ _ _ _ (by have := h0 12; omega) (by have := h0 8; omega)
    (by have := h0 4; omega) (by have := h0 0; omega)]
  rw [nibble_eq, nibble_eq, nibble_eq, nibble_eq]
  simp

theorem byte_eq (x k : Nat) : (x >>> k) &&& 0xff = x / 2 ^ k % 256 := by
  rw [Nat.shiftRight_eq_div_pow]
  exact Nat.and_pow_two_sub_one_eq_mod _ 8

theorem horner_step (x y : Nat) (hy : y < 16) :
    (x * 256 + 17 * y) / 2 ^ 8 = x ∧ (x * 256 + 17 * y) % 256 = 17 * y
    ∧ (x * 256 + 17 * y) / 2 ^ 4 % 16 = y := by
  refine ⟨?_, ?_, ?_⟩
  · omega
  · omega
  · interval_cases y <;> omega

theorem packed_extract (r g b a : Nat) (hr : r < 16) (hg : g < 16) (hb : b < 16)
    (ha : a < 16) :
    (17 * a * 2 ^ 24 + 17 * r * 2 ^ 16 + 17 * g * 2 ^ 8 + 17 * b) / 2 ^ 24 % 256 = 17 * a
    ∧ (17 * a * 2 ^ 24 + 17 * r * 2 ^ 16 + 17 * g * 2 ^ 8 + 17 * b) / 2 ^ 16 % 256 = 17 * r
    ∧ (17 * a * 2 ^ 24 + 17 * r * 2 ^ 16 + 17 * g * 2 ^ 8 + 17 * b) / 2 ^ 8 % 256 = 17 * g
    ∧ (17 * a * 2 ^ 24 + 17 * r * 2 ^ 16 + 17 * g * 2 ^ 8 + 17 * b) / 2 ^ 0 % 256 = 17 * b
    ∧ (17 * a * 2 ^ 24 + 17 * r * 2 ^ 16 + 17 * g * 2 ^ 8 + 17 * b) / 2 ^ 28 % 16 = a
    ∧ (17 * a * 2 ^ 24 + 17 * r * 2 ^ 16 + 17 * g * 2 ^ 8 + 17 * b) / 2 ^ 20 % 16 = r
    ∧ (17 * a * 2 ^ 24 + 17 * r * 2 ^ 16 + 17 * g * 2 ^ 8 + 17 * b) / 2 ^ 12 % 16 = g
    ∧ (17 * a * 2 ^ 24 + 17 * r * 2 ^ 16 + 17 * g * 2 ^ 8 + 17 * b) / 2 ^ 4 % 16 = b
    ∧ 17 * a * 2 ^ 24 + 17 * r * 2 ^ 16 + 17 * g * 2 ^ 8 + 17 * b < 2 ^ 32 := by
  have hP : 17 * a * 2 ^ 24 + 17 * r * 2 ^ 16 + 17 * g * 2 ^ 8 + 17 * b
      = ((17 * a * 256 + 17 * r) * 256 + 17 * g) * 256 + 17 * b := by ring
  have hlt : 17 * a * 2 ^ 24 + 17 * r * 2 ^ 16 + 17 * g * 2 ^ 8 + 17 * b < 2 ^ 32 := by omega
  rw [hP] at hlt ⊢
  obtain ⟨b1, b2, b3⟩ := horner_step ((17 * a * 256 + 17 * r) * 256 + 17 * g) b hb
  obtain ⟨g1, g2, g3⟩ := horner_step (17 * a * 256 + 17 * r) g hg
  obtain ⟨r1, r2, r3⟩ := horner_step (17 * a) r hr
  have d8 := b1
  have d16 : (((17 * a * 256 + 17 * r) * 256 + 17 * g) * 256 + 17 * b) / 2 ^ 16
      = 17 * a * 256 + 17 * r := by
    rw [show 2 ^ 16 = 2 ^ 8 * 2 ^ 8 from by norm_num, ← Nat.div_div_eq_div_mul, b1, g1]
  have d24 : (((17 * a * 256 + 17 * r) * 256 + 17 * g) * 256 + 17 * b) / 2 ^ 24
      = 17 * a := by
    rw [show 2 ^ 24 = 2 ^ 16 * 2 ^ 8 from by norm_num, ← Nat.div_div_eq_div_mul, d16, r1]
  have d12 : (((17 * a * 256 + 17 * r) * 256 + 17 * g) * 256 + 17 * b) / 2 ^ 12
      = ((17 * a * 256 + 17 * r) * 256 + 17 * g) / 2 ^ 4 := by
    rw [show 2 ^ 12 = 2 ^ 8 * 2 ^ 4 from by norm_num, ← Nat.div_div_eq_div_mul, b1]
  have d20 : (((17 * a * 256 + 17 * r) * 256 + 17 * g) * 256 + 17 * b) / 2 ^ 20
      = (17 * a * 256 + 17 * r) / 2 ^ 4 := by
    rw [show 2 ^ 20 = 2 ^ 16 * 2 ^ 4 from by norm_num, ← Nat.div_div_eq_div_mul, d16]
  have d28 : (((17 * a * 256 + 17 * r) * 256 + 17 * g) * 256 + 17 * b) / 2 ^ 28
      = 17 * a / 2 ^ 4 := by
    rw [show 2 ^ 28 = 2 ^ 24 * 2 ^ 4 from by norm_num, ← Nat.div_div_eq_div_mul, d24]
  refine ⟨?_, ?_, ?_, ?_, ?_, ?_, ?_, ?_, hlt⟩
  · rw [d24]
    omega
  · rw [d16]
    exact r2
  · rw [d8]
    exact g2
  · rw [pow_zero, Nat.div_one]
    exact b2
  · rw [d28]
    clear hlt b1 b2 b3 g1 g2 g3 r1 r2 r3 d8 d16 d24 d12 d20 d28 hP
    interval_cases a <;> rfl
  · rw [d20]
    exact r3
  · rw [d12]
    exact g3
  · exact b3

/-- The channels and the high nibbles of a converted pixel. -/
theorem menu_pixel_16_channels (x : Nat) :
    (menu_pixel_16 x >>> 24) &&& 0xff = 17 * ((x >>> 0) &&& 0xf)
    ∧ (menu_pixel_16 x >>> 16) &&& 0xff = 17 * ((x >>> 12) &&& 0xf)
    ∧ (menu_pixel_16 x >>> 8) &&& 0xff = 17 * ((x >>> 8) &&& 0xf)
    ∧ (menu_pixel_16 x >>> 0) &&& 0xff = 17 * ((x >>> 4) &&& 0xf)
    ∧ (menu_pixel_16 x >>> 28) &&& 0xf = (x >>> 0) &&& 0xf
    ∧ (menu_pixel_16 x >>> 20) &&& 0xf = (x >>> 12) &&& 0xf
    ∧ (menu_pixel_16 x >>> 12) &&& 0xf = (x >>> 8) &&& 0xf
    ∧ (menu_pixel_16 x >>> 4) &&& 0xf = (x >>> 4) &&& 0xf
    ∧ menu_pixel_16 x < 2 ^ 32 := by
  simp only [byte_eq, nibble_eq, menu_pixel_16_eq]
  have h := packed_extract (x / 2 ^ 12 % 16) (x / 2 ^ 8 % 16) (x / 2 ^ 4 % 16) (x / 2 ^ 0 % 16)
    (Nat.mod_lt _ (by norm_num)) (Nat.mod_lt _ (by norm_num)) (Nat.mod_lt _ (by norm_num))
    (Nat.mod_lt _ (by norm_num))
  simpa using h

/-- The rows written from a 16-bit frame are the conversions of its pixels. -/
theorem menu_texture_rows_16 (frame : List Nat) (width height : Nat) :
    menu_texture_rows frame false width height
      = (List.range height).map fun h =>
          (List.range width).map fun x => menu_pixel_16 (frame.getD (h * width + x) 0) := by
  simp [menu_texture_rows]

/-- C20: the conversion of a 16-bit pixel c of the menu is the 32-bit value
(A << 24) | (R << 16) | (G << 8) | B, where R, G, B and A are 17 times the nibbles at the
bits 15..12, 11..8, 7..4 and 3..0 of c; it fits 32 bits; each channel of the result is
17 times its nibble, and the high nibble of each channel is the nibble itself, so that
the conversion is injective on 16-bit values; 0x0000 goes to 0x00000000 and 0xFFFF to
0xFFFFFFFF; and a greater nibble gives a greater channel. -/
theorem menu_pixel_16_expands_nibbles (c : Nat) (hc : c < 2 ^ 16) :
    menu_pixel_16 c
        = ((17 * ((c >>> 0) &&& 0xf)) <<< 24) ||| ((17 * ((c >>> 12) &&& 0xf)) <<< 16)
          ||| ((17 * ((c >>> 8) &&& 0xf)) <<< 8) ||| (17 * ((c >>> 4) &&& 0xf))
    ∧ menu_pixel_16 c < 2 ^ 32
    ∧ (menu_pixel_16 c >>> 24) &&& 0xff = 17 * ((c >>> 0) &&& 0xf)
    ∧ (menu_pixel_16 c >>> 16) &&& 0xff = 17 * ((c >>> 12) &&& 0xf)
    ∧ (menu_pixel_16 c >>> 8) &&& 0xff = 17 * ((c >>> 8) &&& 0xf)
    ∧ (menu_pixel_16 c >>> 0) &&& 0xff = 17 * ((c >>> 4) &&& 0xf)
    ∧ (menu_pixel_16 c >>> 28) &&& 0xf = (c >>> 0) &&& 0xf
    ∧ (menu_pixel_16 c >>> 20) &&& 0xf = (c >>> 12) &&& 0xf
    ∧ (menu_pixel_16 c >>> 12) &&& 0xf = (c >>> 8) &&& 0xf
    ∧ (menu_pixel_16 c >>> 4) &&& 0xf = (c >>> 4) &&& 0xf
    ∧ (∀ c2, c2 < 2 ^ 16 → menu_pixel_16 c2 = menu_pixel_16 c → c2 = c)
    ∧ menu_pixel_16 0x0000 = 0x00000000 ∧ menu_pixel_16 0xFFFF = 0xFFFFFFFF
    ∧ (∀ c2, c2 < 2 ^ 16 →
        ((c >>> 0) &&& 0xf ≤ (c2 >>> 0) &&& 0xf →
          (menu_pixel_16 c >>> 24) &&& 0xff ≤ (menu_pixel_16 c2 >>> 24) &&& 0xff)
        ∧ ((c >>> 12) &&& 0xf ≤ (c2 >>> 12) &&& 0xf →
          (menu_pixel_16 c >>> 16) &&& 0xff ≤ (menu_pixel_16 c2 >>> 16) &&& 0xff)
        ∧ ((c >>> 8) &&& 0xf ≤ (c2 >>> 8) &&& 0xf →
          (menu_pixel_16 c >>> 8) &&& 0xff ≤ (menu_pixel_16 c2 >>> 8) &&& 0xff)
        ∧ ((c >>> 4) &&& 0xf ≤ (c2 >>> 4) &&& 0xf →
          (menu_pixel_16 c >>> 0) &&& 0xff ≤ (menu_pixel_16 c2 >>> 0) &&& 0xff)) := by
  obtain ⟨c1, c2, c3, c4, n1, n2, n3, n4, hlt⟩ := menu_pixel_16_channels c
  refine ⟨?_, hlt, c1, c2, c3, c4, n1, n2, n3, n4, ?_, ?_, ?_, ?_⟩
  · rw [Nat.lor_assoc, Nat.lor_assoc]
    have h0 : ∀ k, (c >>> k) &&& 0xf < 16 := by
      intro k
      rw [nibble_eq]
      omega
    have h12 := h0 12
    have h8 := h0 8
    have h4 := h0 4
    have h00 := h0 0
    rw [shl_or_eq_add _ _ 8 (by omega), shl_or_eq_add _ _ 16 (by omega),
      shl_or_eq_add _ _ 24 (by omega), menu_pixel_16_eq]
    simp only [nibble_eq]
    omega
  · intro x hx hxc
    obtain ⟨_, _, _, _, m1, m2, m3, m4, _⟩ := menu_pixel_16_channels x
    rw [hxc, n1] at m1
    rw [hxc, n2] at m2
    rw [hxc, n3] at m3
    rw [hxc, n4] at m4
    simp only [nibble_eq] at m1 m2 m3 m4
    omega
  · decide
  · decide
  · intro x _
    obtain ⟨x1, x2, x3, x4, _⟩ := menu_pixel_16_channels x
    rw [c1, c2, c3, c4, x1, x2, x3, x4]
    refine ⟨?_, ?_, ?_, ?_⟩ <;> intro h <;> omega

/-- C20 at a concrete input: the pixel 0x1234 becomes 0x44112233. -/
theorem menu_pixel_16_expands_nibbles_witness :
    0x1234 < 2 ^ 16 ∧ menu_pixel_16 0x1234 = 0x44112233 :=
  ⟨by norm_num, (menu_pixel_16_expands_nibbles 0x1234 (by norm_num)).1.trans (by decide)⟩

/-! ### The priority of the branches of d3d8_calculate_rect -/

/-- C21: d3d8_calculate_rect chooses its branch by a fixed priority. With force_full the
rectangle is (0, 0) with the width and the height of the window that the driver
reports, whatever the other settings are; otherwise, with integer scaling, it is the
rectangle that video_viewport_get_scaled_integer returns, whatever keep_aspect and the
aspect index are; otherwise, without keep_aspect, it is the full window again; and with
keep_aspect it is the custom viewport when the aspect index is the custom one, and the
letterbox computed from the device aspect and the desired aspect otherwise. -/
theorem d3d8_calculate_rect_branch_priority {F : Type} (ops : FloatOps F) (e : Env F)
    (w : World F) (d3d : D3DVideo F) (width height : Nat) (force_full allow_rotate : Bool) :
    d3d8_calculate_rect ops e w d3d width height force_full allow_rotate
      = if force_full = true then
          { x := 0, y := 0, width := w.drv_width, height := w.drv_height }
        else if e.settings.video_scale_integer = true then
          { x := (e.scaled_integer w.drv_width w.drv_height w.aspect_ratio d3d.keep_aspect).x,
            y := (e.scaled_integer w.drv_width w.drv_height w.aspect_ratio d3d.keep_aspect).y,
            width :=
              (e.scaled_integer w.drv_width w.drv_height w.aspect_ratio d3d.keep_aspect).width,
            height :=
              (e.scaled_integer w.drv_width w.drv_height w.aspect_ratio
                d3d.keep_aspect).height }
        else if d3d.keep_aspect = false then
          { x := 0, y := 0, width := w.drv_width, height := w.drv_height }
        else if e.settings.video_aspect_ratio_idx = e.ASPECT_RATIO_CUSTOM then
          { x := w.custom_vp.x, y := w.custom_vp.y, width := w.custom_vp.width,
            height := w.custom_vp.height }
        else
          calculate_rect_letterbox ops
            ((e.translate_aspect w.drv_width w.drv_height).getD
              (ops.div (ops.ofNat width) (ops.ofNat height)))
            w.aspect_ratio w.drv_width w.drv_height := by
  unfold d3d8_calculate_rect calculate_rect_letterbox
  dsimp only
  cases force_full
  · cases hs : e.settings.video_scale_integer
    · cases hk : d3d.keep_aspect
      · simp
      · by_cases hc : e.settings.video_aspect_ratio_idx = e.ASPECT_RATIO_CUSTOM
        · simp [hc]
        · cases ht : e.translate_aspect w.drv_width w.drv_height <;> simp [hc]
    · simp
  · simp

/-! ### The viewport read back -/

/-- C25: for a driver and a viewport that are not NULL, d3d8_viewport_info writes the x,
y, width and height of final_viewport and, as full_width and full_height, the size of
the window that the driver reports; with a NULL driver or a NULL viewport it writes
nothing. So it reads back what d3d8_set_viewport stored: the rectangle of
d3d8_calculate_rect with its origin clamped at 0, and after d3d8_set_viewport with
force_full the values x = 0, y = 0, width = full_width and height = full_height. -/
theorem d3d8_viewport_info_reads_final_viewport {F : Type} (ops : FloatOps F) (e : Env F)
    (w : World F) (d3d : D3DVideo F) (vp : VideoViewport) (width height : Nat)
    (force_full allow_rotate : Bool) :
    d3d8_viewport_info w (some d3d) (some vp)
        = some { x := d3d.final_viewport.x, y := d3d.final_viewport.y,
                 width := d3d.final_viewport.width, height := d3d.final_viewport.height,
                 full_width := w.drv_width, full_height := w.drv_height }
    ∧ d3d8_viewport_info w (none : Option (D3DVideo F)) (some vp) = some vp
    ∧ d3d8_viewport_info w (none : Option (D3DVideo F)) none = none
    ∧ d3d8_viewport_info w (some d3d) none = none
    ∧ d3d8_viewport_info w
          (some (d3d8_set_viewport ops e w d3d width height force_full allow_rotate)) (some vp)
        = some { x := max 0 (d3d8_calculate_rect ops e w d3d width height force_full
                   allow_rotate).x,
                 y := max 0 (d3d8_calculate_rect ops e w d3d width height force_full
                   allow_rotate).y,
                 width := (d3d8_calculate_rect ops e w d3d width height force_full
                   allow_rotate).width,
                 height := (d3d8_calculate_rect ops e w d3d width height force_full
                   allow_rotate).height,
                 full_width := w.drv_width, full_height := w.drv_height }
    ∧ d3d8_viewport_info w
          (some (d3d8_set_viewport ops e w d3d width height true allow_rotate)) (some vp)
        = some { x := 0, y := 0, width := w.drv_width, height := w.drv_height,
                 full_width := w.drv_width, full_height := w.drv_height } := by
  refine ⟨rfl, rfl, rfl, rfl, ?_, ?_⟩
  · have h1 : (d3d8_set_viewport ops e w d3d width height force_full
        allow_rotate).final_viewport.x
        = max 0 (d3d8_calculate_rect ops e w d3d width height force_full allow_rotate).x := by
      simp only [d3d8_set_viewport]
      split
      · rw [max_eq_left (by omega)]
      · rw [max_eq_right (by omega)]
    have h2 : (d3d8_set_viewport ops e w d3d width height force_full
        allow_rotate).final_viewport.y
        = max 0 (d3d8_calculate_rect ops e w d3d width height force_full allow_rotate).y := by
      simp only [d3d8_set_viewport]
      split
      · rw [max_eq_left (by omega)]
      · rw [max_eq_right (by omega)]
    show some _ = some _
    rw [h1, h2]
    rfl
  · have hr : d3d8_calculate_rect ops e w d3d width height true allow_rotate
        = { x := 0, y := 0, width := w.drv_width, height := w.drv_height } := by
      simp [d3d8_calculate_rect]
    show some _ = some _
    simp only [d3d8_set_viewport, hr]
    rfl

/-! ### A load of overlays that fails -/

/-- One iteration changes the overlays of the driver only. -/
theorem overlay_load_body_d3d {F : Type} (ops : FloatOps F) (e : Env F)
    (image : TextureImage) (i : Nat) (w : World F) (d3d : D3DVideo F) :
    (overlay_load_body ops e image i w d3d).d3d
      = { d3d with overlays := (overlay_load_body ops e image i w d3d).d3d.overlays } := by
  unfold overlay_load_body
  dsimp only
  split_ifs <;> rfl

/-- One iteration that returns false leaves the zeroed element of its index as it was,
and its last call is the creation of a texture that returned NULL. -/
theorem overlay_load_body_fails {F : Type} (ops : FloatOps F) (e : Env F)
    (image : TextureImage) (done tl : List (Overlay F)) (w : World F) (d3d : D3DVideo F)
    (hov : d3d.overlays = done ++ zero_overlay ops :: tl)
    (hret : (overlay_load_body ops e image done.length w d3d).ret = false) :
    (overlay_load_body ops e image done.length w d3d).d3d.overlays
        = done ++ zero_overlay ops :: tl
    ∧ (overlay_load_body ops e image done.length w d3d).world.trace
        = w.trace ++ [Event.textureNew 0] := by
  unfold overlay_load_body at hret ⊢
  dsimp only at hret ⊢
  by_cases htex : answer e w = 0
  · rw [if_pos htex]
    dsimp only
    rw [hov, modify_at_length, htex]
    exact ⟨rfl, rfl⟩
  · rw [if_neg htex] at hret
    exact absurd hret (by simp)

/-- The loop of d3d8_overlay_load turns the zeroed elements into loaded overlays one after
the other, and stops at the first image whose texture cannot be created: the elements from
that index on stay zeroed. -/
theorem overlay_load_loop_partial {F : Type} (ops : FloatOps F) (e : Env F)
    (images : List TextureImage) :
    ∀ (done : List (Overlay F)) (w : World F) (d3d : D3DVideo F),
      d3d.overlays = done ++ List.replicate images.length (zero_overlay ops) →
      ∃ texs : List Nat, texs.length ≤ images.length ∧ (∀ t ∈ texs, t ≠ 0)
        ∧ (overlay_load_loop ops e images done.length w d3d).d3d.overlays
            = done ++ List.zipWith (loaded_overlay ops) images texs
                ++ List.replicate (images.length - texs.length) (zero_overlay ops)
        ∧ ((overlay_load_loop ops e images done.length w d3d).ret = true
            ↔ texs.length = images.length)
        ∧ ((overlay_load_loop ops e images done.length w d3d).ret = false →
            ∃ rest, (overlay_load_loop ops e images done.length w d3d).world.trace
              = w.trace ++ rest ++ [Event.textureNew 0])
        ∧ (overlay_load_loop ops e images done.length w d3d).d3d
            = { d3d with
                overlays := (overlay_load_loop ops e images done.length w d3d).d3d.overlays } := by
  induction images with
  | nil =>
    intro done w d3d hov
    refine ⟨[], le_refl _, by simp, ?_, ?_, ?_, rfl⟩
    · simpa [overlay_load_loop] using hov
    · simp [overlay_load_loop]
    · simp [overlay_load_loop]
  | cons image rest ih =>
    intro done w d3d hov
    simp only [overlay_load_loop]
    have hov2 : d3d.overlays
        = done ++ zero_overlay ops :: List.replicate rest.length (zero_overlay ops) := by
      simpa [List.replicate_succ] using hov
    by_cases hb : (overlay_load_body ops e image done.length w d3d).ret = false
    · rw [if_pos hb]
      obtain ⟨ho, ht⟩ := overlay_load_body_fails ops e image done _ w d3d hov2 hb
      refine ⟨[], Nat.zero_le _, by simp, ?_, ?_, ?_, overlay_load_body_d3d ops e image _ w d3d⟩
      · rw [ho]
        simp [List.replicate_succ]
      · rw [hb]
        simp
      · intro _
        exact ⟨[], by rw [ht]; simp⟩
    · rw [if_neg hb]
      obtain ⟨tex, htex, hstep⟩ := overlay_load_body_overlays ops e image done
        (List.replicate rest.length (zero_overlay ops)) w d3d hov2 (by simpa using hb)
      have hlen : (done ++ [loaded_overlay ops image tex]).length = done.length + 1 := by
        simp
      obtain ⟨r1, h1⟩ := overlay_load_body_trace ops e image done.length w d3d
      have hd1 := overlay_load_body_d3d ops e image done.length w d3d
      generalize overlay_load_body ops e image done.length w d3d = rb at hstep h1 hd1 ⊢
      rw [← hlen]
      obtain ⟨texs, hl, hnz, hres, hiff, hfail, hd⟩ :=
        ih (done ++ [loaded_overlay ops image tex]) rb.world rb.d3d (by rw [hstep]; simp)
      refine ⟨tex :: texs, by simpa using hl, ?_, ?_, ?_, ?_, ?_⟩
      · intro t ht
        rcases List.mem_cons.mp ht with h | h
        · rw [h]; exact htex
        · exact hnz t h
      · rw [hres]
        simp
      · rw [hiff]
        simp
      · intro hf
        obtain ⟨r2, h2⟩ := hfail hf
        exact ⟨r1 ++ r2, by rw [h2, h1]; simp⟩
      · rw [hd, hd1]

/-- C23: when d3d8_overlay_load returns false on a driver that is not NULL, the texture
of some image i below num_images could not be created (the last call is a creation that
returned NULL); the overlays loaded before have been released; overlays_size is
num_images; the overlays below i are loaded, each with a texture and the size of its
image; the overlays from i on are zeroed and have no texture; and the rest of the
driver is as it was. With a NULL driver the function returns false and touches
nothing. -/
theorem d3d8_overlay_load_fails_half_way {F : Type} (ops : FloatOps F) (e : Env F)
    (w : World F) (d3d : D3DVideo F) (images : List TextureImage)
    (hret : (d3d8_overlay_load ops e w (some d3d) images).ret = false) :
    (∃ d rest i, (d3d8_overlay_load ops e w (some d3d) images).d3d = some d
      ∧ (d3d8_overlay_load ops e w (some d3d) images).world.trace
          = w.trace ++ release_events d3d.overlays ++ rest ++ [Event.textureNew 0]
      ∧ i < images.length
      ∧ d.overlays_size = images.length
      ∧ (∀ j, j < i →
          ∃ overlay image, d.overlays[j]? = some overlay ∧ images[j]? = some image
            ∧ overlay.tex ≠ 0 ∧ overlay.tex_w = image.width ∧ overlay.tex_h = image.height
            ∧ overlay.tex_coords = ⟨ops.ofRat 0, ops.ofRat 0, ops.ofRat 1, ops.ofRat 1⟩
            ∧ overlay.vert_coords
                = ⟨ops.ofRat 0, ops.sub (ops.ofRat 1) (ops.ofRat 0), ops.ofRat 1,
                    ops.neg (ops.ofRat 1)⟩)
      ∧ (∀ j, i ≤ j → j < images.length → d.overlays[j]? = some (zero_overlay ops))
      ∧ (zero_overlay ops).tex = 0
      ∧ d = { d3d with overlays := d.overlays })
    ∧ d3d8_overlay_load ops e w none images = { ret := false, world := w, d3d := none } := by
  refine ⟨?_, rfl⟩
  unfold d3d8_overlay_load at hret ⊢
  simp only [d3d8_free_overlays, Option.getD] at hret ⊢
  obtain ⟨texs, hl, hnz, hres, hiff, hfail, hd⟩ := overlay_load_loop_partial ops e images []
    (free_overlays_loop (some d3d) d3d.overlays w)
    { d3d with overlays := List.replicate images.length (zero_overlay ops) } (by simp)
  simp only [List.length_nil, List.nil_append] at hres hiff hfail hd
  obtain ⟨rest, hrest⟩ := hfail hret
  have hlt : texs.length < images.length := by
    rcases Nat.lt_or_eq_of_le hl with h | h
    · exact h
    · rw [hiff.mpr h] at hret
      exact absurd hret (by simp)
  refine ⟨_, rest, texs.length, rfl, ?_, hlt, ?_, ?_, ?_, rfl, ?_⟩
  · rw [hrest, free_overlays_loop_trace]
  · rw [D3DVideo.overlays_size, hres]
    simp
    omega
  · intro j hj
    have hj2 : j < images.length := lt_trans hj hlt
    refine ⟨loaded_overlay ops images[j] texs[j], images[j], ?_, by simp [hj2], ?_, rfl, rfl,
      rfl, rfl⟩
    · rw [hres, List.getElem?_append_left (by simp; omega)]
      simp [List.getElem?_zipWith, hj, hj2]
    · exact hnz _ (List.getElem_mem _)
  · intro j hij hj
    have hz : (List.zipWith (loaded_overlay ops) images texs).length = texs.length := by
      rw [List.length_zipWith]
      omega
    rw [hres, List.getElem?_append_right (by rw [hz]; exact hij), hz,
      List.getElem?_replicate, if_pos (by omega)]
  · rw [hd]

/-- C23 at a concrete input: with a runtime that creates the first texture and fails from
the second on, the load of two images over the sample driver returns false, and leaves
two overlays, the first with the texture 1 and the second without a texture. -/
theorem d3d8_overlay_load_fails_half_way_witness :
    (d3d8_overlay_load exactOps sampleHalfFailingEnv sampleWorld (some sampleBusyD3D)
        sampleImages).ret = false
    ∧ ∃ d, (d3d8_overlay_load exactOps sampleHalfFailingEnv sampleWorld (some sampleBusyD3D)
          sampleImages).d3d = some d
        ∧ d.overlays_size = 2 ∧ d.overlays.map (fun o => o.tex) = [1, 0]
        ∧ d.overlays_enabled = sampleBusyD3D.overlays_enabled := by
  have hret : (d3d8_overlay_load exactOps sampleHalfFailingEnv sampleWorld
      (some sampleBusyD3D) sampleImages).ret = false := by decide
  obtain ⟨⟨d, rest, i, hd, _, _, hsize, _, _, _, heq⟩, _⟩ :=
    d3d8_overlay_load_fails_half_way exactOps sampleHalfFailingEnv sampleWorld sampleBusyD3D
      sampleImages hret
  refine ⟨hret, d, hd, hsize, ?_, by rw [heq]⟩
  have hd2 : (d3d8_overlay_load exactOps sampleHalfFailingEnv sampleWorld
      (some sampleBusyD3D) sampleImages).d3d.map (fun x => x.overlays.map (fun o => o.tex))
      = some [1, 0] := by decide
  rw [hd] at hd2
  exact Option.some.inj hd2

/-! ### The two blocks of d3d8_initialize -/

/-- The function d3d8_initialize is its two blocks, one after the other. -/
theorem initialize_blocks {F : Type} (ops : FloatOps F) (e : Env F) (w : World F)
    (d3d : D3DVideo F) (info : VideoInfo) :
    d3d8_initialize ops e w (some d3d) info
      = d3d8_initialize_chain ops e (d3d8_initialize_device e w d3d info) info := rfl

theorem drv_size_make_d3dpp {F : Type} (e : Env F) (w : World F) (info : VideoInfo) :
    (d3d8_make_d3dpp e w info).2.drv_width = w.drv_width
    ∧ (d3d8_make_d3dpp e w info).2.drv_height = w.drv_height := by
  unfold d3d8_make_d3dpp d3d8_get_color_format_backbuffer
  dsimp only
  split <;> exact ⟨rfl, rfl⟩

theorem drv_size_init_base {F : Type} (e : Env F) (w : World F) (d3d : D3DVideo F)
    (info : VideoInfo) :
    (d3d8_init_base e w d3d info).world.drv_width = w.drv_width
    ∧ (d3d8_init_base e w d3d info).world.drv_height = w.drv_height := by
  unfold d3d8_init_base
  dsimp only
  have h := drv_size_make_d3dpp e
    { (w.next.log (Event.d3dCreate (answer e w))) with g_pD3D8 := answer e w } info
  dsimp only at h
  generalize (d3d8_make_d3dpp e
    { (w.next.log (Event.d3dCreate (answer e w))) with g_pD3D8 := answer e w } info).2
    = w1 at h ⊢
  split_ifs <;> exact h

theorem drv_size_renderchain_free {F : Type} (w : World F) (data : Option Renderchain) :
    (d3d8_renderchain_free w data).drv_width = w.drv_width
    ∧ (d3d8_renderchain_free w data).drv_height = w.drv_height := by
  unfold d3d8_renderchain_free
  split
  · exact ⟨rfl, rfl⟩
  · dsimp only
    split <;> exact ⟨rfl, rfl⟩

theorem deinitialize_drv_size {F : Type} (w : World F) (d3d : D3DVideo F) :
    ( d3d8_deinitialize w (some d3d)).1.drv_width = w.drv_width
    ∧ ( d3d8_deinitialize w (some d3d)).1.drv_height = w.drv_height := by
  have h := drv_size_renderchain_free (w.log Event.fontFreeOsd) d3d.renderchain_data
  exact h

/-- The first block of d3d8_initialize changes the device, the chain and the menu display
of the driver only; it leaves a chain that is NULL as it is; and it leaves the size of
the window alone. -/
theorem initialize_device_keeps {F : Type} (e : Env F) (w : World F) (d3d : D3DVideo F)
    (info : VideoInfo) :
    (d3d8_initialize_device e w d3d info).d3d
        = { d3d with dev := (d3d8_initialize_device e w d3d info).d3d.dev,
                     renderchain_data :=
                       (d3d8_initialize_device e w d3d info).d3d.renderchain_data,
                     menu_display := (d3d8_initialize_device e w d3d info).d3d.menu_display }
    ∧ (d3d.renderchain_data = none →
        (d3d8_initialize_device e w d3d info).d3d.renderchain_data = none)
    ∧ (d3d8_initialize_device e w d3d info).world.drv_width = w.drv_width
    ∧ (d3d8_initialize_device e w d3d info).world.drv_height = w.drv_height := by
  unfold d3d8_initialize_device
  by_cases hg : w.g_pD3D8 = 0
  · rw [if_pos hg]
    obtain ⟨dev, hdev⟩ := init_base_d3d e w d3d info
    obtain ⟨h1, h2⟩ := drv_size_init_base e w d3d info
    generalize d3d8_init_base e w d3d info = rb at hdev h1 h2 ⊢
    obtain ⟨rbret, rbw, rbd⟩ := rb
    simp only at hdev h1 h2
    subst hdev
    exact ⟨rfl, fun h => h, h1, h2⟩
  · rw [if_neg hg]
    by_cases hn : d3d.needs_restore = true
    · rw [if_pos hn]
      dsimp only
      obtain ⟨p1, p2⟩ := drv_size_make_d3dpp e w info
      generalize (d3d8_make_d3dpp e w info).2 = w0 at p1 p2 ⊢
      by_cases hr : (d3d_reset e (w0.log Event.menuDeinit)).1 = false
      · rw [if_pos hr]
        simp only [deinitialize_d3d]
        obtain ⟨q1, q2⟩ := deinitialize_drv_size (d3d_reset e (w0.log Event.menuDeinit)).2 d3d
        have q3 : (d3d_reset e (w0.log Event.menuDeinit)).2.drv_width = w0.drv_width := rfl
        have q4 : (d3d_reset e (w0.log Event.menuDeinit)).2.drv_height = w0.drv_height := rfl
        rw [q3] at q1
        rw [q4] at q2
        generalize ( d3d8_deinitialize (d3d_reset e (w0.log Event.menuDeinit)).2
          (some d3d)).1 = w1 at q1 q2 ⊢
        obtain ⟨dev, hdev⟩ := init_base_d3d e
          { (w1.log Event.deviceFree) with g_pD3D8 := 0 }
          { d3d with renderchain_data := none,
                     menu_display := { d3d.menu_display with buffer := 0, decl := 0 } } info
        obtain ⟨h1, h2⟩ := drv_size_init_base e
          { (w1.log Event.deviceFree) with g_pD3D8 := 0 }
          { d3d with renderchain_data := none,
                     menu_display := { d3d.menu_display with buffer := 0, decl := 0 } } info
        generalize d3d8_init_base e { (w1.log Event.deviceFree) with g_pD3D8 := 0 }
          { d3d with renderchain_data := none,
                     menu_display := { d3d.menu_display with buffer := 0, decl := 0 } } info
          = rb at hdev h1 h2 ⊢
        obtain ⟨rbret, rbw, rbd⟩ := rb
        simp only at hdev h1 h2
        subst hdev
        refine ⟨rfl, fun _ => rfl, ?_, ?_⟩
        · show rbw.drv_width = w.drv_width
          rw [h1]
          show w1.drv_width = w.drv_width
          rw [q1, p1]
        · show rbw.drv_height = w.drv_height
          rw [h2]
          show w1.drv_height = w.drv_height
          rw [q2, p2]
      · rw [if_neg hr]
        exact ⟨rfl, fun h => h, p1, p2⟩
    · rw [if_neg hn]
      exact ⟨rfl, fun h => h, rfl, rfl⟩

/-- The function d3d8_init_chain changes the chain of the driver only, and leaves the size
of the window alone. -/
theorem init_chain_keeps {F : Type} (e : Env F) (w : World F) (d3d : D3DVideo F)
    (info : VideoInfo) :
    (∃ c, (d3d8_init_chain e w d3d info).d3d = { d3d with renderchain_data := some c })
    ∧ (d3d8_init_chain e w d3d info).world.drv_width = w.drv_width
    ∧ (d3d8_init_chain e w d3d info).world.drv_height = w.drv_height := by
  unfold d3d8_init_chain d3d8_renderchain_init
  dsimp only
  generalize ({ d3d8_renderchain_new with
      dev := d3d.dev, pixel_size := if d3d.video_info.rgb32 = true then 4 else 2,
      tex_w := info.input_scale * e.RARCH_SCALE_BASE % 2 ^ 32,
      tex_h := info.input_scale * e.RARCH_SCALE_BASE % 2 ^ 32 } : Renderchain) = c0
  obtain ⟨_, _, _, _, h5, h6⟩ := create_first_pass_keeps e w c0 d3d.video_info
  generalize d3d8_renderchain_create_first_pass e w c0 d3d.video_info = cf at h5 h6 ⊢
  by_cases h : cf.1 = false
  · rw [if_pos h]
    exact ⟨⟨_, rfl⟩, h5, h6⟩
  · rw [if_neg h]
    exact ⟨⟨_, rfl⟩, h5, h6⟩

/-- When the second block of d3d8_initialize succeeds, the driver has a chain and a buffer
of the menu display, with the offset 0 and the size 1024; the viewport is the one that
d3d8_set_viewport computes for the driver as the first block left it; and keep_aspect,
should_resize and needs_restore are as the first block left them. -/
theorem initialize_chain_success {F : Type} (ops : FloatOps F) (e : Env F) (r : Res F Bool)
    (info : VideoInfo) (hret : (d3d8_initialize_chain ops e r info).ret = true) :
    ∃ d c w1, (d3d8_initialize_chain ops e r info).d3d = some d
      ∧ d.renderchain_data.isSome = true
      ∧ d.menu_display.buffer ≠ 0 ∧ d.menu_display.offset = 0 ∧ d.menu_display.size = 1024
      ∧ d.final_viewport
          = (d3d8_set_viewport ops e w1 { r.d3d with renderchain_data := some c }
              w1.drv_width w1.drv_height false true).final_viewport
      ∧ w1.drv_width = r.world.drv_width ∧ w1.drv_height = r.world.drv_height
      ∧ (d3d8_initialize_chain ops e r info).world.drv_width = r.world.drv_width
      ∧ (d3d8_initialize_chain ops e r info).world.drv_height = r.world.drv_height
      ∧ d.keep_aspect = r.d3d.keep_aspect ∧ d.should_resize = r.d3d.should_resize
      ∧ d.needs_restore = r.d3d.needs_restore := by
  unfold d3d8_initialize_chain at hret ⊢
  by_cases h1 : r.ret = false
  · rw [if_pos h1] at hret
    exact absurd hret (by simp)
  · rw [if_neg h1] at hret ⊢
    dsimp only at hret ⊢
    obtain ⟨⟨c, hc⟩, hw, hh⟩ := init_chain_keeps e r.world r.d3d info
    generalize d3d8_init_chain e r.world r.d3d info = rc at hret hc hw hh ⊢
    obtain ⟨rcret, rcw, rcd⟩ := rc
    simp only at hret hc hw hh ⊢
    subst hc
    by_cases h2 : rcret = false
    · rw [if_pos h2] at hret
      exact absurd hret (by simp)
    · rw [if_neg h2] at hret ⊢
      by_cases h3 : answer e (rcw.log Event.fontInitOsd) = 0
      · rw [if_pos h3] at hret
        exact absurd hret (by simp)
      · rw [if_neg h3]
        exact ⟨_, c, rcw, rfl, rfl, h3, rfl, rfl, rfl, hw, hh, hw, hh, rfl, rfl, rfl⟩

/-- The letterbox that the same driver gets once a call has set should_resize: for the
window of 640 by 480 and the desired aspect of 1, the rectangle (80, 0, 480, 480). -/
theorem d3d8_set_viewport_after_init_letterboxes :
    (d3d8_set_viewport exactOps sampleEnv sampleWorld
        { (zero_d3d_video exactOps) with keep_aspect := true } 640 480 false true).final_viewport
      = { x := 80, y := 0, width := 480, height := 480 } := by
  simp [d3d8_set_viewport, d3d8_calculate_rect, sampleEnv, sampleWorld, sampleSettings,
    zero_d3d_video, exactOps, FloatOps.ofNat, roundHalfAway]
  norm_num [Rat.floor]
  rfl

/-! ### The life of the render chain -/

/-- The driver that d3d8_init returns is the one that d3d8_init_internal left, entered
with the zeroed driver, with keep_aspect assigned. -/
theorem init_runs_init_internal {F : Type} (ops : FloatOps F) (e : Env F) (w : World F)
    (info : VideoInfo) (d : D3DVideo F) (hinit : (d3d8_init ops e w info).2 = some d) :
    ∃ w0, (d3d8_init_internal ops e w0 (zero_d3d_video ops) info).ret = true
      ∧ d = { (d3d8_init_internal ops e w0 (zero_d3d_video ops) info).d3d with
              keep_aspect := info.force_aspect } := by
  unfold d3d8_init at hinit
  dsimp only at hinit
  by_cases h1 : decide (answer e w ≠ 0) = false
  · rw [if_pos h1] at hinit
    exact absurd hinit (by simp)
  · rw [if_neg h1] at hinit
    generalize (w.next.log (Event.symbolsInit (decide (answer e w ≠ 0)))) = wa at hinit
    by_cases h2 : answer e wa = 0
    · rw [if_pos h2] at hinit
      exact absurd hinit (by simp)
    · rw [if_neg h2] at hinit
      generalize ((wa.next.log (Event.contextInit (answer e wa))).log Event.contextSet) = w0
        at hinit
      have hz : ({ zero_d3d_video ops with
          dev := 0, dev_rotation := 0, needs_restore := false, overlays_enabled := false,
          should_resize := false, menu := none } : D3DVideo F) = zero_d3d_video ops := rfl
      rw [hz] at hinit
      by_cases h3 : (d3d8_init_internal ops e w0 (zero_d3d_video ops) info).ret = false
      · rw [if_pos h3] at hinit
        exact absurd hinit (by simp)
      · rw [if_neg h3] at hinit
        exact ⟨w0, by simpa using h3, (Option.some.inj hinit).symm⟩

/-- The function d3d8_init_internal runs d3d8_initialize on a driver that has the chain it
was entered with. -/
theorem init_internal_runs_initialize {F : Type} (ops : FloatOps F) (e : Env F)
    (w : World F) (d3d : D3DVideo F) (info : VideoInfo) :
    ∃ w1 d1, d1.renderchain_data = d3d.renderchain_data
      ∧ (d3d8_init_internal ops e w d3d info).ret
          = ( d3d8_initialize ops e w1 (some d1) info).ret
      ∧ (d3d8_init_internal ops e w d3d info).d3d
          = ( d3d8_initialize ops e w1 (some d1) info).d3d.getD d1 := by
  unfold d3d8_init_internal
  dsimp only
  rw [if_neg (by simp [d3d8_init_singlepass])]
  generalize (if info.fullscreen = true then
      (if e.settings.video_windowed_fullscreen = true ∨ info.width = 0 then e.mon_width
       else info.width) else info.width) = nw
  generalize (if info.fullscreen = true then
      (if e.settings.video_windowed_fullscreen = true ∨ info.height = 0 then e.mon_height
       else info.height) else info.height) = nh
  generalize (({ w.log Event.windowInit with
      g_resize_width := info.width, g_resize_height := info.height,
      drv_width := nw, drv_height := nh } : World F).log
        (Event.windowCreate nw nh info.fullscreen)) = w0
  generalize hd0 : ({ d3d with
      menu := some { zero_overlay ops with
        tex_coords := ⟨ops.ofRat 0, ops.ofRat 0, ops.ofRat 1, ops.ofRat 1⟩
        vert_coords := ⟨ops.ofRat 0, ops.ofRat 1, ops.ofRat 1, ops.ofRat (-1)⟩ },
      cur_mon_id := e.mon_id, video_info := info } : D3DVideo F) = d0
  have hc : d0.renderchain_data = d3d.renderchain_data := by rw [← hd0]
  refine ⟨w0, d0, hc, ?_, ?_⟩
  · split_ifs with h
    · exact h.symm
    · simpa using h
  · split_ifs <;> rfl

/-- The calls of d3d8_renderchain_free on a chain, in order: the release of its texture
when it has one, then the release of its vertex buffer. -/
theorem trace_renderchain_free {F : Type} (w : World F) (chain : Renderchain) :
    (d3d8_renderchain_free w (some chain)).trace
      = w.trace ++ ((if chain.tex ≠ 0 then [Event.textureFree chain.tex] else [])
          ++ [Event.vertexBufferFree chain.vertex_buf]) := by
  unfold d3d8_renderchain_free
  dsimp only
  split_ifs <;> simp [World.log]

/-- The calls of d3d8_deinitialize on a driver with a chain. -/
theorem trace_deinitialize_chain {F : Type} (w : World F) (d3d : D3DVideo F)
    (chain : Renderchain) (hchain : d3d.renderchain_data = some chain) :
    ( d3d8_deinitialize w (some d3d)).1.trace
      = w.trace ++ (Event.fontFreeOsd
          :: (if chain.tex ≠ 0 then [Event.textureFree chain.tex] else []))
          ++ [Event.vertexBufferFree chain.vertex_buf,
              Event.vertexBufferFree d3d.menu_display.buffer] := by
  unfold d3d8_deinitialize d3d8_deinit_chain
  dsimp only
  rw [hchain]
  show ((d3d8_renderchain_free (w.log Event.fontFreeOsd) (some chain)).trace
    ++ [Event.vertexBufferFree d3d.menu_display.buffer]) = _
  rw [trace_renderchain_free]
  split_ifs <;> simp [World.log]

/-- The calls of d3d8_deinitialize on a driver without a chain. -/
theorem trace_deinitialize_no_chain {F : Type} (w : World F) (d3d : D3DVideo F)
    (hchain : d3d.renderchain_data = none) :
    ( d3d8_deinitialize w (some d3d)).1.trace
      = w.trace ++ [Event.fontFreeOsd, Event.vertexBufferFree d3d.menu_display.buffer] := by
  unfold d3d8_deinitialize d3d8_deinit_chain d3d8_renderchain_free
  dsimp only
  rw [hchain]
  simp [World.log]

/-- The function d3d8_deinitialize keeps the calls made before it. -/
theorem deinitialize_keeps_trace {F : Type} (w : World F) (d3d : D3DVideo F) :
    w.trace <+: ( d3d8_deinitialize w (some d3d)).1.trace := by
  cases hc : d3d.renderchain_data with
  | none =>
    rw [trace_deinitialize_no_chain w d3d hc]
    exact List.prefix_append _ _
  | some chain =>
    rw [trace_deinitialize_chain w d3d chain hc, List.append_assoc]
    exact List.prefix_append _ _

/-- A logged call keeps the calls made before it. -/
theorem trace_prefix_log {F : Type} (l : List Event) (w : World F) (ev : Event)
    (h : l <+: w.trace) : l <+: (w.log ev).trace :=
  h.trans (List.prefix_append _ _)

/-- The function d3d8_init_base keeps the calls made before it. -/
theorem trace_prefix_init_base {F : Type} (e : Env F) (w : World F) (d3d : D3DVideo F)
    (info : VideoInfo) : w.trace <+: (d3d8_init_base e w d3d info).world.trace := by
  unfold d3d8_init_base
  dsimp only
  have htr := trace_make_d3dpp e
    { (w.next.log (Event.d3dCreate (answer e w))) with g_pD3D8 := answer e w } info
  dsimp only at htr
  generalize (d3d8_make_d3dpp e
    { (w.next.log (Event.d3dCreate (answer e w))) with g_pD3D8 := answer e w } info).2
    = w1 at htr ⊢
  have h1 : w.trace <+: w1.trace := by
    rw [htr]
    exact List.prefix_append _ _
  split_ifs
  · exact h1
  · exact trace_prefix_log _ _ _ h1
  · exact trace_prefix_log _ _ _ h1

/-- The function d3d8_init_chain keeps the calls made before it. -/
theorem trace_prefix_init_chain {F : Type} (e : Env F) (w : World F) (d3d : D3DVideo F)
    (info : VideoInfo) : w.trace <+: (d3d8_init_chain e w d3d info).world.trace := by
  unfold d3d8_init_chain d3d8_renderchain_init d3d8_renderchain_create_first_pass
  dsimp only
  split_ifs <;>
    first
    | exact List.prefix_append _ _
    | exact trace_prefix_log _ _ _ (List.prefix_append _ _)

/-- The statements of d3d8_initialize before the chain keep the calls made before them. -/
theorem trace_prefix_initialize_device {F : Type} (e : Env F) (w : World F)
    (d3d : D3DVideo F) (info : VideoInfo) :
    w.trace <+: (d3d8_initialize_device e w d3d info).world.trace := by
  unfold d3d8_initialize_device
  dsimp only
  have htr := trace_make_d3dpp e w info
  generalize (d3d8_make_d3dpp e w info).2 = w1 at htr ⊢
  have h1 : w.trace <+: (d3d_reset e (w1.log Event.menuDeinit)).2.trace := by
    unfold d3d_reset
    dsimp only
    refine trace_prefix_log _ _ _ ?_
    rw [trace_next]
    refine trace_prefix_log _ _ _ ?_
    rw [htr]
  generalize d3d_reset e (w1.log Event.menuDeinit) = rs at h1 ⊢
  by_cases hg : w.g_pD3D8 = 0
  · rw [if_pos hg]
    exact trace_prefix_init_base e w d3d info
  · rw [if_neg hg]
    by_cases hn : d3d.needs_restore = true
    · rw [if_pos hn]
      by_cases hr : rs.1 = false
      · rw [if_pos hr]
        refine trace_prefix_log _ _ _ ?_
        refine List.IsPrefix.trans ?_ (trace_prefix_init_base e _ _ info)
        exact trace_prefix_log _ _ _ (h1.trans (deinitialize_keeps_trace rs.2 d3d))
      · rw [if_neg hr]
        exact trace_prefix_log _ _ _ h1
    · rw [if_neg hn]

/-- The statements of d3d8_initialize from the chain on keep the calls made before
them. -/
theorem trace_prefix_initialize_chain {F : Type} (ops : FloatOps F) (e : Env F)
    (r : Res F Bool) (info : VideoInfo) :
    r.world.trace <+: (d3d8_initialize_chain ops e r info).world.trace := by
  unfold d3d8_initialize_chain
  dsimp only
  have h1 := trace_prefix_init_chain e r.world r.d3d info
  generalize d3d8_init_chain e r.world r.d3d info = rc at h1 ⊢
  split_ifs
  · exact List.prefix_refl _
  · exact h1
  · exact trace_prefix_log _ _ _ (trace_prefix_log _ _ _ h1)
  · exact trace_prefix_log _ _ _ (trace_prefix_log _ _ _ h1)

/-- The function d3d8_initialize keeps the calls made before it. -/
theorem initialize_keeps_trace {F : Type} (ops : FloatOps F) (e : Env F) (w : World F)
    (d3d : D3DVideo F) (info : VideoInfo) :
    w.trace <+: ( d3d8_initialize ops e w (some d3d) info).world.trace := by
  rw [initialize_blocks]
  exact (trace_prefix_initialize_device e w d3d info).trans
    (trace_prefix_initialize_chain ops e _ info)

/-- The function d3d_restore makes the calls of d3d8_deinitialize first. -/
theorem trace_prefix_restore {F : Type} (ops : FloatOps F) (e : Env F) (w : World F)
    (d3d : D3DVideo F) :
    ∃ rest, (d3d_restore ops e w (some d3d)).world.trace
      = ( d3d8_deinitialize w (some d3d)).1.trace ++ rest := by
  have h : ( d3d8_deinitialize w (some d3d)).1.trace
      <+: (d3d_restore ops e w (some d3d)).world.trace := by
    unfold d3d_restore
    dsimp only
    have hd : ( d3d8_deinitialize w (some d3d)).2.getD d3d
        = { d3d with renderchain_data := none,
                     menu_display := { d3d.menu_display with buffer := 0, decl := 0 } } := rfl
    rw [hd]
    split_ifs <;> exact initialize_keeps_trace ops e _ _ _
  obtain ⟨t, ht⟩ := h
  exact ⟨t, ht.symm⟩

/-- C24: after d3d8_deinitialize the driver has no chain, and the buffer and the
declaration of its menu display are NULL; after a successful d3d8_initialize it has a
chain and a buffer of the menu display, with the offset 0 and the size 1024. The
function d3d8_initialize calls d3d8_init_chain on the driver as its first block left
it, and the first block leaves a chain that is NULL as it is; d3d_restore runs
d3d8_initialize on the driver that d3d8_deinitialize left, which has no chain;
d3d8_init_internal runs it on a driver with the chain it was entered with, which for
d3d8_init is the zeroed driver; so d3d8_init_chain never finds a chain. A second
d3d8_deinitialize in a row finds no chain, frees the font and a NULL buffer, and
leaves the driver as it is. The chain that d3d8_deinitialize finds is released: the
calls it makes are the release of the font, the release of the texture of the chain
when it has one, the release of the vertex buffer of the chain, and the release of the
buffer of the menu display, in this order and nothing else; on a driver without a chain
they are the release of the font and of the buffer of the menu display. The calls of
d3d_restore begin with those of d3d8_deinitialize, so the chain is released before
d3d8_init_chain makes the next one. -/
theorem render_chain_lifecycle {F : Type} (ops : FloatOps F) (e : Env F) (w : World F)
    (d3d : D3DVideo F) (info : VideoInfo) :
    (∃ d, ( d3d8_deinitialize w (some d3d)).2 = some d
      ∧ d.renderchain_data = none ∧ d.menu_display.buffer = 0 ∧ d.menu_display.decl = 0)
    ∧ (( d3d8_initialize ops e w (some d3d) info).ret = true →
        ∃ d, ( d3d8_initialize ops e w (some d3d) info).d3d = some d
          ∧ d.renderchain_data.isSome = true ∧ d.menu_display.buffer ≠ 0
          ∧ d.menu_display.offset = 0 ∧ d.menu_display.size = 1024)
    ∧ d3d8_initialize ops e w (some d3d) info
        = d3d8_initialize_chain ops e (d3d8_initialize_device e w d3d info) info
    ∧ (d3d.renderchain_data = none →
        (d3d8_initialize_device e w d3d info).d3d.renderchain_data = none)
    ∧ (∃ w1 d1, d3d8_deinitialize w (some d3d) = (w1, some d1)
        ∧ d1.renderchain_data = none
        ∧ (d3d_restore ops e w (some d3d)).ret
            = ( d3d8_initialize ops e w1 (some d1) d1.video_info).ret
        ∧ (d3d_restore ops e w (some d3d)).world
            = ( d3d8_initialize ops e w1 (some d1) d1.video_info).world
        ∧ (d3d8_initialize_device e w1 d1 d1.video_info).d3d.renderchain_data = none)
    ∧ (∃ w1 d1, d1.renderchain_data = d3d.renderchain_data
        ∧ (d3d8_init_internal ops e w d3d info).ret
            = ( d3d8_initialize ops e w1 (some d1) info).ret
        ∧ (d3d8_init_internal ops e w d3d info).d3d
            = ( d3d8_initialize ops e w1 (some d1) info).d3d.getD d1)
    ∧ (zero_d3d_video ops : D3DVideo F).renderchain_data = none
    ∧ (∀ d, (d3d8_init ops e w info).2 = some d →
        ∃ w0, (d3d8_init_internal ops e w0 (zero_d3d_video ops) info).ret = true
          ∧ d = { (d3d8_init_internal ops e w0 (zero_d3d_video ops) info).d3d with
                  keep_aspect := info.force_aspect })
    ∧ d3d8_deinitialize ( d3d8_deinitialize w (some d3d)).1 ( d3d8_deinitialize w (some d3d)).2
        = (((( d3d8_deinitialize w (some d3d)).1.log Event.fontFreeOsd).log
              (Event.vertexBufferFree 0)),
           ( d3d8_deinitialize w (some d3d)).2)
    ∧ (∀ chain, d3d.renderchain_data = some chain →
        ( d3d8_deinitialize w (some d3d)).1.trace
          = w.trace ++ (Event.fontFreeOsd
              :: (if chain.tex ≠ 0 then [Event.textureFree chain.tex] else []))
              ++ [Event.vertexBufferFree chain.vertex_buf,
                  Event.vertexBufferFree d3d.menu_display.buffer])
    ∧ (d3d.renderchain_data = none →
        ( d3d8_deinitialize w (some d3d)).1.trace
          = w.trace ++ [Event.fontFreeOsd, Event.vertexBufferFree d3d.menu_display.buffer])
    ∧ (∃ rest, (d3d_restore ops e w (some d3d)).world.trace
        = ( d3d8_deinitialize w (some d3d)).1.trace ++ rest) := by
  refine ⟨⟨_, rfl, rfl, rfl, rfl⟩, ?_, rfl,
    (initialize_device_keeps e w d3d info).2.1, ?_,
    init_internal_runs_initialize ops e w d3d info, rfl,
    fun d hd => init_runs_init_internal ops e w info d hd, rfl,
    fun chain hc => trace_deinitialize_chain w d3d chain hc,
    fun hc => trace_deinitialize_no_chain w d3d hc,
    trace_prefix_restore ops e w d3d⟩
  · intro hret
    rw [initialize_blocks] at hret ⊢
    obtain ⟨d, _, _, hsome, hc, hb, ho, hsz, _⟩ :=
      initialize_chain_success ops e (d3d8_initialize_device e w d3d info) info hret
    exact ⟨d, hsome, hc, hb, ho, hsz⟩
  · refine ⟨_, _, rfl, rfl, ?_, ?_,
      (initialize_device_keeps e _ _ _).2.1 rfl⟩
    · unfold d3d_restore
      dsimp only
      split_ifs with h
      · exact h.symm
      · simpa using h
    · unfold d3d_restore
      dsimp only
      split_ifs <;> rfl

/-- C24 at a concrete input: d3d8_initialize succeeds on the lost sample driver and leaves
a chain and the buffer 5 of the menu display; and d3d8_deinitialize on the sample driver,
whose chain has the texture 8 and the vertex buffer 9, releases the font, the texture 8,
the vertex buffer 9 and the buffer 10 of the menu display. -/
theorem render_chain_lifecycle_witness :
    ( d3d8_initialize exactOps sampleEnv sampleWorld (some sampleLostD3D) sampleInfo).ret = true
    ∧ (∃ d, ( d3d8_initialize exactOps sampleEnv sampleWorld (some sampleLostD3D)
          sampleInfo).d3d = some d
        ∧ d.renderchain_data.isSome = true ∧ d.menu_display.buffer ≠ 0
        ∧ d.menu_display.offset = 0 ∧ d.menu_display.size = 1024)
    ∧ sampleLostD3D.renderchain_data = some sampleChain
    ∧ ( d3d8_deinitialize sampleWorld (some sampleLostD3D)).1.trace
        = sampleWorld.trace ++ (Event.fontFreeOsd
            :: (if sampleChain.tex ≠ 0 then [Event.textureFree sampleChain.tex] else []))
            ++ [Event.vertexBufferFree sampleChain.vertex_buf,
                Event.vertexBufferFree sampleLostD3D.menu_display.buffer] := by
  have hret : ( d3d8_initialize exactOps sampleEnv sampleWorld (some sampleLostD3D)
      sampleInfo).ret = true := by decide
  exact ⟨hret, (render_chain_lifecycle exactOps sampleEnv sampleWorld sampleLostD3D
    sampleInfo).2.1 hret, rfl,
    (render_chain_lifecycle exactOps sampleEnv sampleWorld sampleLostD3D
      sampleInfo).2.2.2.2.2.2.2.2.2.1 sampleChain rfl⟩

/-! ### A request to resize is served by the next frame -/

/-- The driver that d3d_restore leaves has the should_resize it was entered with. -/
theorem restore_keeps_should_resize {F : Type} (ops : FloatOps F) (e : Env F) (w : World F)
    (d3d : D3DVideo F) :
    ((d3d_restore ops e w (some d3d)).d3d.getD d3d).should_resize = d3d.should_resize := by
  unfold d3d_restore
  dsimp only
  have hd : ( d3d8_deinitialize w (some d3d)).2.getD d3d
      = { d3d with renderchain_data := none,
                   menu_display := { d3d.menu_display with buffer := 0, decl := 0 } } := rfl
  rw [hd]
  obtain ⟨d, hsome, hfields⟩ := initialize_d3d ops e ( d3d8_deinitialize w (some d3d)).1
    { d3d with renderchain_data := none,
               menu_display := { d3d.menu_display with buffer := 0, decl := 0 } }
    d3d.video_info
  have hsr : d.should_resize = d3d.should_resize := by rw [hfields]
  split_ifs
  · rw [hsome]
    exact hsr
  · rw [hsome]
    exact hsr

/-- C5, the claim as stated fails: the sample driver after the device was lost has
should_resize clear and, here, the viewport (3, 4, 5, 6); a frame on it runs the restore,
whose d3d8_initialize computes the viewport anew, and returns true with the viewport
(80, 0, 480, 480) and should_resize still clear. -/
theorem d3d8_frame_restore_changes_viewport :
    ({ sampleLostD3D with final_viewport := ⟨3, 4, 5, 6⟩ } : D3DVideo ℚ).should_resize = false
    ∧ (d3d8_frame exactOps sampleEnv sampleWorld
        { sampleLostD3D with final_viewport := ⟨3, 4, 5, 6⟩ }
        (some []) 320 240 0 640 none sampleFrameInfo).ret = true
    ∧ (d3d8_frame exactOps sampleEnv sampleWorld
        { sampleLostD3D with final_viewport := ⟨3, 4, 5, 6⟩ }
        (some []) 320 240 0 640 none sampleFrameInfo).d3d.should_resize = false
    ∧ (d3d8_frame exactOps sampleEnv sampleWorld
        { sampleLostD3D with final_viewport := ⟨3, 4, 5, 6⟩ }
        (some []) 320 240 0 640 none sampleFrameInfo).d3d.final_viewport
      = ⟨80, 0, 480, 480⟩
    ∧ (d3d8_frame exactOps sampleEnv sampleWorld
        { sampleLostD3D with final_viewport := ⟨3, 4, 5, 6⟩ }
        (some []) 320 240 0 640 none sampleFrameInfo).d3d.final_viewport
      ≠ ({ sampleLostD3D with final_viewport := ⟨3, 4, 5, 6⟩ } : D3DVideo ℚ).final_viewport := by
  refine ⟨rfl, ?_, ?_, ?_, ?_⟩
  · decide!
  · decide!
  · decide!
  · decide!

/-- C5, amended: d3d8_set_rotation stores the rotation and sets should_resize, and
d3d8_set_aspect_ratio and d3d8_apply_state_changes set should_resize; a d3d8_frame with
a frame that is not NULL, no restore pending and should_resize set leaves the viewport
that d3d8_set_viewport computes from the width and height of the frame information,
and clears should_resize; a frame with should_resize clear that runs no restore (a NULL
frame, no restore pending, or a minimised window) leaves final_viewport as it was; and
a frame with should_resize clear that runs the restore (a frame that is not NULL, a
restore pending, the window not minimised) leaves the final_viewport that d3d_restore
left, and should_resize clear when the restore succeeded. -/
theorem resize_request_served_by_next_frame {F : Type} (ops : FloatOps F) (e : Env F)
    (w : World F) (d3d : D3DVideo F) (rot aspect_ratio_idx : Nat)
    (frame : Option (List Nat)) (frame_width frame_height frame_count pitch : Nat)
    (msg : Option String) (video_info : VideoFrameInfo) :
    (∃ d, d3d8_set_rotation (some d3d) rot = some d ∧ d.dev_rotation = rot
        ∧ d.should_resize = true)
    ∧ (∃ d, (d3d8_set_aspect_ratio e w (some d3d) aspect_ratio_idx).2 = some d
        ∧ d.should_resize = true)
    ∧ (∃ d, d3d8_apply_state_changes (some d3d) = some d ∧ d.should_resize = true)
    ∧ (frame ≠ none → d3d.needs_restore = false → d3d.should_resize = true →
        (d3d8_frame ops e w d3d frame frame_width frame_height frame_count pitch msg
            video_info).d3d.final_viewport
          = (d3d8_set_viewport ops e w d3d video_info.width video_info.height false
              true).final_viewport
        ∧ (d3d8_frame ops e w d3d frame frame_width frame_height frame_count pitch msg
            video_info).d3d.should_resize = false)
    ∧ (d3d.should_resize = false →
        (frame = none ∨ d3d.needs_restore = false ∨ e.is_iconic = true) →
        (d3d8_frame ops e w d3d frame frame_width frame_height frame_count pitch msg
            video_info).d3d.final_viewport = d3d.final_viewport)
    ∧ (d3d.should_resize = false → frame ≠ none → d3d.needs_restore = true →
        e.is_iconic = false →
        (d3d8_frame ops e w d3d frame frame_width frame_height frame_count pitch msg
            video_info).d3d.final_viewport
          = ((d3d_restore ops e w (some d3d)).d3d.getD d3d).final_viewport
        ∧ (d3d8_frame ops e w d3d frame frame_width frame_height frame_count pitch msg
            video_info).d3d.should_resize = false) := by
  refine ⟨⟨_, rfl, rfl, rfl⟩, ⟨_, rfl, rfl⟩, ⟨_, rfl, rfl⟩, ?_, ?_, ?_⟩
  · intro hf hn hs
    cases frame with
    | none => exact absurd rfl hf
    | some f =>
      unfold d3d8_frame
      dsimp only
      rw [if_neg (by simp [hn])]
      have h := d3d8_frame_draw_viewport ops e w d3d frame_width frame_height pitch msg
        video_info
      rw [h.1, h.2]
      unfold d3d8_frame_resize
      rw [if_pos hs]
      exact ⟨rfl, rfl⟩
  · intro hs hcase
    cases frame with
    | none => rfl
    | some f =>
      unfold d3d8_frame
      dsimp only
      have hdraw : (d3d8_frame_draw ops e w d3d frame_width frame_height pitch msg
          video_info).d3d.final_viewport = d3d.final_viewport := by
        rw [(d3d8_frame_draw_viewport ops e w d3d frame_width frame_height pitch msg
          video_info).1]
        unfold d3d8_frame_resize
        rw [if_neg (by simp [hs])]
      by_cases hn : d3d.needs_restore = true
      · rw [if_pos hn]
        rcases hcase with h | h | h
        · exact absurd h (by simp)
        · rw [hn] at h
          exact absurd h (by simp)
        · rw [if_pos h]
      · rw [if_neg hn]
        exact hdraw
  · intro hs hf hn hi
    cases frame with
    | none => exact absurd rfl hf
    | some f =>
      have hsr := restore_keeps_should_resize ops e w d3d
      rw [hs] at hsr
      unfold d3d8_frame
      dsimp only
      rw [if_pos hn, if_neg (by simp [hi])]
      generalize (d3d_restore ops e w (some d3d)).d3d.getD d3d = d1 at hsr ⊢
      generalize (d3d_restore ops e w (some d3d)).world = w1
      by_cases hr : (d3d_restore ops e w (some d3d)).ret = false
      · rw [if_pos hr]
        exact ⟨rfl, hsr⟩
      · rw [if_neg hr]
        have h := d3d8_frame_draw_viewport ops e w1 d1 frame_width frame_height pitch msg
          video_info
        rw [h.1, h.2]
        unfold d3d8_frame_resize
        rw [if_neg (by simp [hsr])]
        exact ⟨rfl, hsr⟩

/-- C5, amended, at a concrete input: a driver with should_resize set and a window of
640 by 480 has should_resize clear after a frame, and the viewport of
d3d8_set_viewport; and a frame on the driver after the device was lost, with
should_resize clear, leaves the viewport that d3d_restore left. -/
theorem resize_request_served_by_next_frame_witness :
    ((d3d8_frame exactOps sampleEnv sampleWorld { sampleD3D with should_resize := true }
        (some []) 320 240 0 640 none sampleFrameInfo).d3d.final_viewport
      = (d3d8_set_viewport exactOps sampleEnv sampleWorld
          { sampleD3D with should_resize := true } 640 480 false true).final_viewport
    ∧ (d3d8_frame exactOps sampleEnv sampleWorld { sampleD3D with should_resize := true }
        (some []) 320 240 0 640 none sampleFrameInfo).d3d.should_resize = false)
    ∧ ((d3d8_frame exactOps sampleEnv sampleWorld sampleLostD3D
        (some []) 320 240 0 640 none sampleFrameInfo).d3d.final_viewport
      = ((d3d_restore exactOps sampleEnv sampleWorld (some sampleLostD3D)).d3d.getD
          sampleLostD3D).final_viewport
    ∧ (d3d8_frame exactOps sampleEnv sampleWorld sampleLostD3D
        (some []) 320 240 0 640 none sampleFrameInfo).d3d.should_resize = false) :=
  ⟨(resize_request_served_by_next_frame exactOps sampleEnv sampleWorld
      { sampleD3D with should_resize := true } 0 0 (some []) 320 240 0 640 none
      sampleFrameInfo).2.2.2.1 (by simp) rfl rfl,
   (resize_request_served_by_next_frame exactOps sampleEnv sampleWorld
      sampleLostD3D 0 0 (some []) 320 240 0 640 none
      sampleFrameInfo).2.2.2.2.2 rfl (by simp) rfl rfl⟩

end D3D8
